import Mathlib

/-!
Omnibook low-level access layer.

A shallow embedding of the embedded-controller handshake (`ec.c`), the
Toshiba SMI backend (`nbsmi.c`) and the register-dump parser (`dump.c`).

Port I/O, delays and kernel services are not pure functions: they are taken
from a `Machine` (and later a `Platform`) record of state-passing primitives
over an arbitrary machine state `σ`.  Every primitive that the driver calls is
also appended to a chronological trace so that statements such as "no port is
written" can be expressed.  C integers are `Nat`/`Int` with explicit reduction
modulo the width of the C type.
-/

namespace Omnibook

/-! ## errno values (include/asm-generic/errno*.h) -/

def EIO : Int := 5
def ENOMEM : Int := 12
def ENODEV : Int := 19
def EINVAL : Int := 22
def ETIME : Int := 62
def ERESTARTSYS : Int := 512

/-! ## Observable actions -/

/-- One primitive action performed by the driver, in program order. -/
inductive Event where
  | inb (port val : Nat)
  | outb (val port : Nat)
  | inw (port val : Nat)
  | outw (val port : Nat)
  | inl (port val : Nat)
  | outl (val port : Nat)
  | mdelay (ms : Nat)
  | ec_lock
  | ec_unlock
  | acpi_ec_read (addr : Nat)
  | acpi_ec_write (addr data : Nat)
  | smi_spin_lock
  | smi_spin_unlock
  | smi_mutex_lock
  | smi_mutex_unlock
  | kmalloc (ok : Bool)
  | kfree
  | pci_get_device (vendor device : Nat) (found : Bool)
  | pci_enable_device (ret : Int)
  | pci_read_config_dword (off val : Nat)
  | pci_dev_put
  | request_region (port len : Nat) (ok : Bool)
  | release_region (port len : Nat)
  | smi_trap (word port ax : Nat)
  | kref_get
  | kref_put
  | printk
  deriving DecidableEq, Repr

/-- Byte-wide port I/O, millisecond delay and the optional ACPI EC driver,
as state-passing primitives over the machine state `σ`. -/
structure Machine (σ : Type) where
  /-- Port read: `inb(port)`. -/
  inb : Nat → σ → Nat × σ
  /-- Port write: `outb(val, port)`. -/
  outb : Nat → Nat → σ → σ
  /-- Busy delay: `mdelay(ms)`. -/
  mdelay : Nat → σ → σ
  /-- Whether `CONFIG_ACPI_EC` is defined. -/
  config_acpi_ec : Bool
  /-- The kernel flag `acpi_disabled`. -/
  acpi_disabled : Bool
  /-- ACPI `ec_read(addr, data)`: return value and the content of `*data` afterwards. -/
  ec_read : Nat → Nat → σ → (Int × Nat) × σ
  /-- ACPI `ec_write(addr, data)`. -/
  ec_write : Nat → Nat → σ → Int × σ

/-- Machine state together with the trace of actions performed so far. -/
structure World (σ : Type) where
  m : σ
  trace : List Event

variable {σ : Type}

/-- Append one event to the trace. -/
def World.log (w : World σ) (e : Event) : World σ :=
  { w with trace := w.trace ++ [e] }

/-- `inb(port)`: the value is a `u8`. -/
def inb (M : Machine σ) (port : Nat) (w : World σ) : Nat × World σ :=
  let r := M.inb port w.m
  (r.1 % 256, { m := r.2, trace := w.trace ++ [Event.inb port (r.1 % 256)] })

/-- `outb(val, port)`. -/
def outb (M : Machine σ) (val port : Nat) (w : World σ) : World σ :=
  { m := M.outb (val % 256) port w.m, trace := w.trace ++ [Event.outb (val % 256) port] }

/-- `mdelay(ms)`. -/
def mdelay (M : Machine σ) (ms : Nat) (w : World σ) : World σ :=
  { m := M.mdelay ms w.m, trace := w.trace ++ [Event.mdelay ms] }

/-! ## ec.c -/

def OMNIBOOK_TIMEOUT : Nat := 250

def OMNIBOOK_EC_DATA : Nat := 0x62
def OMNIBOOK_EC_SC : Nat := 0x66

def OMNIBOOK_EC_STAT_OBF : Nat := 0x01
def OMNIBOOK_EC_STAT_IBF : Nat := 0x02

def OMNIBOOK_EC_CMD_READ : Nat := 0x80
def OMNIBOOK_EC_CMD_WRITE : Nat := 0x81

def OMNIBOOK_KBC_DATA : Nat := 0x60
def OMNIBOOK_KBC_SC : Nat := 0x64

def OMNIBOOK_KBC_STAT_OBF : Nat := 0x01
def OMNIBOOK_KBC_STAT_IBF : Nat := 0x02

/-- The loop `while (!(inb(sc) & event) && timeout--) mdelay(1);` of the
`OBF` case.  The argument is the current value of `timeout`; the result is the
value of `timeout` when the loop is left (`-1` when the post-decrement ran at
zero). -/
def wait_obf_loop (M : Machine σ) (sc event : Nat) : Nat → World σ → Int × World σ
  | 0, w =>
    let r := inb M sc w
    if r.1 &&& event = 0 then (-1, r.2) else (0, r.2)
  | t + 1, w =>
    let r := inb M sc w
    if r.1 &&& event = 0 then wait_obf_loop M sc event t (mdelay M 1 r.2)
    else (((t + 1 : Nat) : Int), r.2)

/-- The loop `while ((inb(sc) & event) && timeout--) mdelay(1);` of the
`IBF` case. -/
def wait_ibf_loop (M : Machine σ) (sc event : Nat) : Nat → World σ → Int × World σ
  | 0, w =>
    let r := inb M sc w
    if r.1 &&& event ≠ 0 then (-1, r.2) else (0, r.2)
  | t + 1, w =>
    let r := inb M sc w
    if r.1 &&& event ≠ 0 then wait_ibf_loop M sc event t (mdelay M 1 r.2)
    else (((t + 1 : Nat) : Int), r.2)

/-- `static int omnibook_ec_wait(u8 event)`. -/
def omnibook_ec_wait (M : Machine σ) (event : Nat) (w : World σ) : Int × World σ :=
  if event = OMNIBOOK_EC_STAT_OBF then
    let r := wait_obf_loop M OMNIBOOK_EC_SC event OMNIBOOK_TIMEOUT w
    if r.1 > 0 then (0, r.2) else (-ETIME, r.2)
  else if event = OMNIBOOK_EC_STAT_IBF then
    let r := wait_ibf_loop M OMNIBOOK_EC_SC event OMNIBOOK_TIMEOUT w
    if r.1 > 0 then (0, r.2) else (-ETIME, r.2)
  else (-EINVAL, w)

/-- `static int omnibook_kbc_wait(u8 event)`. -/
def omnibook_kbc_wait (M : Machine σ) (event : Nat) (w : World σ) : Int × World σ :=
  if event = OMNIBOOK_KBC_STAT_OBF then
    let r := wait_obf_loop M OMNIBOOK_KBC_SC event OMNIBOOK_TIMEOUT w
    if r.1 > 0 then (0, r.2) else (-ETIME, r.2)
  else if event = OMNIBOOK_KBC_STAT_IBF then
    let r := wait_ibf_loop M OMNIBOOK_KBC_SC event OMNIBOOK_TIMEOUT w
    if r.1 > 0 then (0, r.2) else (-ETIME, r.2)
  else (-EINVAL, w)

/-- The part of `omnibook_ec_read` after the `#ifdef CONFIG_ACPI_EC` block:
the handshake under `omnibook_ec_lock`.  `data` is the content of the
caller's byte on entry; the second component of the result is its content on
return. -/
def ec_read_manual (M : Machine σ) (addr data : Nat) (w : World σ) : (Int × Nat) × World σ :=
  let w0 := w.log Event.ec_lock
  let r1 := omnibook_ec_wait M OMNIBOOK_EC_STAT_IBF w0
  if r1.1 ≠ 0 then ((r1.1, data), r1.2.log Event.ec_unlock) else
  let w1 := outb M OMNIBOOK_EC_CMD_READ OMNIBOOK_EC_SC r1.2
  let r2 := omnibook_ec_wait M OMNIBOOK_EC_STAT_IBF w1
  if r2.1 ≠ 0 then ((r2.1, data), r2.2.log Event.ec_unlock) else
  let w2 := outb M addr OMNIBOOK_EC_DATA r2.2
  let r3 := omnibook_ec_wait M OMNIBOOK_EC_STAT_OBF w2
  if r3.1 ≠ 0 then ((r3.1, data), r3.2.log Event.ec_unlock) else
  let r4 := inb M OMNIBOOK_EC_DATA r3.2
  ((r3.1, r4.1), r4.2.log Event.ec_unlock)

/-- `int omnibook_ec_read(u8 addr, u8 *data)`. -/
def omnibook_ec_read (M : Machine σ) (addr data : Nat) (w : World σ) : (Int × Nat) × World σ :=
  if M.config_acpi_ec && !M.acpi_disabled then
    let r := M.ec_read (addr % 256) data w.m
    let w0 : World σ := { m := r.2, trace := w.trace ++ [Event.acpi_ec_read (addr % 256)] }
    if r.1.1 = 0 then ((r.1.1, r.1.2 % 256), w0)
    else ec_read_manual M addr (r.1.2 % 256) w0
  else ec_read_manual M addr data w

/-- The part of `omnibook_ec_write` after the `#ifdef CONFIG_ACPI_EC` block. -/
def ec_write_manual (M : Machine σ) (addr data : Nat) (w : World σ) : Int × World σ :=
  let w0 := w.log Event.ec_lock
  let r1 := omnibook_ec_wait M OMNIBOOK_EC_STAT_IBF w0
  if r1.1 ≠ 0 then (r1.1, r1.2.log Event.ec_unlock) else
  let w1 := outb M OMNIBOOK_EC_CMD_WRITE OMNIBOOK_EC_SC r1.2
  let r2 := omnibook_ec_wait M OMNIBOOK_EC_STAT_IBF w1
  if r2.1 ≠ 0 then (r2.1, r2.2.log Event.ec_unlock) else
  let w2 := outb M addr OMNIBOOK_EC_DATA r2.2
  let r3 := omnibook_ec_wait M OMNIBOOK_EC_STAT_IBF w2
  if r3.1 ≠ 0 then (r3.1, r3.2.log Event.ec_unlock) else
  let w3 := outb M data OMNIBOOK_EC_DATA r3.2
  (r3.1, w3.log Event.ec_unlock)

/-- `int omnibook_ec_write(u8 addr, u8 data)`. -/
def omnibook_ec_write (M : Machine σ) (addr data : Nat) (w : World σ) : Int × World σ :=
  if M.config_acpi_ec && !M.acpi_disabled then
    let r := M.ec_write (addr % 256) (data % 256) w.m
    let w0 : World σ :=
      { m := r.2, trace := w.trace ++ [Event.acpi_ec_write (addr % 256) (data % 256)] }
    if r.1 = 0 then (r.1, w0) else ec_write_manual M addr data w0
  else ec_write_manual M addr data w

/-- The first wait of `omnibook_ec_write`, entered right after taking the lock. -/
def ec_write_wait1 (M : Machine σ) (w : World σ) : Int × World σ :=
  omnibook_ec_wait M OMNIBOOK_EC_STAT_IBF (w.log Event.ec_lock)

/-- The second wait of `omnibook_ec_write`, entered after the command byte was
written to the command port. -/
def ec_write_wait2 (M : Machine σ) (w : World σ) : Int × World σ :=
  omnibook_ec_wait M OMNIBOOK_EC_STAT_IBF
    (outb M OMNIBOOK_EC_CMD_WRITE OMNIBOOK_EC_SC (ec_write_wait1 M w).2)

/-- The third wait of `omnibook_ec_write`, entered after the address was
written to the data port. -/
def ec_write_wait3 (M : Machine σ) (addr : Nat) (w : World σ) : Int × World σ :=
  omnibook_ec_wait M OMNIBOOK_EC_STAT_IBF
    (outb M addr OMNIBOOK_EC_DATA (ec_write_wait2 M w).2)

/-- The first wait of `omnibook_ec_read`, entered right after taking the lock. -/
def ec_read_wait1 (M : Machine σ) (w : World σ) : Int × World σ :=
  omnibook_ec_wait M OMNIBOOK_EC_STAT_IBF (w.log Event.ec_lock)

/-- The second wait of `omnibook_ec_read`, entered after the command byte was
written to the command port. -/
def ec_read_wait2 (M : Machine σ) (w : World σ) : Int × World σ :=
  omnibook_ec_wait M OMNIBOOK_EC_STAT_IBF
    (outb M OMNIBOOK_EC_CMD_READ OMNIBOOK_EC_SC (ec_read_wait1 M w).2)

/-- The third wait of `omnibook_ec_read` (for output buffer full), entered
after the address was written to the data port. -/
def ec_read_wait3 (M : Machine σ) (addr : Nat) (w : World σ) : Int × World σ :=
  omnibook_ec_wait M OMNIBOOK_EC_STAT_OBF
    (outb M addr OMNIBOOK_EC_DATA (ec_read_wait2 M w).2)

/-- Number of reads of the status port `sc` recorded in a trace. -/
def statusPolls (sc : Nat) (tr : List Event) : Nat :=
  tr.countP (fun e => match e with
    | Event.inb p _ => decide (p = sc)
    | _ => false)

/-- Number of port writes (`outb`) recorded in a trace. -/
def portWrites (tr : List Event) : Nat :=
  tr.countP (fun e => match e with
    | Event.outb _ _ => true
    | _ => false)

/-- Number of `mdelay` calls recorded in a trace. -/
def delays (tr : List Event) : Nat :=
  tr.countP (fun e => match e with
    | Event.mdelay _ => true
    | _ => false)

/-- The port writes (`outb`) recorded in a trace, in order. -/
def outbEvents (tr : List Event) : List Event :=
  tr.filter (fun e => match e with
    | Event.outb _ _ => true
    | _ => false)

/-- The world in front of status read number `k` (counted from 0) of a wait
loop that is still running: every earlier read was followed by `mdelay(1)`. -/
def poll_world (M : Machine σ) (sc : Nat) : Nat → World σ → World σ
  | 0, w => w
  | k + 1, w => poll_world M sc k (mdelay M 1 (inb M sc w).2)

/-- The byte that status read number `k` (counted from 0) returns. -/
def poll_value (M : Machine σ) (sc : Nat) (k : Nat) (w : World σ) : Nat :=
  (inb M sc (poll_world M sc k w)).1

/-- Whether status read number `k` (counted from 0) shows the condition a wait
for `event` is waiting for: the bit set for `OBF`, the bit clear for `IBF`. -/
def awaited (M : Machine σ) (sc event : Nat) (k : Nat) (w : World σ) : Bool :=
  if event = OMNIBOOK_EC_STAT_OBF then decide (poll_value M sc k w &&& event ≠ 0)
  else decide (poll_value M sc k w &&& event = 0)

/-- The common shape of the two wait loops: `while (busy(inb(sc)) && timeout--)
mdelay(1);`. -/
def wait_loop_gen (M : Machine σ) (sc : Nat) (busy : Nat → Bool) :
    Nat → World σ → Int × World σ
  | 0, w => if busy (inb M sc w).1 then (-1, (inb M sc w).2) else (0, (inb M sc w).2)
  | t + 1, w =>
    if busy (inb M sc w).1 then wait_loop_gen M sc busy t (mdelay M 1 (inb M sc w).2)
    else (((t + 1 : Nat) : Int), (inb M sc w).2)

/-! ## nbsmi.c -/

/-- A PCI device, as far as the backend inspects it. -/
structure PciDev where
  vendor : Nat
  device : Nat
  deriving DecidableEq, Repr

/-- The fields of `struct omnibook_operation` used by the SMI backend. -/
structure omnibook_operation where
  read_addr : Nat
  write_addr : Nat
  read_mask : Nat
  deriving DecidableEq, Repr

/-- Word and dword port I/O, the SMI trap, the kernel services used by
`nbsmi.c`, and the items that `nbsmi.c` takes from files outside this
development (`lpc_bridge_table` of compal.c, the `SMI_*` function codes of
ec.h, the detected `omnibook_ectype`). -/
structure Platform (σ : Type) extends Machine σ where
  /-- Port read: `inw(port)`. -/
  inw : Nat → σ → Nat × σ
  /-- Port write: `outw(val, port)`. -/
  outw : Nat → Nat → σ → σ
  /-- Port read: `inl(port)`. -/
  inl : Nat → σ → Nat × σ
  /-- Port write: `outl(val, port)`. -/
  outl : Nat → Nat → σ → σ
  /-- The instruction `outw %ax, port` on the SMI trigger port together with the
  firmware handler it raises; the result is the content of `%eax` afterwards. -/
  smi_trap : Nat → Nat → σ → Nat × σ
  /-- Kernel `pci_get_device(vendor, device, NULL)`. -/
  pci_get_device : Nat → Nat → σ → Option PciDev × σ
  /-- Kernel `pci_enable_device(dev)`. -/
  pci_enable_device : PciDev → σ → Int × σ
  /-- Kernel `pci_read_config_dword(dev, where, &val)`: the value read. -/
  pci_read_config_dword : PciDev → Nat → σ → Nat × σ
  /-- Kernel `pci_dev_put(dev)`. -/
  pci_dev_put : PciDev → σ → σ
  /-- Kernel `request_region(start, n, name)`: whether the range was granted. -/
  request_region : Nat → Nat → σ → Bool × σ
  /-- Kernel `release_region(start, n)`. -/
  release_region : Nat → Nat → σ → σ
  /-- Kernel `kmalloc`/`kcalloc`: whether the allocation succeeded. -/
  kmalloc : σ → Bool × σ
  /-- Kernel `mutex_lock_interruptible(&smi_lock)`: whether the wait was interrupted. -/
  mutex_lock_interruptible : σ → Bool × σ
  /-- The detected EC type bitmask `omnibook_ectype`. -/
  omnibook_ectype : Nat
  /-- The table `lpc_bridge_table[]` of (vendor, device) pairs, ended by vendor 0. -/
  lpc_bridge_table : List (Nat × Nat)
  /-- Function code `SMI_FN_PRESSED` (ec.h). -/
  SMI_FN_PRESSED : Nat
  /-- Function code `SMI_GET_KILL_SWITCH` (ec.h). -/
  SMI_GET_KILL_SWITCH : Nat
  /-- Function code `SMI_GET_AERIAL` (ec.h). -/
  SMI_GET_AERIAL : Nat

/-- The private data of the backend (`refcount`, `lpc_bridge`, `start_offset`,
`already_failed`) with the world it runs in.  `regions` and `bridge_refs` are
bookkeeping: the port ranges currently reserved by the backend and the number
of references it holds on PCI devices. -/
structure Backend (σ : Type) where
  w : World σ
  /-- `struct kref *refcount`: `none` is `NULL`, `some n` a counter of value `n`. -/
  refcount : Option Int
  /-- `struct pci_dev *lpc_bridge`: `none` is `NULL`. -/
  lpc_bridge : Option PciDev
  start_offset : Nat
  already_failed : Int
  regions : List (Nat × Nat)
  bridge_refs : Int

/-- Record an action in the trace. -/
def Backend.ev (s : Backend σ) (e : Event) : Backend σ :=
  { s with w := s.w.log e }

def TSM40 : Nat := 1 <<< 12

def PCI_VENDOR_ID_INTEL : Nat := 0x8086
def PCI_VENDOR_ID_ATI : Nat := 0x1002

def INTEL_PMBASE : Nat := 0x40
def INTEL_GPE0_EN : Nat := 0x2c

def BUFFER_SIZE : Nat := 0x20
def INTEL_OFFSET : Nat := 0x60
def INTEL_SMI_PORT : Nat := 0xb2
def ATI_OFFSET : Nat := 0xe0
def ATI_SMI_PORT : Nat := 0xb0

def EC_INDEX_PORT : Nat := 0x300
def EC_DATA_PORT : Nat := 0x301

def WLEX_MASK : Nat := 0x4
def WLAT_MASK : Nat := 0x8
def BTEX_MASK : Nat := 0x1
def BTAT_MASK : Nat := 0x2

/-- `RTC_PORT(x)` of asm/mc146818rtc.h. -/
def RTC_PORT (x : Nat) : Nat := 0x70 + x

/-! omnibook.h -/

def WIFI_EX : Nat := 1 <<< 0
def WIFI_STA : Nat := 1 <<< 1
def KILLSWITCH : Nat := 1 <<< 2
def BT_EX : Nat := 1 <<< 3
def BT_STA : Nat := 1 <<< 4

def DISPLAY_LCD_ON : Nat := 1 <<< 0
def DISPLAY_CRT_ON : Nat := 1 <<< 1
def DISPLAY_TVO_ON : Nat := 1 <<< 2
def DISPLAY_DVI_ON : Nat := 1 <<< 3
def DISPLAY_LCD_DET : Nat := 1 <<< 4
def DISPLAY_CRT_DET : Nat := 1 <<< 5
def DISPLAY_TVO_DET : Nat := 1 <<< 6
def DISPLAY_DVI_DET : Nat := 1 <<< 7

/-! Kernel services, lifted to the backend state. -/

/-- `kmalloc`/`kcalloc`. -/
def smi_kmalloc (P : Platform σ) (s : Backend σ) : Bool × Backend σ :=
  let r := P.kmalloc s.w.m
  (r.1, { s with w := { m := r.2, trace := s.w.trace ++ [Event.kmalloc r.1] } })

/-- `mutex_lock_interruptible(&smi_lock)`: `true` when interrupted.  The lock
is recorded as taken only when the wait was not interrupted. -/
def smi_mutex_lock_interruptible (P : Platform σ) (s : Backend σ) : Bool × Backend σ :=
  let r := P.mutex_lock_interruptible s.w.m
  (r.1, { s with w := { m := r.2,
                        trace := if r.1 then s.w.trace
                                 else s.w.trace ++ [Event.smi_mutex_lock] } })

/-- `request_region(start, n, OMNIBOOK_MODULE_NAME)`. -/
def smi_request_region (P : Platform σ) (start n : Nat) (s : Backend σ) : Bool × Backend σ :=
  let r := P.request_region start n s.w.m
  (r.1, { s with w := { m := r.2, trace := s.w.trace ++ [Event.request_region start n r.1] },
                 regions := if r.1 then (start, n) :: s.regions else s.regions })

/-- `release_region(start, n)`. -/
def smi_release_region (P : Platform σ) (start n : Nat) (s : Backend σ) : Backend σ :=
  { s with w := { m := P.release_region start n s.w.m,
                  trace := s.w.trace ++ [Event.release_region start n] },
           regions := s.regions.erase (start, n) }

/-- `pci_dev_put(lpc_bridge)`; a `NULL` argument is ignored by the kernel. -/
def smi_pci_dev_put (P : Platform σ) (s : Backend σ) : Backend σ :=
  match s.lpc_bridge with
  | none => s.ev Event.pci_dev_put
  | some dev =>
    { s with w := { m := P.pci_dev_put dev s.w.m, trace := s.w.trace ++ [Event.pci_dev_put] },
             bridge_refs := s.bridge_refs - 1 }

/-- `outw(val, port)`. -/
def outw (P : Platform σ) (val port : Nat) (w : World σ) : World σ :=
  { m := P.outw (val % 65536) port w.m, trace := w.trace ++ [Event.outw (val % 65536) port] }

/-- `inw(port)`: the value is a `u16`. -/
def inw (P : Platform σ) (port : Nat) (w : World σ) : Nat × World σ :=
  let r := P.inw port w.m
  (r.1 % 65536, { m := r.2, trace := w.trace ++ [Event.inw port (r.1 % 65536)] })

/-- `outl(val, port)`. -/
def outl (P : Platform σ) (val port : Nat) (w : World σ) : World σ :=
  { m := P.outl (val % 4294967296) port w.m,
    trace := w.trace ++ [Event.outl (val % 4294967296) port] }

/-- `inl(port)`: the value is a `u32`. -/
def inl (P : Platform σ) (port : Nat) (w : World σ) : Nat × World σ :=
  let r := P.inl port w.m
  (r.1 % 4294967296, { m := r.2, trace := w.trace ++ [Event.inl port (r.1 % 4294967296)] })

/-- Value of an `u32` converted to `int`. -/
def u32_to_int (x : Nat) : Int :=
  if x % 4294967296 < 2147483648 then ((x % 4294967296 : Nat) : Int)
  else ((x % 4294967296 : Nat) : Int) - 4294967296

/-- Value of an `int` converted to `u32`. -/
def int_to_u32 (x : Int) : Nat := (x % 4294967296).toNat

/-- `pci_enable_device(dev)`. -/
def smi_pci_enable_device (P : Platform σ) (dev : PciDev) (s : Backend σ) : Int × Backend σ :=
  let r := P.pci_enable_device dev s.w.m
  (r.1, { s with w := { m := r.2, trace := s.w.trace ++ [Event.pci_enable_device r.1] } })

/-- The assignment `lpc_bridge = pci_get_device(vendor, device, NULL)`; a device
that is found is returned with a reference held. -/
def smi_pci_get_device (P : Platform σ) (vendor device : Nat) (s : Backend σ) : Backend σ :=
  let r := P.pci_get_device vendor device s.w.m
  { s with w := { m := r.2,
                  trace := s.w.trace ++ [Event.pci_get_device vendor device r.1.isSome] },
           lpc_bridge := r.1,
           bridge_refs := if r.1.isSome then s.bridge_refs + 1 else s.bridge_refs }

/-- The SMI-raising `outw %ax, port`; `%eax` afterwards. -/
def smi_trap (P : Platform σ) (function port : Nat) (w : World σ) : Nat × World σ :=
  let r := P.smi_trap (function % 65536) port w.m
  (r.1 % 4294967296,
   { m := r.2,
     trace := w.trace ++ [Event.smi_trap (function % 65536) port (r.1 % 4294967296)] })

/-- `static inline u32 ati_do_smi_call(u16 function)`: the trap succeeded when
`%ax` was cleared, or else when the word read from `ATI_SMI_PORT + 1` is zero. -/
def ati_do_smi_call (P : Platform σ) (function : Nat) (s : Backend σ) : Nat × Backend σ :=
  let s0 := s.ev Event.smi_spin_lock
  let t := smi_trap P function ATI_SMI_PORT s0.w
  if t.1 % 65536 = 0 then
    (0, ({ s0 with w := t.2 } : Backend σ).ev Event.smi_spin_unlock)
  else
    let r := inw P (ATI_SMI_PORT + 1) t.2
    if r.1 = 0 then (0, ({ s0 with w := r.2 } : Backend σ).ev Event.smi_spin_unlock)
    else (int_to_u32 (- EIO), ({ s0 with w := r.2 } : Backend σ).ev Event.smi_spin_unlock)

/-- `static inline u32 intel_do_smi_call(u16 function)`; `none` when
`lpc_bridge` is `NULL`. -/
def intel_do_smi_call (P : Platform σ) (function : Nat) (s : Backend σ) :
    Option (Nat × Backend σ) :=
  match s.lpc_bridge with
  | none => none
  | some dev =>
    let s0 := s.ev Event.smi_spin_lock
    let c := P.pci_read_config_dword dev INTEL_PMBASE s0.w.m
    let w1 : World σ :=
      { m := c.2,
        trace := s0.w.trace ++ [Event.pci_read_config_dword INTEL_PMBASE (c.1 % 4294967296)] }
    let sci_en := ((c.1 % 4294967296) &&& 0xff80) + INTEL_GPE0_EN
    let st := inl P sci_en w1
    let t := smi_trap P function INTEL_SMI_PORT st.2
    let retval := if t.1 % 65536 = 0 then 0 else int_to_u32 (- EIO)
    let w2 := outl P st.1 sci_en t.2
    some (retval, ({ s0 with w := w2 } : Backend σ).ev Event.smi_spin_unlock)

/-- First loop of `nbsmi_smi_command`: `n` iterations are left and the loop
variable has value `count`. -/
def smi_write_loop (M : Machine σ) (start_offset : Nat) (inputbuffer : List Nat) :
    Nat → Nat → World σ → World σ
  | 0, _, w => w
  | n + 1, count, w =>
    smi_write_loop M start_offset inputbuffer n (count + 1)
      (outb M (inputbuffer.getD count 0) (RTC_PORT 3)
        (outb M (count + start_offset) (RTC_PORT 2) w))

/-- Second loop of `nbsmi_smi_command`, returning the bytes stored in
`outputbuffer[count ..]`. -/
def smi_read_loop (M : Machine σ) (start_offset : Nat) :
    Nat → Nat → World σ → List Nat × World σ
  | 0, _, w => ([], w)
  | n + 1, count, w =>
    let r := inb M (RTC_PORT 3) (outb M (count + start_offset) (RTC_PORT 2) w)
    let rest := smi_read_loop M start_offset n (count + 1) r.2
    (r.1 :: rest.1, rest.2)

/-- The word written to the SMI port: `function = (function & 0xff) << 8;
function |= 0xe4;` on a `u16`. -/
def smi_function_word (function : Nat) : Nat :=
  ((((function % 65536) &&& 0xff) <<< 8) % 65536) ||| 0xe4

/-- `static int nbsmi_smi_command(u16 function, const u8 *inputbuffer, u8 *outputbuffer)`.
The result carries the return value and the 32 bytes stored in
`outputbuffer`; `none` stands for `BUG()` or a `NULL` dereference. -/
def nbsmi_smi_command (P : Platform σ) (function : Nat) (inputbuffer : List Nat)
    (s : Backend σ) : Option ((Int × List Nat) × Backend σ) :=
  let w1 := smi_write_loop P.toMachine s.start_offset inputbuffer BUFFER_SIZE 0 s.w
  let s1 : Backend σ := { s with w := w1 }
  match s.lpc_bridge with
  | none => none
  | some dev =>
    let call : Option (Nat × Backend σ) :=
      if dev.vendor = PCI_VENDOR_ID_INTEL then intel_do_smi_call P (smi_function_word function) s1
      else if dev.vendor = PCI_VENDOR_ID_ATI then
        some (ati_do_smi_call P (smi_function_word function) s1)
      else none
    match call with
    | none => none
    | some c =>
      let s3 := if c.1 ≠ 0 then c.2.ev Event.printk else c.2
      let o := smi_read_loop P.toMachine s.start_offset BUFFER_SIZE 0 s3.w
      some ((u32_to_int c.1, o.1), { s3 with w := o.2 })

/-- `static int nbsmi_smi_read_command(const struct omnibook_operation *io_op, u8 *data)`.
`data` is the content of the caller's byte on entry, the result carries its
content on return. -/
def nbsmi_smi_read_command (P : Platform σ) (io_op : omnibook_operation) (data : Nat)
    (s : Backend σ) : Option ((Int × Nat) × Backend σ) :=
  if s.lpc_bridge.isNone then some ((-ENODEV, data), s)
  else
  let l := smi_mutex_lock_interruptible P s
  if l.1 then some ((-ERESTARTSYS, data), l.2)
  else
  let a := smi_kmalloc P l.2
  if a.1 = false then some ((-ENOMEM, data), a.2.ev Event.smi_mutex_unlock)
  else
  let b := smi_kmalloc P a.2
  if b.1 = false then some ((-ENOMEM, data), (b.2.ev Event.kfree).ev Event.smi_mutex_unlock)
  else
  match nbsmi_smi_command P (io_op.read_addr % 65536) (List.replicate BUFFER_SIZE 0) b.2 with
  | none => none
  | some c =>
    let s2 := ((c.2.ev Event.kfree).ev Event.kfree).ev Event.smi_mutex_unlock
    if c.1.1 ≠ 0 then some ((c.1.1, data), s2)
    else if io_op.read_mask ≠ 0 then
      some ((c.1.1, ((c.1.2.getD 0 0) &&& io_op.read_mask) % 256), s2)
    else some ((c.1.1, c.1.2.getD 0 0), s2)

/-- `static int nbsmi_smi_write_command(const struct omnibook_operation *io_op, u8 data)`. -/
def nbsmi_smi_write_command (P : Platform σ) (io_op : omnibook_operation) (data : Nat)
    (s : Backend σ) : Option (Int × Backend σ) :=
  if s.lpc_bridge.isNone then some (-ENODEV, s)
  else
  let l := smi_mutex_lock_interruptible P s
  if l.1 then some (-ERESTARTSYS, l.2)
  else
  let a := smi_kmalloc P l.2
  if a.1 = false then some (-ENOMEM, a.2.ev Event.smi_mutex_unlock)
  else
  let b := smi_kmalloc P a.2
  if b.1 = false then some (-ENOMEM, (b.2.ev Event.kfree).ev Event.smi_mutex_unlock)
  else
  match nbsmi_smi_command P (io_op.write_addr % 65536)
      ((data % 256) :: List.replicate (BUFFER_SIZE - 1) 0) b.2 with
  | none => none
  | some c => some (c.1.1, ((c.2.ev Event.kfree).ev Event.kfree).ev Event.smi_mutex_unlock)

/-- `static void nbsmi_ec_read_command(u16 index, u16 *data)`. -/
def nbsmi_ec_read_command (P : Platform σ) (index : Nat) (s : Backend σ) : Nat × Backend σ :=
  let s0 := s.ev Event.smi_spin_lock
  let r := inw P EC_DATA_PORT (outw P index EC_INDEX_PORT s0.w)
  (r.1, ({ s0 with w := r.2 } : Backend σ).ev Event.smi_spin_unlock)

/-- The probing loop `for (i = 0; !lpc_bridge && lpc_bridge_table[i].vendor; ++i)`. -/
def pci_probe_loop (P : Platform σ) : List (Nat × Nat) → Backend σ → Backend σ
  | [], s => s
  | e :: rest, s =>
    if s.lpc_bridge.isNone ∧ e.1 ≠ 0 then
      pci_probe_loop P rest (smi_pci_get_device P e.1 e.2 s)
    else s

/-- Label `out:` of `omnibook_nbsmi_init`. -/
def init_out (retval : Int) (s : Backend σ) : Int × Backend σ :=
  (retval, s.ev Event.smi_mutex_unlock)

/-- Label `error1:` of `omnibook_nbsmi_init`. -/
def init_error1 (retval : Int) (s : Backend σ) : Int × Backend σ :=
  init_out retval { (s.ev Event.kfree) with refcount := none, already_failed := 1 }

/-- Label `error2:` of `omnibook_nbsmi_init`. -/
def init_error2 (P : Platform σ) (retval : Int) (s : Backend σ) : Int × Backend σ :=
  init_error1 retval { (smi_pci_dev_put P s) with lpc_bridge := none }

/-- Label `error3:` of `omnibook_nbsmi_init`. -/
def init_error3 (P : Platform σ) (smi_port : Nat) (retval : Int) (s : Backend σ) :
    Int × Backend σ :=
  init_error2 P retval (smi_release_region P smi_port 2 s)

/-- Label `error4:` of `omnibook_nbsmi_init`. -/
def init_error4 (P : Platform σ) (smi_port : Nat) (retval : Int) (s : Backend σ) :
    Int × Backend σ :=
  init_error3 P smi_port retval (smi_release_region P EC_INDEX_PORT 2 s)

/-- The statements of `omnibook_nbsmi_init` that follow the `switch` on the
bridge vendor: the two `request_region` calls and the sanity probe. -/
def init_regions (P : Platform σ) (smi_port : Nat) (s : Backend σ) : Int × Backend σ :=
  let r1 := smi_request_region P smi_port 2 s
  if r1.1 = false then init_error2 P (-ENODEV) (r1.2.ev Event.printk)
  else
  let r2 := smi_request_region P EC_INDEX_PORT 2 r1.2
  if r2.1 = false then init_error3 P smi_port (-ENODEV) (r2.2.ev Event.printk)
  else
  let d := nbsmi_ec_read_command P P.SMI_FN_PRESSED r2.2
  if d.1 = 0xffff then init_error4 P smi_port (-ENODEV) (d.2.ev Event.printk)
  else init_out 0 d.2

/-- The statements `refcount = kmalloc(...)` (once it succeeded) and
`kref_init(refcount)`: a counter of value one. -/
def kref_init (s : Backend σ) : Backend σ :=
  { s with refcount := some 1 }

/-- `static int omnibook_nbsmi_init(const struct omnibook_operation *io_op)`;
`none` stands for `BUG()`. -/
def omnibook_nbsmi_init (P : Platform σ) (s : Backend σ) : Option (Int × Backend σ) :=
  if P.omnibook_ectype &&& TSM40 = 0 then some (-ENODEV, s)
  else if s.already_failed ≠ 0 then some (-ENODEV, s)
  else
  match s.refcount with
  | some n => some (0, { (s.ev Event.kref_get) with refcount := some (n + 1) })
  | none =>
    let a := smi_kmalloc P (s.ev Event.smi_mutex_lock)
    if a.1 = false then some (init_out (-ENOMEM) a.2)
    else
    let s2 := pci_probe_loop P P.lpc_bridge_table (kref_init a.2)
    match s2.lpc_bridge with
    | none => some (init_error1 (-ENODEV) (s2.ev Event.printk))
    | some dev =>
      let e := smi_pci_enable_device P dev s2
      if e.1 ≠ 0 then some (init_error2 P e.1 (e.2.ev Event.printk))
      else if dev.vendor = PCI_VENDOR_ID_INTEL then
        some (init_regions P INTEL_SMI_PORT { e.2 with start_offset := INTEL_OFFSET })
      else if dev.vendor = PCI_VENDOR_ID_ATI then
        some (init_regions P ATI_SMI_PORT { e.2 with start_offset := ATI_OFFSET })
      else none

/-- `static int omnibook_nbsmi_get_wireless(const struct omnibook_operation *io_op,
unsigned int *state)`.  `state` is the content of the caller's word on entry. -/
def omnibook_nbsmi_get_wireless (P : Platform σ) (state : Nat) (s : Backend σ) :
    Option ((Int × Nat) × Backend σ) :=
  match nbsmi_smi_read_command P
      { read_addr := P.SMI_GET_KILL_SWITCH, write_addr := 0, read_mask := 0 } 0 s with
  | none => none
  | some k =>
    if k.1.1 ≠ 0 then some ((k.1.1, state), k.2)
    else
    let state1 : Nat := if k.1.2 ≠ 0 then KILLSWITCH else 0
    match nbsmi_smi_read_command P
        { read_addr := P.SMI_GET_AERIAL, write_addr := 0, read_mask := 0 } k.1.2 k.2 with
    | none => none
    | some a =>
      if a.1.1 ≠ 0 then some ((a.1.1, state1), a.2)
      else
      let state2 := state1 ||| (if a.1.2 &&& WLEX_MASK ≠ 0 then WIFI_EX else 0)
      let state3 := state2 ||| (if a.1.2 &&& WLAT_MASK ≠ 0 then WIFI_STA else 0)
      let state4 := state3 ||| (if a.1.2 &&& BTEX_MASK ≠ 0 then BT_EX else 0)
      let state5 := state4 ||| (if a.1.2 &&& BTAT_MASK ≠ 0 then BT_STA else 0)
      some ((a.1.1, state5), a.2)

/-- `static const unsigned int nbsmi_display_mode_list[]`. -/
def nbsmi_display_mode_list : List Nat :=
  [DISPLAY_LCD_ON,
   DISPLAY_LCD_ON ||| DISPLAY_CRT_ON,
   DISPLAY_CRT_ON,
   DISPLAY_LCD_ON ||| DISPLAY_TVO_ON,
   DISPLAY_TVO_ON]

/-- The search loop of `omnibook_nbmsi_display_set` over the table entries from
index `i` on: the value of `matched` when the loop is left. -/
def display_set_scan (state : Nat) : List Nat → Nat → Nat
  | [], _ => 255
  | m :: rest, i => if m = state then i % 256 else display_set_scan state rest (i + 1)

/-- `static int omnibook_nbmsi_display_set(const struct omnibook_operation *io_op,
unsigned int state)`. -/
def omnibook_nbmsi_display_set (P : Platform σ) (io_op : omnibook_operation) (state : Nat)
    (s : Backend σ) : Option (Int × Backend σ) :=
  let matched := display_set_scan state nbsmi_display_mode_list 0
  if matched = 255 then some (-EINVAL, s.ev Event.printk)
  else
  match nbsmi_smi_write_command P io_op matched s with
  | none => none
  | some r =>
    if r.1 < 0 then some (r.1, r.2)
    else some (((DISPLAY_LCD_ON ||| DISPLAY_CRT_ON ||| DISPLAY_TVO_ON : Nat) : Int), r.2)

/-! ## dump.c

`ecdump_write` parses its buffer with the kernel's `sscanf` (lib/vsprintf.c).
The buffer is the list of characters of the C string in front of its
terminating NUL.  `vsscanf` below follows the kernel routine for the
directives that occur in the two format strings of `ecdump_write`: literal
characters, white space, `%x` and `%u` without width or qualifier. -/

/-- Kernel `isspace`: tab to carriage return, blank, and 0xa0. -/
def isspace (c : Char) : Bool :=
  decide (c.toNat = 32 ∨ (9 ≤ c.toNat ∧ c.toNat ≤ 13) ∨ c.toNat = 160)

/-- Kernel `isdigit`. -/
def isdigit (c : Char) : Bool :=
  decide (48 ≤ c.toNat ∧ c.toNat ≤ 57)

/-- Kernel `isxdigit`. -/
def isxdigit (c : Char) : Bool :=
  decide ((48 ≤ c.toNat ∧ c.toNat ≤ 57) ∨ (65 ≤ c.toNat ∧ c.toNat ≤ 70) ∨
    (97 ≤ c.toNat ∧ c.toNat ≤ 102))

/-- Code of `toupper(c)` for the kernel's ASCII letters. -/
def toupper (c : Char) : Nat :=
  if 97 ≤ c.toNat ∧ c.toNat ≤ 122 then c.toNat - 32 else c.toNat

/-- The digit value used by `simple_strtoul`:
`isdigit(*cp) ? *cp - '0' : toupper(*cp) - 'A' + 10`. -/
def digit_value (c : Char) : Nat :=
  if isdigit c then c.toNat - 48 else toupper c - 65 + 10

/-- The digit loop of `simple_strtoul`: the accumulated value and the rest of
the string (`*endp`).  The kernel accumulates in `unsigned long`; the value is
kept unbounded here and reduced when it is stored. -/
def strtoul_digits (base : Nat) : List Char → Nat → Nat × List Char
  | [], acc => (acc, [])
  | c :: cs, acc =>
    if isxdigit c = true ∧ digit_value c < base then
      strtoul_digits base cs (acc * base + digit_value c)
    else (acc, c :: cs)

/-- Kernel `simple_strtoul(cp, &endp, base)` for a nonzero base: with base 16
a leading `0x`/`0X` is skipped. -/
def simple_strtoul (cp : List Char) (base : Nat) : Nat × List Char :=
  match cp with
  | c0 :: c1 :: rest =>
    if base = 16 ∧ c0.toNat = 48 ∧ toupper c1 = 88 then strtoul_digits base rest 0
    else strtoul_digits base cp 0
  | _ => strtoul_digits base cp 0

/-- The directives of a `sscanf` format that `ecdump_write` uses. -/
inductive Fmt where
  /-- An ordinary character, to be matched exactly. -/
  | lit (c : Char)
  /-- White space: matches any amount of white space, including none. -/
  | space
  /-- An unsigned conversion: `%x` has base 16, `%u` base 10. -/
  | conv (base : Nat)
  deriving DecidableEq, Repr

/-- Kernel `vsscanf` on a list of directives: the values assigned so far are
in `acc`, one per conversion, each stored through `unsigned int *` and hence
reduced modulo 2^32.  The return value of `sscanf` is the length of the
result. -/
def vsscanf : List Fmt → List Char → List Nat → List Nat
  | [], _, acc => acc
  | _ :: _, [], acc => acc
  | Fmt.space :: fmt, c :: str, acc => vsscanf fmt ((c :: str).dropWhile isspace) acc
  | Fmt.lit l :: fmt, c :: str, acc => if l = c then vsscanf fmt str acc else acc
  | Fmt.conv base :: fmt, c :: str, acc =>
    match (c :: str).dropWhile isspace with
    | [] => acc
    | digit :: str1 =>
      if (base = 16 ∧ isxdigit digit = false) ∨ (base = 10 ∧ isdigit digit = false) then acc
      else
        vsscanf fmt (simple_strtoul (digit :: str1) base).2
          (acc ++ [(simple_strtoul (digit :: str1) base).1 % 4294967296])

/-- The format `"0x%x 0x%x"`. -/
def fmt_hex_hex : List Fmt :=
  [Fmt.lit '0', Fmt.lit 'x', Fmt.conv 16, Fmt.space, Fmt.lit '0', Fmt.lit 'x', Fmt.conv 16]

/-- The format `"0x%x %u"`. -/
def fmt_hex_dec : List Fmt :=
  [Fmt.lit '0', Fmt.lit 'x', Fmt.conv 16, Fmt.space, Fmt.conv 10]

/-- The statements of `ecdump_write` after the parse, with the `int` values
of `i` and `v`. -/
def ecdump_store (M : Machine σ) (i v : Int) (w : World σ) : Int × World σ :=
  if 0 ≤ i ∧ i < 256 ∧ 0 ≤ v ∧ v < 256 then
    if (omnibook_ec_write M i.toNat v.toNat w).1 ≠ 0 then
      (- EIO, (omnibook_ec_write M i.toNat v.toNat w).2)
    else (0, (omnibook_ec_write M i.toNat v.toNat w).2)
  else (-EINVAL, w)

/-- `static int ecdump_write(char *buffer)`.  The `unsigned int` written by a
conversion is read back through the `int` variables `i` and `v`. -/
def ecdump_write (M : Machine σ) (buffer : List Char) (w : World σ) : Int × World σ :=
  match vsscanf fmt_hex_hex buffer [] with
  | [i, v] => ecdump_store M (u32_to_int i) (u32_to_int v) w
  | _ =>
    match vsscanf fmt_hex_dec buffer [] with
    | [i, v] => ecdump_store M (u32_to_int i) (u32_to_int v) w
    | _ => (-EINVAL, w)

/-- The number a list of digits denotes in a base. -/
def digits_value (base : Nat) (ds : List Char) : Nat :=
  ds.foldl (fun acc c => acc * base + digit_value c) 0

/-- A character at which the digit loop for `base` stops and which does not
complete a `0x` prefix. -/
def stops_at (base : Nat) (rest : List Char) : Prop :=
  ∀ c r, rest = c :: r → ¬ (isxdigit c = true ∧ digit_value c < base) ∧ toupper c ≠ 88

/-! ## Trace shapes of the SMI buffer transfer -/

/-- The marshalling phase as a list of actions: for `k = 0 .. 31` in increasing
order, the index byte `k + start_offset` to `RTC_PORT(2)` followed by
`inputbuffer[k]` to `RTC_PORT(3)`. -/
def marshal_events (start_offset : Nat) (inputbuffer : List Nat) : List Event :=
  (List.range BUFFER_SIZE).flatMap (fun k =>
    [Event.outb ((k + start_offset) % 256) (RTC_PORT 2),
     Event.outb (inputbuffer.getD k 0 % 256) (RTC_PORT 3)])

/-- The read-back phase as a list of actions: for `k = 0 .. 31` in increasing
order, the index byte `k + start_offset` to `RTC_PORT(2)` followed by a read of
`RTC_PORT(3)` that returns `outputbuffer[k]`. -/
def readback_events (start_offset : Nat) (outputbuffer : List Nat) : List Event :=
  (List.range BUFFER_SIZE).flatMap (fun k =>
    [Event.outb ((k + start_offset) % 256) (RTC_PORT 2),
     Event.inb (RTC_PORT 3) (outputbuffer.getD k 0)])

/-- Whether an action is a byte-wide port access (`inb` or `outb`). -/
def isBytePort (e : Event) : Bool :=
  match e with
  | Event.inb _ _ => true
  | Event.outb _ _ => true
  | _ => false

/-- The SMI traps recorded in a trace, in order. -/
def trapEvents (tr : List Event) : List Event :=
  tr.filter (fun e => match e with
    | Event.smi_trap _ _ _ => true
    | _ => false)

/-- The bytes written to the data port `RTC_PORT(3)` recorded in a trace, in
order. -/
def dataPortWrites (tr : List Event) : List Nat :=
  tr.filterMap (fun e => match e with
    | Event.outb v p => if p = RTC_PORT 3 then some v else none
    | _ => none)

/-- The index bytes written to `RTC_PORT(2)` during one phase of the transfer. -/
def index_bytes (start_offset : Nat) : List Nat :=
  (List.range BUFFER_SIZE).map (fun k => (k + start_offset) % 256)

/-! ## Scenarios for the SMI backend -/

/-- The backend before its first use: no counter, no bridge, no failure
recorded, nothing reserved. -/
def Uninit (s : Backend σ) : Prop :=
  s.refcount = none ∧ s.lpc_bridge = none ∧ s.already_failed = 0 ∧
  s.regions = [] ∧ s.bridge_refs = 0

/-- TSM40 hardware with a supported bridge: allocations succeed, one table
entry in front of the terminator is always found, every device found is an
Intel or ATI bridge, and enabling and region requests succeed. -/
structure Supported (P : Platform σ) : Prop where
  tsm40 : P.omnibook_ectype &&& TSM40 ≠ 0
  alloc : ∀ m, (P.kmalloc m).1 = true
  found : ∃ e ∈ P.lpc_bridge_table.takeWhile (fun e => decide (e.1 ≠ 0)),
    ∀ m, (P.pci_get_device e.1 e.2 m).1.isSome = true
  vendor : ∀ v d m dev, (P.pci_get_device v d m).1 = some dev →
    dev.vendor = PCI_VENDOR_ID_INTEL ∨ dev.vendor = PCI_VENDOR_ID_ATI
  enable : ∀ dev m, (P.pci_enable_device dev m).1 = 0
  region : ∀ a n m, (P.request_region a n m).1 = true

/-- The SMI trigger port that belongs to a bridge vendor. -/
def smi_port_of (dev : PciDev) : Nat :=
  if dev.vendor = PCI_VENDOR_ID_INTEL then INTEL_SMI_PORT else ATI_SMI_PORT

/-- `n` sequential calls of `omnibook_nbsmi_init`: the return values in call
order and the state afterwards. -/
def init_times (P : Platform σ) : Nat → Backend σ → Option (List Int × Backend σ)
  | 0, s => some ([], s)
  | n + 1, s =>
    match omnibook_nbsmi_init P s with
    | none => none
    | some r =>
      match init_times P n r.2 with
      | none => none
      | some rest => some (r.1 :: rest.1, rest.2)

/-- Parameters of the mock firmware platform: the bridge vendor, the function
codes on which the firmware returns and stores its byte, whether SMI calls
fail, and the word read from the mailbox data port. -/
structure FwConfig where
  vendor : Nat
  rd : Nat
  wr : Nat
  fail : Bool
  mailbox : Nat

/-- State of the mock firmware platform: the index register behind
`RTC_PORT(2)`, the register file behind `RTC_PORT(3)` and the byte kept by
the firmware. -/
structure FwState where
  index : Nat
  cmos : Nat → Nat
  stored : Nat

/-- Buffer base the firmware of a bridge vendor uses. -/
def fw_base (c : FwConfig) : Nat :=
  if c.vendor = PCI_VENDOR_ID_INTEL then INTEL_OFFSET else ATI_OFFSET

/-- The mock SMI handler.  The function code is the high byte of the word
written to the trigger port.  On the write function the firmware stores byte
0 of the buffer, on the read function it puts the stored byte into byte 0 of
the buffer; `%eax` is cleared.  A failing firmware does nothing and leaves
`%eax` as it was. -/
def fw_trap (c : FwConfig) (word : Nat) (s : FwState) : Nat × FwState :=
  if c.fail then (word, s)
  else if word / 256 = c.wr % 256 then (0, { s with stored := s.cmos (fw_base c) })
  else if word / 256 = c.rd % 256 then
    (0, { s with cmos := Function.update s.cmos (fw_base c) s.stored })
  else (0, s)

/-- A TSM40 machine with one supported bridge of vendor `c.vendor`, an
index/data register file on `RTC_PORT(2)`/`RTC_PORT(3)` and the mock SMI
handler; every kernel service succeeds. -/
def fwPlatform (c : FwConfig) : Platform FwState where
  inb := fun port s => if port = RTC_PORT 3 then (s.cmos s.index, s) else (0, s)
  outb := fun val port s =>
    if port = RTC_PORT 2 then { s with index := val }
    else if port = RTC_PORT 3 then { s with cmos := Function.update s.cmos s.index val }
    else s
  mdelay := fun _ s => s
  config_acpi_ec := false
  acpi_disabled := false
  ec_read := fun _ d s => ((0, d), s)
  ec_write := fun _ _ s => (0, s)
  inw := fun port s =>
    if port = EC_DATA_PORT then (c.mailbox, s) else (if c.fail then 1 else 0, s)
  outw := fun _ _ s => s
  inl := fun _ s => (0, s)
  outl := fun _ _ s => s
  smi_trap := fun word _ s => fw_trap c word s
  pci_get_device := fun v d s => (if v = c.vendor then some ⟨v, d⟩ else none, s)
  pci_enable_device := fun _ s => (0, s)
  pci_read_config_dword := fun _ _ s => (0, s)
  pci_dev_put := fun _ s => s
  request_region := fun _ _ s => (true, s)
  release_region := fun _ _ s => s
  kmalloc := fun s => (true, s)
  mutex_lock_interruptible := fun s => (false, s)
  omnibook_ectype := TSM40
  lpc_bridge_table := [(PCI_VENDOR_ID_INTEL, 0x27b9), (PCI_VENDOR_ID_ATI, 0x4377), (0, 0)]
  SMI_FN_PRESSED := 0x8f
  SMI_GET_KILL_SWITCH := 0x3e
  SMI_GET_AERIAL := 0x3c

/-- The backend at module load on the mock firmware platform. -/
def fwInitial : Backend FwState where
  w := { m := { index := 0, cmos := fun _ => 0, stored := 0 }, trace := [] }
  refcount := none
  lpc_bridge := none
  start_offset := 0
  already_failed := 0
  regions := []
  bridge_refs := 0

/-- A TSM40 machine with an Intel bridge on which the first allocation fails
and every later one succeeds; the state records whether an allocation has
already been refused.  Every other service succeeds, the mailbox reads 0. -/
def allocFailsOncePlatform : Platform Bool where
  inb := fun _ s => (0, s)
  outb := fun _ _ s => s
  mdelay := fun _ s => s
  config_acpi_ec := false
  acpi_disabled := false
  ec_read := fun _ d s => ((0, d), s)
  ec_write := fun _ _ s => (0, s)
  inw := fun _ s => (0, s)
  outw := fun _ _ s => s
  inl := fun _ s => (0, s)
  outl := fun _ _ s => s
  smi_trap := fun _ _ s => (0, s)
  pci_get_device := fun v d s => (if v = PCI_VENDOR_ID_INTEL then some ⟨v, d⟩ else none, s)
  pci_enable_device := fun _ s => (0, s)
  pci_read_config_dword := fun _ _ s => (0, s)
  pci_dev_put := fun _ s => s
  request_region := fun _ _ s => (true, s)
  release_region := fun _ _ s => s
  kmalloc := fun s => (s, true)
  mutex_lock_interruptible := fun s => (false, s)
  omnibook_ectype := TSM40
  lpc_bridge_table := [(PCI_VENDOR_ID_INTEL, 0x27b9), (PCI_VENDOR_ID_ATI, 0x4377), (0, 0)]
  SMI_FN_PRESSED := 0x8f
  SMI_GET_KILL_SWITCH := 0x3e
  SMI_GET_AERIAL := 0x3c

/-- The backend at module load on `allocFailsOncePlatform`. -/
def allocFailsOnceInitial : Backend Bool where
  w := { m := false, trace := [] }
  refcount := none
  lpc_bridge := none
  start_offset := 0
  already_failed := 0
  regions := []
  bridge_refs := 0

/-- The backend on the mock firmware platform after a successful
initialisation: one counter reference, the bridge held, both ranges reserved. -/
def fwReady (c : FwConfig) : Backend FwState where
  w := { m := { index := 0, cmos := fun _ => 0, stored := 0 }, trace := [] }
  refcount := some 1
  lpc_bridge := some ⟨c.vendor, 0⟩
  start_offset := fw_base c
  already_failed := 0
  regions := [(EC_INDEX_PORT, 2),
    (if c.vendor = PCI_VENDOR_ID_INTEL then INTEL_SMI_PORT else ATI_SMI_PORT, 2)]
  bridge_refs := 1

/-- The initialised backend on the mock firmware platform with the firmware
holding the byte `b`. -/
def fwReadyStored (c : FwConfig) (b : Nat) : Backend FwState :=
  { fwReady c with w := { m := { index := 0, cmos := fun _ => 0, stored := b }, trace := [] } }

/-- The end of `nbsmi_smi_read_command` and `nbsmi_smi_write_command` after the
SMI call: both buffers are freed and the mutex is released. -/
def smi_cleanup (s : Backend σ) : Backend σ :=
  ((s.ev Event.kfree).ev Event.kfree).ev Event.smi_mutex_unlock

/-- State of the mock Intel bridge: the content of the `GPE0_EN` register and
the contents that register had at each SMI trap so far, in order. -/
structure GpeState where
  gpe0_en : Nat
  seen : List Nat
  deriving DecidableEq, Repr

/-- A TSM40 machine with an Intel bridge whose `PMBASE` configuration dword is
`pmbase`.  The register `GPE0_EN` sits at port `(pmbase & 0xff80) + 0x2c`; the
SMI handler notes what that register holds when the trap is taken and clears
`%eax` unless `fail` is set.  Every kernel service succeeds. -/
def gpePlatform (pmbase : Nat) (fail : Bool) : Platform GpeState where
  inb := fun _ s => (0, s)
  outb := fun _ _ s => s
  mdelay := fun _ s => s
  config_acpi_ec := false
  acpi_disabled := false
  ec_read := fun _ d s => ((0, d), s)
  ec_write := fun _ _ s => (0, s)
  inw := fun _ s => (0, s)
  outw := fun _ _ s => s
  inl := fun port s => if port = (pmbase &&& 0xff80) + 0x2c then (s.gpe0_en, s) else (0, s)
  outl := fun val port s =>
    if port = (pmbase &&& 0xff80) + 0x2c then { s with gpe0_en := val } else s
  smi_trap := fun word _ s => (if fail then word else 0, { s with seen := s.seen ++ [s.gpe0_en] })
  pci_get_device := fun v d s => (if v = PCI_VENDOR_ID_INTEL then some ⟨v, d⟩ else none, s)
  pci_enable_device := fun _ s => (0, s)
  pci_read_config_dword := fun _ off s => (if off = 0x40 then pmbase else 0, s)
  pci_dev_put := fun _ s => s
  request_region := fun _ _ s => (true, s)
  release_region := fun _ _ s => s
  kmalloc := fun s => (true, s)
  mutex_lock_interruptible := fun s => (false, s)
  omnibook_ectype := TSM40
  lpc_bridge_table := [(PCI_VENDOR_ID_INTEL, 0x27b9), (PCI_VENDOR_ID_ATI, 0x4377), (0, 0)]
  SMI_FN_PRESSED := 0x8f
  SMI_GET_KILL_SWITCH := 0x3e
  SMI_GET_AERIAL := 0x3c

/-- The initialised backend on the mock Intel bridge with `GPE0_EN` holding `en`. -/
def gpeReady (en : Nat) : Backend GpeState where
  w := { m := { gpe0_en := en, seen := [] }, trace := [] }
  refcount := some 1
  lpc_bridge := some ⟨PCI_VENDOR_ID_INTEL, 0x27b9⟩
  start_offset := INTEL_OFFSET
  already_failed := 0
  regions := [(EC_INDEX_PORT, 2), (INTEL_SMI_PORT, 2)]
  bridge_refs := 1

/-- The mock Intel bridge of `gpePlatform` with an SMI handler that, besides
noting what `GPE0_EN` holds when the trap is taken, leaves that register
cleared. -/
def gpeClobberPlatform (pmbase : Nat) (fail : Bool) : Platform GpeState :=
  { gpePlatform pmbase fail with
    smi_trap := fun word _ s =>
      (if fail then word else 0, { gpe0_en := 0, seen := s.seen ++ [s.gpe0_en] }) }

/-- A machine whose EC never drains its input buffer: every port read
returns `0x02` (IBF set), writes and delays do nothing, no ACPI EC driver. -/
def stuckMachine : Machine Unit where
  inb := fun _ s => (0x02, s)
  outb := fun _ _ s => s
  mdelay := fun _ s => s
  config_acpi_ec := false
  acpi_disabled := false
  ec_read := fun _ d s => ((0, d), s)
  ec_write := fun _ _ s => (0, s)

/-- A machine with the ACPI EC driver compiled in and enabled; the driver
returns `ret` on every call and, when it succeeds, reads 0x5a.  Its raw EC
ports behave like those of `stuckMachine`. -/
def acpiMachine (ret : Int) : Machine Unit where
  inb := fun _ s => (0x02, s)
  outb := fun _ _ s => s
  mdelay := fun _ s => s
  config_acpi_ec := true
  acpi_disabled := false
  ec_read := fun _ d s => ((ret, if ret = 0 then 0x5a else d), s)
  ec_write := fun _ _ s => (ret, s)

/-- A machine whose status ports show IBF set until `mdelay` has been called as
often as the state says: the state is the number of delays still needed, every
`mdelay` decrements it, and a status read returns 0x02 while it is not zero. -/
def countdownMachine : Machine Nat where
  inb := fun _ s => (if s = 0 then 0x00 else 0x02, s)
  outb := fun _ _ s => s
  mdelay := fun _ s => s - 1
  config_acpi_ec := false
  acpi_disabled := false
  ec_read := fun _ d s => ((0, d), s)
  ec_write := fun _ _ s => (0, s)

/-- A machine whose EC accepts one byte and then stays busy: the state says
whether a byte has been written to any port; status reads return 0x02 (IBF)
once that is so and 0x00 before. -/
def latchMachine : Machine Bool where
  inb := fun _ s => (if s then 0x02 else 0x00, s)
  outb := fun _ _ _ => true
  mdelay := fun _ s => s
  config_acpi_ec := false
  acpi_disabled := false
  ec_read := fun _ d s => ((0, d), s)
  ec_write := fun _ _ s => (0, s)

/-- Protocol phase of the mock embedded controller. -/
inductive MockPhase where
  /-- Nothing pending. -/
  | idle
  /-- Command 0x80 received, the address is expected on the data port. -/
  | read_cmd
  /-- Command 0x81 received, the address is expected on the data port. -/
  | write_cmd
  /-- Write address received, the data byte is expected on the data port. -/
  | write_addr (a : Fin 256)
  /-- Read address received, the register content waits in the output buffer. -/
  | read_ready (a : Fin 256)

/-- State of the mock embedded controller: a 256-entry register file and the
protocol phase. -/
structure MockEC where
  regs : Fin 256 → Nat
  phase : MockPhase

/-- Status port of the mock: `IBF` is never set, `OBF` is set exactly when a
read is pending. -/
def mock_status (s : MockEC) : Nat :=
  match s.phase with
  | MockPhase.read_ready _ => 0x01
  | _ => 0x00

/-- Data port read of the mock: hands out the pending register. -/
def mock_data_in (s : MockEC) : Nat × MockEC :=
  match s.phase with
  | MockPhase.read_ready a => (s.regs a, { s with phase := MockPhase.idle })
  | _ => (0, s)

/-- Command port write of the mock. -/
def mock_command (val : Nat) (s : MockEC) : MockEC :=
  if val = 0x80 then { s with phase := MockPhase.read_cmd }
  else if val = 0x81 then { s with phase := MockPhase.write_cmd }
  else { s with phase := MockPhase.idle }

/-- Data port write of the mock: address byte, then (for a write) the data
byte, which is stored in the addressed register. -/
def mock_data_out (val : Nat) (s : MockEC) : MockEC :=
  match s.phase with
  | MockPhase.read_cmd => { s with phase := MockPhase.read_ready ⟨val % 256, Nat.mod_lt _ (by decide)⟩ }
  | MockPhase.write_cmd => { s with phase := MockPhase.write_addr ⟨val % 256, Nat.mod_lt _ (by decide)⟩ }
  | MockPhase.write_addr a => { regs := Function.update s.regs a (val % 256), phase := MockPhase.idle }
  | _ => s

/-- An always-ready EC that echoes writes into its register file, on ports
0x62 (data) and 0x66 (status/command); no ACPI EC driver. -/
def mockMachine : Machine MockEC where
  inb := fun port s =>
    if port = 0x66 then (mock_status s, s)
    else if port = 0x62 then mock_data_in s
    else (0, s)
  outb := fun val port s =>
    if port = 0x66 then mock_command val s
    else if port = 0x62 then mock_data_out val s
    else s
  mdelay := fun _ s => s
  config_acpi_ec := false
  acpi_disabled := false
  ec_read := fun _ d s => ((0, d), s)
  ec_write := fun _ _ s => (0, s)

/-- The mock EC with all registers zero and nothing pending. -/
def mockZero : World MockEC :=
  { m := { regs := fun _ => 0, phase := MockPhase.idle }, trace := [] }

/-! # Theorems -/

/-! ## EC handshake -/

theorem statusPolls_append (sc : Nat) (a b : List Event) :
    statusPolls sc (a ++ b) = statusPolls sc a + statusPolls sc b := by
  simp [statusPolls, List.countP_append]

theorem portWrites_append (a b : List Event) :
    portWrites (a ++ b) = portWrites a + portWrites b := by
  simp [portWrites, List.countP_append]

/-- While the awaited bit stays set the `IBF` loop runs the counter down to
`-1`, reading the status port once more than the initial counter value and
writing no port. -/
theorem wait_ibf_loop_stuck (M : Machine σ) (sc event : Nat)
    (h : ∀ s, (M.inb sc s).1 % 256 &&& event ≠ 0) :
    ∀ (t : Nat) (w : World σ),
      (wait_ibf_loop M sc event t w).1 = -1 ∧
      statusPolls sc (wait_ibf_loop M sc event t w).2.trace
        = statusPolls sc w.trace + (t + 1) ∧
      portWrites (wait_ibf_loop M sc event t w).2.trace = portWrites w.trace := by
  intro t
  induction t with
  | zero =>
    intro w
    simp [wait_ibf_loop, inb, h, statusPolls_append, portWrites_append, statusPolls, portWrites]
  | succ t ih =>
    intro w
    have := ih (mdelay M 1 (inb M sc w).2)
    simp only [wait_ibf_loop, inb, h, ne_eq, not_false_eq_true, if_true] at this ⊢
    refine ⟨this.1, ?_, ?_⟩
    · rw [this.2.1]
      simp [mdelay, statusPolls_append, statusPolls]
      omega
    · rw [this.2.2]
      simp [mdelay, portWrites_append, portWrites]

/-- With the input buffer permanently full, waiting for `IBF` to clear fails
with `-ETIME` after 251 reads of the status port. -/
theorem ec_wait_ibf_stuck (M : Machine σ)
    (h : ∀ s, (M.inb OMNIBOOK_EC_SC s).1 % 256 &&& OMNIBOOK_EC_STAT_IBF ≠ 0) (w : World σ) :
    (omnibook_ec_wait M OMNIBOOK_EC_STAT_IBF w).1 = -ETIME ∧
    statusPolls OMNIBOOK_EC_SC (omnibook_ec_wait M OMNIBOOK_EC_STAT_IBF w).2.trace
      = statusPolls OMNIBOOK_EC_SC w.trace + 251 ∧
    portWrites (omnibook_ec_wait M OMNIBOOK_EC_STAT_IBF w).2.trace = portWrites w.trace := by
  have hl := wait_ibf_loop_stuck M OMNIBOOK_EC_SC OMNIBOOK_EC_STAT_IBF h OMNIBOOK_TIMEOUT w
  have hne : OMNIBOOK_EC_STAT_IBF ≠ OMNIBOOK_EC_STAT_OBF := by decide
  simp only [omnibook_ec_wait, if_neg hne, if_true, hl.1]
  refine ⟨by simp, ?_, ?_⟩
  · simpa [OMNIBOOK_TIMEOUT] using hl.2.1
  · simpa using hl.2.2

theorem ec_read_manual_stuck (M : Machine σ)
    (h : ∀ s, (M.inb OMNIBOOK_EC_SC s).1 % 256 &&& OMNIBOOK_EC_STAT_IBF ≠ 0)
    (addr data : Nat) (w : World σ) :
    (ec_read_manual M addr data w).1 = (-ETIME, data) ∧
    statusPolls OMNIBOOK_EC_SC (ec_read_manual M addr data w).2.trace
      = statusPolls OMNIBOOK_EC_SC w.trace + 251 ∧
    portWrites (ec_read_manual M addr data w).2.trace = portWrites w.trace := by
  have hw := ec_wait_ibf_stuck M h (w.log Event.ec_lock)
  have hne : (omnibook_ec_wait M OMNIBOOK_EC_STAT_IBF (w.log Event.ec_lock)).1 ≠ 0 := by
    rw [hw.1]; decide
  simp only [ec_read_manual, if_pos hne]
  refine ⟨by rw [hw.1], ?_, ?_⟩
  · simp only [World.log, statusPolls_append] at hw ⊢
    rw [hw.2.1]; simp [statusPolls]
  · simp only [World.log, portWrites_append] at hw ⊢
    rw [hw.2.2]; simp [portWrites]

theorem ec_write_manual_stuck (M : Machine σ)
    (h : ∀ s, (M.inb OMNIBOOK_EC_SC s).1 % 256 &&& OMNIBOOK_EC_STAT_IBF ≠ 0)
    (addr data : Nat) (w : World σ) :
    (ec_write_manual M addr data w).1 = -ETIME ∧
    statusPolls OMNIBOOK_EC_SC (ec_write_manual M addr data w).2.trace
      = statusPolls OMNIBOOK_EC_SC w.trace + 251 ∧
    portWrites (ec_write_manual M addr data w).2.trace = portWrites w.trace := by
  have hw := ec_wait_ibf_stuck M h (w.log Event.ec_lock)
  have hne : (omnibook_ec_wait M OMNIBOOK_EC_STAT_IBF (w.log Event.ec_lock)).1 ≠ 0 := by
    rw [hw.1]; decide
  simp only [ec_write_manual, if_pos hne]
  refine ⟨by rw [hw.1], ?_, ?_⟩
  · simp only [World.log, statusPolls_append] at hw ⊢
    rw [hw.2.1]; simp [statusPolls]
  · simp only [World.log, portWrites_append] at hw ⊢
    rw [hw.2.2]; simp [portWrites]

/-- C1: on the manual handshake path (ACPI EC driver not compiled in, disabled,
or failing), if every read of the EC status port 0x66 has the input-buffer-full
bit 0x02 set, then for every address and value `omnibook_ec_read` and
`omnibook_ec_write` return `-ETIME` (never 0) after exactly 251 reads of the
status port, and `omnibook_ec_read` leaves the caller's byte as it was on
entry to the handshake. -/
theorem ec_read_write_timeout_when_ibf_stuck (M : Machine σ)
    (hpath : M.config_acpi_ec = false ∨ M.acpi_disabled = true ∨
      ((∀ a d s, (M.ec_read a d s).1.1 ≠ 0) ∧ (∀ a d s, (M.ec_write a d s).1 ≠ 0)))
    (hbusy : ∀ s, (M.inb OMNIBOOK_EC_SC s).1 % 256 &&& OMNIBOOK_EC_STAT_IBF ≠ 0)
    (addr data : Nat) (w : World σ) :
    ((omnibook_ec_read M addr data w).1.1 = -ETIME ∧
      (omnibook_ec_read M addr data w).1.1 ≠ 0 ∧
      statusPolls OMNIBOOK_EC_SC (omnibook_ec_read M addr data w).2.trace
        = statusPolls OMNIBOOK_EC_SC w.trace + 251) ∧
    ((omnibook_ec_write M addr data w).1 = -ETIME ∧
      (omnibook_ec_write M addr data w).1 ≠ 0 ∧
      statusPolls OMNIBOOK_EC_SC (omnibook_ec_write M addr data w).2.trace
        = statusPolls OMNIBOOK_EC_SC w.trace + 251) := by
  have hE : (-ETIME : Int) ≠ 0 := by decide
  have key : ∀ (d : Nat) (w0 : World σ),
      statusPolls OMNIBOOK_EC_SC w0.trace = statusPolls OMNIBOOK_EC_SC w.trace →
      ((ec_read_manual M addr d w0).1.1 = -ETIME ∧
        (ec_read_manual M addr d w0).1.1 ≠ 0 ∧
        statusPolls OMNIBOOK_EC_SC (ec_read_manual M addr d w0).2.trace
          = statusPolls OMNIBOOK_EC_SC w.trace + 251) ∧
      ((ec_write_manual M addr data w0).1 = -ETIME ∧
        (ec_write_manual M addr data w0).1 ≠ 0 ∧
        statusPolls OMNIBOOK_EC_SC (ec_write_manual M addr data w0).2.trace
          = statusPolls OMNIBOOK_EC_SC w.trace + 251) := by
    intro d w0 h0
    have hr := ec_read_manual_stuck M hbusy addr d w0
    have hw := ec_write_manual_stuck M hbusy addr data w0
    refine ⟨⟨?_, ?_, ?_⟩, ?_, ?_, ?_⟩
    · rw [hr.1]
    · rw [hr.1]; exact hE
    · rw [hr.2.1, h0]
    · exact hw.1
    · rw [hw.1]; exact hE
    · rw [hw.2.1, h0]
  rcases hpath with h | h | ⟨hrd, hwr⟩
  · simp only [omnibook_ec_read, omnibook_ec_write, h, Bool.false_and, Bool.false_eq_true,
      if_false]
    exact key data w rfl
  · simp only [omnibook_ec_read, omnibook_ec_write, h, Bool.not_true, Bool.and_false,
      Bool.false_eq_true, if_false]
    exact key data w rfl
  · by_cases hc : (M.config_acpi_ec && !M.acpi_disabled) = true
    · simp only [omnibook_ec_read, omnibook_ec_write, hc, if_true, if_neg (hrd _ _ _),
        if_neg (hwr _ _ _)]
      refine ⟨(key _ ⟨_, _⟩ ?_).1, (key data ⟨_, _⟩ ?_).2⟩
      · simp [statusPolls_append, statusPolls]
      · simp [statusPolls_append, statusPolls]
    · simp only [omnibook_ec_read, omnibook_ec_write, hc, if_false]
      exact key data w rfl

/-- Witness for C1 on the machine whose status port always reads 0x02. -/
theorem ec_read_write_timeout_when_ibf_stuck_witness :
    ((omnibook_ec_read stuckMachine 0x1a 0 ⟨(), []⟩).1.1 = -ETIME ∧
      (omnibook_ec_read stuckMachine 0x1a 0 ⟨(), []⟩).1.1 ≠ 0 ∧
      statusPolls OMNIBOOK_EC_SC (omnibook_ec_read stuckMachine 0x1a 0 ⟨(), []⟩).2.trace
        = statusPolls OMNIBOOK_EC_SC [] + 251) ∧
    ((omnibook_ec_write stuckMachine 0x1a 5 ⟨(), []⟩).1 = -ETIME ∧
      (omnibook_ec_write stuckMachine 0x1a 5 ⟨(), []⟩).1 ≠ 0 ∧
      statusPolls OMNIBOOK_EC_SC (omnibook_ec_write stuckMachine 0x1a 5 ⟨(), []⟩).2.trace
        = statusPolls OMNIBOOK_EC_SC [] + 251) :=
  ⟨(ec_read_write_timeout_when_ibf_stuck stuckMachine (Or.inl rfl)
      (fun _ => (by decide : 0x02 % 256 &&& OMNIBOOK_EC_STAT_IBF ≠ 0)) 0x1a 0 ⟨(), []⟩).1,
   (ec_read_write_timeout_when_ibf_stuck stuckMachine (Or.inl rfl)
      (fun _ => (by decide : 0x02 % 256 &&& OMNIBOOK_EC_STAT_IBF ≠ 0)) 0x1a 5 ⟨(), []⟩).2⟩

/-- When the first status read already shows the input buffer empty, the
`IBF` loop leaves the counter untouched. -/
theorem wait_ibf_loop_ready (M : Machine σ) (sc event t : Nat) (w : World σ)
    (h : (M.inb sc w.m).1 % 256 &&& event = 0) (ht : 0 < t) :
    wait_ibf_loop M sc event t w = ((t : Int), (inb M sc w).2) := by
  cases t with
  | zero => omega
  | succ t => simp [wait_ibf_loop, inb, h]

/-- When the first status read already shows the output buffer full, the
`OBF` loop leaves the counter untouched. -/
theorem wait_obf_loop_ready (M : Machine σ) (sc event t : Nat) (w : World σ)
    (h : (M.inb sc w.m).1 % 256 &&& event ≠ 0) (ht : 0 < t) :
    wait_obf_loop M sc event t w = ((t : Int), (inb M sc w).2) := by
  cases t with
  | zero => omega
  | succ t => simp [wait_obf_loop, inb, h]

theorem ec_wait_ibf_ready (M : Machine σ) (w : World σ)
    (h : (M.inb OMNIBOOK_EC_SC w.m).1 % 256 &&& OMNIBOOK_EC_STAT_IBF = 0) :
    omnibook_ec_wait M OMNIBOOK_EC_STAT_IBF w = (0, (inb M OMNIBOOK_EC_SC w).2) := by
  have hne : OMNIBOOK_EC_STAT_IBF ≠ OMNIBOOK_EC_STAT_OBF := by decide
  have hl := wait_ibf_loop_ready M OMNIBOOK_EC_SC OMNIBOOK_EC_STAT_IBF OMNIBOOK_TIMEOUT w h
    (by decide)
  simp only [omnibook_ec_wait, if_neg hne, if_true, hl]
  simp [OMNIBOOK_TIMEOUT]

theorem ec_wait_obf_ready (M : Machine σ) (w : World σ)
    (h : (M.inb OMNIBOOK_EC_SC w.m).1 % 256 &&& OMNIBOOK_EC_STAT_OBF ≠ 0) :
    omnibook_ec_wait M OMNIBOOK_EC_STAT_OBF w = (0, (inb M OMNIBOOK_EC_SC w).2) := by
  have hl := wait_obf_loop_ready M OMNIBOOK_EC_SC OMNIBOOK_EC_STAT_OBF OMNIBOOK_TIMEOUT w h
    (by decide)
  simp only [omnibook_ec_wait, if_true, hl]
  simp [OMNIBOOK_TIMEOUT]

theorem outb_m (M : Machine σ) (v p : Nat) (w : World σ) :
    (outb M v p w).m = M.outb (v % 256) p w.m := rfl

theorem log_m (w : World σ) (e : Event) : (w.log e).m = w.m := rfl

theorem inb_val (M : Machine σ) (p : Nat) (w : World σ) :
    (inb M p w).1 = (M.inb p w.m).1 % 256 := rfl

theorem inb_m (M : Machine σ) (p : Nat) (w : World σ) :
    (inb M p w).2.m = (M.inb p w.m).2 := rfl

/-- The mock never reports its input buffer full. -/
theorem mock_ibf_clear (s : MockEC) :
    (mockMachine.inb OMNIBOOK_EC_SC s).1 % 256 &&& OMNIBOOK_EC_STAT_IBF = 0 := by
  rcases s with ⟨regs, ph⟩
  cases ph <;> simp [mockMachine, mock_status, OMNIBOOK_EC_SC, OMNIBOOK_EC_STAT_IBF]

/-- Reading the status port does not change the mock. -/
theorem mock_status_read_m (w : World MockEC) :
    (inb mockMachine OMNIBOOK_EC_SC w).2.m = w.m := by
  simp [inb, mockMachine, OMNIBOOK_EC_SC]

/-- Waiting for `IBF` on the mock succeeds at once and leaves the mock unchanged. -/
theorem mock_wait_ibf (w : World MockEC) :
    (omnibook_ec_wait mockMachine OMNIBOOK_EC_STAT_IBF w).1 = 0 ∧
    (omnibook_ec_wait mockMachine OMNIBOOK_EC_STAT_IBF w).2.m = w.m := by
  rw [ec_wait_ibf_ready mockMachine w (mock_ibf_clear w.m)]
  exact ⟨rfl, mock_status_read_m w⟩

/-- A write on the mock succeeds and stores the value in the addressed register. -/
theorem mock_ec_write (A V : Nat) (w : World MockEC) :
    (omnibook_ec_write mockMachine A V w).1 = 0 ∧
    (omnibook_ec_write mockMachine A V w).2.m =
      { regs := Function.update w.m.regs ⟨A % 256, Nat.mod_lt _ (by decide)⟩ (V % 256),
        phase := MockPhase.idle } := by
  have h1 := mock_wait_ibf (w.log Event.ec_lock)
  have h2 := mock_wait_ibf (outb mockMachine OMNIBOOK_EC_CMD_WRITE OMNIBOOK_EC_SC
    (omnibook_ec_wait mockMachine OMNIBOOK_EC_STAT_IBF (w.log Event.ec_lock)).2)
  have h3 := mock_wait_ibf (outb mockMachine A OMNIBOOK_EC_DATA
    (omnibook_ec_wait mockMachine OMNIBOOK_EC_STAT_IBF
      (outb mockMachine OMNIBOOK_EC_CMD_WRITE OMNIBOOK_EC_SC
        (omnibook_ec_wait mockMachine OMNIBOOK_EC_STAT_IBF (w.log Event.ec_lock)).2)).2)
  have hcfg : (mockMachine.config_acpi_ec && !mockMachine.acpi_disabled) = false := rfl
  simp only [omnibook_ec_write, hcfg, Bool.false_eq_true, if_false, ec_write_manual, h1.1, h2.1,
    h3.1, ne_eq, not_true_eq_false]
  refine ⟨trivial, ?_⟩
  simp only [log_m, outb_m, h3.2, h2.2, h1.2]
  simp [mockMachine, mock_command, mock_data_out, OMNIBOOK_EC_CMD_WRITE, OMNIBOOK_EC_SC,
    OMNIBOOK_EC_DATA]

/-- A read on the mock succeeds, yields the addressed register and leaves the
register file as it was. -/
theorem mock_ec_read (A d : Nat) (w : World MockEC) :
    (omnibook_ec_read mockMachine A d w).1 =
      (0, w.m.regs ⟨A % 256, Nat.mod_lt _ (by decide)⟩ % 256) ∧
    (omnibook_ec_read mockMachine A d w).2.m = { regs := w.m.regs, phase := MockPhase.idle } := by
  have h1 := mock_wait_ibf (w.log Event.ec_lock)
  have h2 := mock_wait_ibf (outb mockMachine OMNIBOOK_EC_CMD_READ OMNIBOOK_EC_SC
    (omnibook_ec_wait mockMachine OMNIBOOK_EC_STAT_IBF (w.log Event.ec_lock)).2)
  have hm : (outb mockMachine A OMNIBOOK_EC_DATA
      (omnibook_ec_wait mockMachine OMNIBOOK_EC_STAT_IBF
        (outb mockMachine OMNIBOOK_EC_CMD_READ OMNIBOOK_EC_SC
          (omnibook_ec_wait mockMachine OMNIBOOK_EC_STAT_IBF (w.log Event.ec_lock)).2)).2).m
      = { regs := w.m.regs,
          phase := MockPhase.read_ready ⟨A % 256, Nat.mod_lt _ (by decide)⟩ } := by
    simp only [log_m, outb_m, h2.2, h1.2]
    simp [mockMachine, mock_command, mock_data_out, OMNIBOOK_EC_CMD_READ, OMNIBOOK_EC_SC,
      OMNIBOOK_EC_DATA]
  have hobf : (mockMachine.inb OMNIBOOK_EC_SC (outb mockMachine A OMNIBOOK_EC_DATA
      (omnibook_ec_wait mockMachine OMNIBOOK_EC_STAT_IBF
        (outb mockMachine OMNIBOOK_EC_CMD_READ OMNIBOOK_EC_SC
          (omnibook_ec_wait mockMachine OMNIBOOK_EC_STAT_IBF (w.log Event.ec_lock)).2)).2).m).1
        % 256 &&& OMNIBOOK_EC_STAT_OBF ≠ 0 := by
    rw [hm]
    simp [mockMachine, mock_status, OMNIBOOK_EC_SC, OMNIBOOK_EC_STAT_OBF]
  have h3 := ec_wait_obf_ready mockMachine _ hobf
  have hcfg : (mockMachine.config_acpi_ec && !mockMachine.acpi_disabled) = false := rfl
  simp only [omnibook_ec_read, hcfg, Bool.false_eq_true, if_false, ec_read_manual, h1.1, h2.1,
    h3, ne_eq, not_true_eq_false]
  have hin : (inb mockMachine OMNIBOOK_EC_SC (outb mockMachine A OMNIBOOK_EC_DATA
      (omnibook_ec_wait mockMachine OMNIBOOK_EC_STAT_IBF
        (outb mockMachine OMNIBOOK_EC_CMD_READ OMNIBOOK_EC_SC
          (omnibook_ec_wait mockMachine OMNIBOOK_EC_STAT_IBF (w.log Event.ec_lock)).2)).2)).2.m
      = { regs := w.m.regs,
          phase := MockPhase.read_ready ⟨A % 256, Nat.mod_lt _ (by decide)⟩ } := by
    rw [mock_status_read_m, hm]
  constructor
  · rw [inb_val mockMachine OMNIBOOK_EC_DATA, hin]
    simp [mockMachine, mock_data_in, OMNIBOOK_EC_DATA]
  · rw [log_m, inb_m mockMachine OMNIBOOK_EC_DATA, hin]
    simp [mockMachine, mock_data_in, OMNIBOOK_EC_DATA]

/-- C2: against the always-ready mock EC that echoes writes into its 256-entry
register file, for every address A and value V in 0..255 (from any mock
state), `omnibook_ec_write(A, V)` returns 0, the following
`omnibook_ec_read(A)` returns 0 and yields exactly V, register A holds V, and
every other register of the mock is unchanged. -/
theorem mock_write_then_read_roundtrip (A V d : Nat) (hA : A < 256) (hV : V < 256)
    (w : World MockEC) :
    (omnibook_ec_write mockMachine A V w).1 = 0 ∧
    (omnibook_ec_read mockMachine A d (omnibook_ec_write mockMachine A V w).2).1 = (0, V) ∧
    (omnibook_ec_read mockMachine A d (omnibook_ec_write mockMachine A V w).2).2.m.regs ⟨A, hA⟩
      = V ∧
    ∀ B : Fin 256, B.val ≠ A →
      (omnibook_ec_read mockMachine A d (omnibook_ec_write mockMachine A V w).2).2.m.regs B
        = w.m.regs B := by
  have hw := mock_ec_write A V w
  have hr := mock_ec_read A d (omnibook_ec_write mockMachine A V w).2
  have hAm : A % 256 = A := Nat.mod_eq_of_lt hA
  have hVm : V % 256 = V := Nat.mod_eq_of_lt hV
  refine ⟨hw.1, ?_, ?_, ?_⟩
  · rw [hr.1, hw.2]
    simp [hVm]
  · rw [hr.2, hw.2]
    have he : (⟨A, hA⟩ : Fin 256) = ⟨A % 256, Nat.mod_lt _ (by decide)⟩ := by
      apply Fin.ext
      exact hAm.symm
    rw [he]
    simp [hVm]
  · intro B hB
    rw [hr.2, hw.2]
    have hne : B ≠ ⟨A % 256, Nat.mod_lt _ (by decide)⟩ := by
      intro h
      apply hB
      rw [h]
      exact hAm
    simp [Function.update, hne]

/-- Witness for C2: writing 5 to register 0x1a of a zeroed mock and reading it back. -/
theorem mock_write_then_read_roundtrip_witness :
    (omnibook_ec_write mockMachine 0x1a 5 ⟨⟨fun _ => 0, MockPhase.idle⟩, []⟩).1 = 0 ∧
    (omnibook_ec_read mockMachine 0x1a 0
      (omnibook_ec_write mockMachine 0x1a 5 ⟨⟨fun _ => 0, MockPhase.idle⟩, []⟩).2).1 = (0, 5) ∧
    (omnibook_ec_read mockMachine 0x1a 0
      (omnibook_ec_write mockMachine 0x1a 5 ⟨⟨fun _ => 0, MockPhase.idle⟩, []⟩).2).2.m.regs
        ⟨0x1a, by decide⟩ = 5 ∧
    ∀ B : Fin 256, B.val ≠ 0x1a →
      (omnibook_ec_read mockMachine 0x1a 0
        (omnibook_ec_write mockMachine 0x1a 5 ⟨⟨fun _ => 0, MockPhase.idle⟩, []⟩).2).2.m.regs B
        = 0 :=
  mock_write_then_read_roundtrip 0x1a 5 0 (by decide) (by decide)
    ⟨⟨fun _ => 0, MockPhase.idle⟩, []⟩

/-! ## SMI backend: init and exit -/

/-- Once a bridge is held the probing loop does nothing. -/
theorem pci_probe_loop_of_some (P : Platform σ) (table : List (Nat × Nat)) (s : Backend σ)
    (h : s.lpc_bridge.isSome = true) : pci_probe_loop P table s = s := by
  cases table with
  | nil => rfl
  | cons e rest =>
    have hn : s.lpc_bridge.isNone = false := by
      cases hb : s.lpc_bridge with
      | none => rw [hb] at h; cases h
      | some d => rfl
    simp [pci_probe_loop, hn]

/-- On a cooperative platform the probing loop, started without a bridge,
ends holding one reference on an Intel or ATI bridge and changes nothing else
of the backend's private data. -/
theorem pci_probe_loop_finds (P : Platform σ)
    (hv : ∀ v d m dev, (P.pci_get_device v d m).1 = some dev →
      dev.vendor = PCI_VENDOR_ID_INTEL ∨ dev.vendor = PCI_VENDOR_ID_ATI) :
    ∀ (table : List (Nat × Nat)) (s : Backend σ), s.lpc_bridge = none →
      (∃ e ∈ table.takeWhile (fun e => decide (e.1 ≠ 0)),
        ∀ m, (P.pci_get_device e.1 e.2 m).1.isSome = true) →
      ∃ dev, (pci_probe_loop P table s).lpc_bridge = some dev ∧
        (dev.vendor = PCI_VENDOR_ID_INTEL ∨ dev.vendor = PCI_VENDOR_ID_ATI) ∧
        (pci_probe_loop P table s).refcount = s.refcount ∧
        (pci_probe_loop P table s).already_failed = s.already_failed ∧
        (pci_probe_loop P table s).regions = s.regions ∧
        (pci_probe_loop P table s).bridge_refs = s.bridge_refs + 1 := by
  intro table
  induction table with
  | nil =>
    intro s _ hf
    obtain ⟨e, he, _⟩ := hf
    simp at he
  | cons e rest ih =>
    intro s hs hf
    by_cases he0 : e.1 = 0
    · obtain ⟨x, hx, _⟩ := hf
      simp [List.takeWhile, he0] at hx
    · have hcond : s.lpc_bridge.isNone = true ∧ e.1 ≠ 0 := ⟨by rw [hs]; rfl, he0⟩
      simp only [pci_probe_loop, if_pos hcond]
      cases hr : (P.pci_get_device e.1 e.2 s.w.m).1 with
      | some dev =>
        have hsome : (smi_pci_get_device P e.1 e.2 s).lpc_bridge.isSome = true := by
          simp [smi_pci_get_device, hr]
        rw [pci_probe_loop_of_some P rest _ hsome]
        refine ⟨dev, ?_, hv _ _ _ _ hr, ?_, ?_, ?_, ?_⟩ <;> simp [smi_pci_get_device, hr]
      | none =>
        have hnone : (smi_pci_get_device P e.1 e.2 s).lpc_bridge = none := by
          simp [smi_pci_get_device, hr]
        have hf2 : ∃ x ∈ rest.takeWhile (fun e => decide (e.1 ≠ 0)),
            ∀ m, (P.pci_get_device x.1 x.2 m).1.isSome = true := by
          obtain ⟨x, hx, hxs⟩ := hf
          simp only [List.takeWhile, he0, ne_eq, not_false_eq_true, decide_True,
            List.mem_cons] at hx
          rcases hx with hx | hx
          · exfalso
            have := hxs s.w.m
            rw [hx, hr] at this
            cases this
          · exact ⟨x, hx, hxs⟩
        obtain ⟨dev, h1, h2, h3, h4, h5, h6⟩ := ih _ hnone hf2
        refine ⟨dev, h1, h2, ?_, ?_, ?_, ?_⟩
        · rw [h3]; simp [smi_pci_get_device]
        · rw [h4]; simp [smi_pci_get_device]
        · rw [h5]; simp [smi_pci_get_device]
        · rw [h6]; simp [smi_pci_get_device, hr]

/-- First use on supported hardware: `omnibook_nbsmi_init` gets as far as the
region requests, holding a counter of one and one reference on an Intel or
ATI bridge. -/
theorem init_reaches_regions (P : Platform σ) (hP : Supported P) (s : Backend σ)
    (hs : Uninit s) :
    ∃ dev sE, omnibook_nbsmi_init P s = some (init_regions P (smi_port_of dev) sE) ∧
      (dev.vendor = PCI_VENDOR_ID_INTEL ∨ dev.vendor = PCI_VENDOR_ID_ATI) ∧
      sE.refcount = some 1 ∧ sE.lpc_bridge = some dev ∧ sE.already_failed = 0 ∧
      sE.regions = [] ∧ sE.bridge_refs = 1 := by
  obtain ⟨hrc, hbr, haf, hreg, hrefs⟩ := hs
  have hk : (smi_kmalloc P (s.ev Event.smi_mutex_lock)).1 = true := by
    simp [smi_kmalloc, hP.alloc]
  have hkf : (kref_init (smi_kmalloc P (s.ev Event.smi_mutex_lock)).2).lpc_bridge = none ∧
      (kref_init (smi_kmalloc P (s.ev Event.smi_mutex_lock)).2).refcount = some 1 ∧
      (kref_init (smi_kmalloc P (s.ev Event.smi_mutex_lock)).2).already_failed = 0 ∧
      (kref_init (smi_kmalloc P (s.ev Event.smi_mutex_lock)).2).regions = [] ∧
      (kref_init (smi_kmalloc P (s.ev Event.smi_mutex_lock)).2).bridge_refs = 0 := by
    simp [kref_init, smi_kmalloc, Backend.ev, hbr, haf, hreg, hrefs]
  obtain ⟨dev, h1, h2, h3, h4, h5, h6⟩ :=
    pci_probe_loop_finds P hP.vendor P.lpc_bridge_table
      (kref_init (smi_kmalloc P (s.ev Event.smi_mutex_lock)).2) hkf.1 hP.found
  rw [hkf.2.1] at h3
  rw [hkf.2.2.1] at h4
  rw [hkf.2.2.2.1] at h5
  rw [hkf.2.2.2.2, zero_add] at h6
  have hen : ∀ t : Backend σ, (smi_pci_enable_device P dev t).1 = 0 := by
    intro t
    simp [smi_pci_enable_device, hP.enable]
  have hfields : ∀ t : Backend σ, (smi_pci_enable_device P dev t).2.refcount = t.refcount ∧
      (smi_pci_enable_device P dev t).2.lpc_bridge = t.lpc_bridge ∧
      (smi_pci_enable_device P dev t).2.already_failed = t.already_failed ∧
      (smi_pci_enable_device P dev t).2.regions = t.regions ∧
      (smi_pci_enable_device P dev t).2.bridge_refs = t.bridge_refs := by
    intro t
    simp [smi_pci_enable_device]
  rcases h2 with hv | hv
  · refine ⟨dev, ?s1, ?heq, Or.inl hv, ?g1, ?g2, ?g3, ?g4, ?g5⟩
    case heq =>
      simp only [omnibook_nbsmi_init, hP.tsm40, if_false, haf, ne_eq, not_true_eq_false, hrc, hk,
        Bool.true_eq_false, h1, hen, hv, if_true, smi_port_of]
      exact Eq.refl _
    case g1 => simp only [(hfields _).1, h3]
    case g2 => simp only [(hfields _).2.1, h1]
    case g3 => simp only [(hfields _).2.2.1, h4]
    case g4 => simp only [(hfields _).2.2.2.1, h5]
    case g5 => simp only [(hfields _).2.2.2.2, h6]
  · have hne2 : ¬ (PCI_VENDOR_ID_ATI = PCI_VENDOR_ID_INTEL) := by decide
    refine ⟨dev, ?t1, ?teq, Or.inr hv, ?k1, ?k2, ?k3, ?k4, ?k5⟩
    case teq =>
      simp only [omnibook_nbsmi_init, hP.tsm40, if_false, haf, ne_eq, not_true_eq_false, hrc, hk,
        Bool.true_eq_false, h1, hen, if_neg hne2, hv, if_true, smi_port_of]
      exact Eq.refl _
    case k1 => simp only [(hfields _).1, h3]
    case k2 => simp only [(hfields _).2.1, h1]
    case k3 => simp only [(hfields _).2.2.1, h4]
    case k4 => simp only [(hfields _).2.2.2.1, h5]
    case k5 => simp only [(hfields _).2.2.2.2, h6]

/-- The mock firmware platform with an Intel or ATI bridge is supported hardware. -/
theorem fw_supported (c : FwConfig)
    (hv : c.vendor = PCI_VENDOR_ID_INTEL ∨ c.vendor = PCI_VENDOR_ID_ATI) :
    Supported (fwPlatform c) where
  tsm40 := by
    show TSM40 &&& TSM40 ≠ 0
    decide
  alloc := fun _ => rfl
  found := by
    have hI : (PCI_VENDOR_ID_INTEL, 0x27b9) ∈ List.takeWhile (fun e => decide (e.1 ≠ 0))
        [(PCI_VENDOR_ID_INTEL, 0x27b9), (PCI_VENDOR_ID_ATI, 0x4377), (0, 0)] := by decide
    have hA : (PCI_VENDOR_ID_ATI, 0x4377) ∈ List.takeWhile (fun e => decide (e.1 ≠ 0))
        [(PCI_VENDOR_ID_INTEL, 0x27b9), (PCI_VENDOR_ID_ATI, 0x4377), (0, 0)] := by decide
    rcases hv with hv | hv
    · exact ⟨(PCI_VENDOR_ID_INTEL, 0x27b9), hI, fun _ => by simp [fwPlatform, hv]⟩
    · exact ⟨(PCI_VENDOR_ID_ATI, 0x4377), hA, fun _ => by simp [fwPlatform, hv]⟩
  vendor := by
    intro v d m dev h
    simp only [fwPlatform] at h
    by_cases hvc : v = c.vendor
    · simp only [hvc, if_true, Option.some.injEq] at h
      rw [← h]
      exact hv
    · simp [hvc] at h
  enable := fun _ _ => rfl
  region := fun _ _ _ => rfl

/-- When the sanity probe reads the sentinel 0xffff, the tail of
`omnibook_nbsmi_init` undoes both reservations, puts the bridge, clears the
counter and the handle, records the failure and returns `-ENODEV`. -/
theorem init_regions_sentinel (P : Platform σ) (hreg : ∀ a n m, (P.request_region a n m).1 = true)
    (hsent : ∀ m, (P.inw EC_DATA_PORT m).1 % 65536 = 0xffff) (port : Nat) (s : Backend σ)
    (dev : PciDev) (hbr : s.lpc_bridge = some dev) :
    (init_regions P port s).1 = -ENODEV ∧
    (init_regions P port s).2.refcount = none ∧
    (init_regions P port s).2.lpc_bridge = none ∧
    (init_regions P port s).2.already_failed = 1 ∧
    (init_regions P port s).2.regions
      = (((EC_INDEX_PORT, 2) :: (port, 2) :: s.regions).erase (EC_INDEX_PORT, 2)).erase (port, 2) ∧
    (init_regions P port s).2.bridge_refs = s.bridge_refs - 1 ∧
    (init_regions P port s).2.w.trace = s.w.trace ++
      [Event.request_region port 2 true, Event.request_region EC_INDEX_PORT 2 true,
       Event.smi_spin_lock, Event.outw (P.SMI_FN_PRESSED % 65536) EC_INDEX_PORT,
       Event.inw EC_DATA_PORT 0xffff, Event.smi_spin_unlock, Event.printk,
       Event.release_region EC_INDEX_PORT 2, Event.release_region port 2, Event.pci_dev_put,
       Event.kfree, Event.smi_mutex_unlock] := by
  have hprobe : ∀ w : World σ, (inw P EC_DATA_PORT w).1 = 0xffff := by
    intro w
    simpa [inw] using hsent w.m
  have htr : ∀ w : World σ, (inw P EC_DATA_PORT w).2.trace
      = w.trace ++ [Event.inw EC_DATA_PORT 0xffff] := by
    intro w
    simp [inw, hsent w.m]
  simp [init_regions, smi_request_region, hreg, nbsmi_ec_read_command, hprobe, htr, init_out,
    init_error4, init_error3, init_error2, init_error1, smi_release_region, smi_pci_dev_put,
    Backend.ev, World.log, hbr, outw]

/-- Once a failure is recorded `omnibook_nbsmi_init` returns `-ENODEV` at
once and changes nothing: no lock, no probing, no reservation, no port
access. -/
theorem init_after_failure (P : Platform σ) (ht : P.omnibook_ectype &&& TSM40 ≠ 0)
    (s : Backend σ) (haf : s.already_failed ≠ 0) :
    omnibook_nbsmi_init P s = some (-ENODEV, s) := by
  simp [omnibook_nbsmi_init, ht, haf]

/-- Once a failure is recorded any number of calls return `-ENODEV` and leave
the state as it is. -/
theorem init_times_after_failure (P : Platform σ) (ht : P.omnibook_ectype &&& TSM40 ≠ 0)
    (s : Backend σ) (haf : s.already_failed ≠ 0) :
    ∀ k, init_times P k s = some (List.replicate k (-ENODEV), s) := by
  intro k
  induction k with
  | zero => rfl
  | succ k ih => simp only [init_times, init_after_failure P ht s haf, ih, List.replicate_succ]

theorem init_error1_failed (retval : Int) (s : Backend σ) :
    (init_error1 retval s).1 = retval ∧ (init_error1 retval s).2.already_failed = 1 := by
  simp [init_error1, init_out, Backend.ev]

theorem init_error2_failed (P : Platform σ) (retval : Int) (s : Backend σ) :
    (init_error2 P retval s).1 = retval ∧ (init_error2 P retval s).2.already_failed = 1 := by
  simp [init_error2, init_error1_failed]

/-- Every error return of the tail of `omnibook_nbsmi_init` records the failure. -/
theorem init_regions_error_failed (P : Platform σ) (port : Nat) (s : Backend σ)
    (h : (init_regions P port s).1 ≠ 0) : (init_regions P port s).2.already_failed = 1 := by
  unfold init_regions at h ⊢
  simp only at h ⊢
  split_ifs at h ⊢ with h1 h2 h3
  · exact (init_error2_failed _ _ _).2
  · simp only [init_error3]; exact (init_error2_failed _ _ _).2
  · simp only [init_error4, init_error3]; exact (init_error2_failed _ _ _).2
  · simp [init_out] at h

theorem failed_of_eq {x : Int × Backend σ} {r : Int} {s1 : Backend σ} (h : x = (r, s1))
    (hx : x.2.already_failed = 1) : s1.already_failed ≠ 0 := by
  subst h
  simp only at hx
  rw [hx]
  decide

/-- An error return of `omnibook_nbsmi_init` that is not caused by the failed
allocation of the counter leaves the failure recorded. -/
theorem init_error_records_failure (P : Platform σ) (ht : P.omnibook_ectype &&& TSM40 ≠ 0)
    (s : Backend σ) (r : Int) (s1 : Backend σ) (h : omnibook_nbsmi_init P s = some (r, s1))
    (hr : r ≠ 0) (hk : s.already_failed ≠ 0 ∨ (P.kmalloc s.w.m).1 = true) :
    s1.already_failed ≠ 0 := by
  by_cases haf : s.already_failed ≠ 0
  · rw [init_after_failure P ht s haf] at h
    simp only [Option.some.injEq, Prod.mk.injEq] at h
    rw [← h.2]
    exact haf
  · have hk2 : (P.kmalloc s.w.m).1 = true := by
      rcases hk with hk | hk
      · exact absurd hk haf
      · exact hk
    have hka : (smi_kmalloc P (s.ev Event.smi_mutex_lock)).1 = true := by
      simp [smi_kmalloc, Backend.ev, World.log, hk2]
    simp only [omnibook_nbsmi_init, ht, if_false, haf] at h
    cases hrc : s.refcount with
    | some n =>
      rw [hrc] at h
      simp only [Option.some.injEq, Prod.mk.injEq] at h
      exact absurd h.1.symm hr
    | none =>
      rw [hrc] at h
      simp only [hka, Bool.true_eq_false, if_false] at h
      cases hbr : (pci_probe_loop P P.lpc_bridge_table
          (kref_init (smi_kmalloc P (s.ev Event.smi_mutex_lock)).2)).lpc_bridge with
      | none =>
        rw [hbr] at h
        simp only [Option.some.injEq] at h
        exact failed_of_eq h (init_error1_failed _ _).2
      | some dev =>
        rw [hbr] at h
        simp only at h
        split_ifs at h with h1 h2 h3
        · simp only [Option.some.injEq] at h
          exact failed_of_eq h (init_error2_failed P _ _).2
        · simp only [Option.some.injEq] at h
          exact failed_of_eq h (init_regions_error_failed P _ _ (by rw [h]; exact hr))
        · simp only [Option.some.injEq] at h
          exact failed_of_eq h (init_regions_error_failed P _ _ (by rw [h]; exact hr))

/-- The error exits that record the failure: on TSM40 hardware, after an
`omnibook_nbsmi_init` call that returns an error for any reason other than the
failed allocation of the reference counter (bridge not found, device enable
failure, port range reservation failure, sentinel probe, or an earlier
recorded failure), the failure is recorded and every subsequent call returns
`-ENODEV` at once, leaving the whole state (machine, trace, reservations)
untouched.  The exit taken after a failed allocation of the counter returns
`-ENOMEM` and records nothing: the backend is left without counter and without
recorded failure. -/
theorem nbsmi_init_failure_sticky (P : Platform σ) (ht : P.omnibook_ectype &&& TSM40 ≠ 0)
    (s : Backend σ) (r : Int) (s1 : Backend σ) (h : omnibook_nbsmi_init P s = some (r, s1))
    (hr : r ≠ 0) :
    (s.already_failed ≠ 0 ∨ (P.kmalloc s.w.m).1 = true →
      s1.already_failed ≠ 0 ∧
      ∀ k, init_times P k s1 = some (List.replicate k (-ENODEV), s1)) ∧
    (s.already_failed = 0 → (P.kmalloc s.w.m).1 = false →
      r = -ENOMEM ∧ s1.already_failed = 0 ∧ s1.refcount = none ∧
      s1.lpc_bridge = s.lpc_bridge ∧ s1.regions = s.regions ∧
      s1.bridge_refs = s.bridge_refs) := by
  constructor
  · intro hk
    have haf := init_error_records_failure P ht s r s1 h hr hk
    exact ⟨haf, init_times_after_failure P ht s1 haf⟩
  · intro haf hk
    have hka : (smi_kmalloc P (s.ev Event.smi_mutex_lock)).1 = false := by
      simp [smi_kmalloc, Backend.ev, World.log, hk]
    simp only [omnibook_nbsmi_init, ht, if_false, haf, ne_eq, not_true_eq_false] at h
    cases hrc : s.refcount with
    | some n =>
      rw [hrc] at h
      simp only [Option.some.injEq, Prod.mk.injEq] at h
      exact absurd h.1.symm hr
    | none =>
      rw [hrc] at h
      simp only [hka, if_true, Option.some.injEq, init_out, Prod.mk.injEq] at h
      obtain ⟨h1, h2⟩ := h
      subst h2
      refine ⟨h1.symm, ?_, ?_, ?_, ?_, ?_⟩ <;> simp [smi_kmalloc, Backend.ev, haf, hrc]

/-- Instances of `nbsmi_init_failure_sticky`: a failed sentinel probe on the
mock firmware platform is sticky; a refused allocation on
`allocFailsOncePlatform` records nothing. -/
theorem nbsmi_init_failure_sticky_witness :
    (∃ s1, omnibook_nbsmi_init (fwPlatform ⟨PCI_VENDOR_ID_INTEL, 1, 2, false, 0xffff⟩) fwInitial
        = some (-ENODEV, s1) ∧
      s1.already_failed ≠ 0 ∧
      ∀ k, init_times (fwPlatform ⟨PCI_VENDOR_ID_INTEL, 1, 2, false, 0xffff⟩) k s1
        = some (List.replicate k (-ENODEV), s1)) ∧
    (∃ s1, omnibook_nbsmi_init allocFailsOncePlatform allocFailsOnceInitial
        = some (-ENOMEM, s1) ∧
      -ENOMEM = -ENOMEM ∧ s1.already_failed = 0 ∧ s1.refcount = none ∧
      s1.lpc_bridge = allocFailsOnceInitial.lpc_bridge ∧
      s1.regions = allocFailsOnceInitial.regions ∧
      s1.bridge_refs = allocFailsOnceInitial.bridge_refs) := by
  have ht : (fwPlatform ⟨PCI_VENDOR_ID_INTEL, 1, 2, false, 0xffff⟩).omnibook_ectype &&& TSM40 ≠ 0 :=
    (fw_supported _ (Or.inl rfl)).tsm40
  have ht2 : allocFailsOncePlatform.omnibook_ectype &&& TSM40 ≠ 0 := by
    show TSM40 &&& TSM40 ≠ 0
    decide
  constructor
  · obtain ⟨dev, sE, he, _, _, e2, _, _, _⟩ :=
      init_reaches_regions (fwPlatform ⟨PCI_VENDOR_ID_INTEL, 1, 2, false, 0xffff⟩)
        (fw_supported _ (Or.inl rfl)) fwInitial ⟨rfl, rfl, rfl, rfl, rfl⟩
    have hr := init_regions_sentinel (fwPlatform ⟨PCI_VENDOR_ID_INTEL, 1, 2, false, 0xffff⟩)
      (fun _ _ _ => rfl) (fun _ => by simp [fwPlatform]) (smi_port_of dev) sE dev e2
    have h : omnibook_nbsmi_init (fwPlatform ⟨PCI_VENDOR_ID_INTEL, 1, 2, false, 0xffff⟩) fwInitial
        = some (-ENODEV, (init_regions (fwPlatform ⟨PCI_VENDOR_ID_INTEL, 1, 2, false, 0xffff⟩)
            (smi_port_of dev) sE).2) := by
      rw [he, ← hr.1]
    exact ⟨_, h, (nbsmi_init_failure_sticky _ ht fwInitial _ _ h (by decide)).1 (Or.inr rfl)⟩
  · have h : omnibook_nbsmi_init allocFailsOncePlatform allocFailsOnceInitial
        = some (-ENOMEM,
            { w := { m := true,
                     trace := [Event.smi_mutex_lock, Event.kmalloc false, Event.smi_mutex_unlock] },
              refcount := none, lpc_bridge := none, start_offset := 0, already_failed := 0,
              regions := [], bridge_refs := 0 }) := rfl
    exact ⟨_, h, (nbsmi_init_failure_sticky _ ht2 allocFailsOnceInitial _ _ h (by decide)).2
      rfl rfl⟩

/-- C5 (defect in the code): init failures are meant to be sticky.  The flag
`already_failed` is documented as "Backend init already failed at leat once"
and the exits `error1` to `error4` all run `already_failed = 1`, but the exit
taken when the allocation of the reference counter fails jumps to `out:` and
skips it.  On `allocFailsOncePlatform` (TSM40) the first `omnibook_nbsmi_init`
fails with `-ENOMEM`, and the next call is not short-circuited with `-ENODEV`:
it takes the mutex, probes PCI, reserves both port ranges, probes the mailbox
and returns 0. -/
theorem nbsmi_init_alloc_failure_not_sticky :
    (omnibook_nbsmi_init allocFailsOncePlatform allocFailsOnceInitial).map Prod.fst
      = some (-ENOMEM) ∧
    ((omnibook_nbsmi_init allocFailsOncePlatform allocFailsOnceInitial).bind
        (fun r => omnibook_nbsmi_init allocFailsOncePlatform r.2)).map
      (fun r => (r.1, r.2.regions, r.2.bridge_refs, r.2.w.trace))
      = some (0, [(EC_INDEX_PORT, 2), (INTEL_SMI_PORT, 2)], 1,
          [Event.smi_mutex_lock, Event.kmalloc false, Event.smi_mutex_unlock,
           Event.smi_mutex_lock, Event.kmalloc true,
           Event.pci_get_device PCI_VENDOR_ID_INTEL 0x27b9 true, Event.pci_enable_device 0,
           Event.request_region INTEL_SMI_PORT 2 true,
           Event.request_region EC_INDEX_PORT 2 true,
           Event.smi_spin_lock, Event.outw 0x8f EC_INDEX_PORT, Event.inw EC_DATA_PORT 0,
           Event.smi_spin_unlock, Event.smi_mutex_unlock]) := by
  constructor <;> rfl

/-! ## SMI backend: the mock firmware platform -/

theorem fw_outb_index (c : FwConfig) (v : Nat) (w : World FwState) :
    (outb (fwPlatform c).toMachine v (RTC_PORT 2) w).m = { w.m with index := v % 256 } := by
  simp [outb, fwPlatform, RTC_PORT]

theorem fw_outb_data (c : FwConfig) (v : Nat) (w : World FwState) :
    (outb (fwPlatform c).toMachine v (RTC_PORT 3) w).m
      = { w.m with cmos := Function.update w.m.cmos w.m.index (v % 256) } := by
  simp [outb, fwPlatform, RTC_PORT]

theorem fw_inb_data (c : FwConfig) (w : World FwState) :
    (inb (fwPlatform c).toMachine (RTC_PORT 3) w).1 = w.m.cmos w.m.index % 256 ∧
    (inb (fwPlatform c).toMachine (RTC_PORT 3) w).2.m = w.m := by
  simp [inb, fwPlatform, RTC_PORT]

/-- One iteration of the marshalling loop on the mock: the byte lands in the
register selected by the index. -/
theorem fw_write_step (c : FwConfig) (i b : Nat) (w : World FwState) :
    (outb (fwPlatform c).toMachine b (RTC_PORT 3)
      (outb (fwPlatform c).toMachine i (RTC_PORT 2) w)).m
      = { index := i % 256, cmos := Function.update w.m.cmos (i % 256) (b % 256),
          stored := w.m.stored } := by
  rw [fw_outb_data, fw_outb_index]

theorem smi_write_loop_succ (M : Machine σ) (base : Nat) (inp : List Nat) (n count : Nat)
    (w : World σ) :
    smi_write_loop M base inp (n + 1) count w
      = smi_write_loop M base inp n (count + 1)
          (outb M (inp.getD count 0) (RTC_PORT 3) (outb M (count + base) (RTC_PORT 2) w)) := rfl

theorem smi_read_loop_succ (M : Machine σ) (base : Nat) (n count : Nat) (w : World σ) :
    smi_read_loop M base (n + 1) count w
      = ((inb M (RTC_PORT 3) (outb M (count + base) (RTC_PORT 2) w)).1 ::
          (smi_read_loop M base n (count + 1)
            (inb M (RTC_PORT 3) (outb M (count + base) (RTC_PORT 2) w)).2).1,
         (smi_read_loop M base n (count + 1)
            (inb M (RTC_PORT 3) (outb M (count + base) (RTC_PORT 2) w)).2).2) := rfl

/-- The marshalling loop from a positive loop index on leaves register `base`
and the firmware byte alone. -/
theorem fw_write_loop_frame (c : FwConfig) (base : Nat) (inp : List Nat) :
    ∀ (n count : Nat) (w : World FwState), 0 < count → count + base + n ≤ 256 →
      (smi_write_loop (fwPlatform c).toMachine base inp n count w).m.stored = w.m.stored ∧
      (smi_write_loop (fwPlatform c).toMachine base inp n count w).m.cmos base
        = w.m.cmos base := by
  intro n
  induction n with
  | zero =>
    intro count w _ _
    exact ⟨rfl, rfl⟩
  | succ n ih =>
    intro count w hc hb
    have h := ih (count + 1)
      (outb (fwPlatform c).toMachine (inp.getD count 0) (RTC_PORT 3)
        (outb (fwPlatform c).toMachine (count + base) (RTC_PORT 2) w)) (by omega) (by omega)
    rw [smi_write_loop_succ]
    rw [h.1, h.2, fw_write_step]
    have hm : (count + base) % 256 = count + base := Nat.mod_eq_of_lt (by omega)
    have hne : base ≠ count + base := by omega
    simp [hm, Function.update, hne]

/-- After the whole marshalling loop on the mock, register `base` holds byte 0
of the input buffer and the firmware byte is unchanged. -/
theorem fw_write_loop (c : FwConfig) (base : Nat) (inp : List Nat) (w : World FwState)
    (hb : base + BUFFER_SIZE ≤ 256) :
    (smi_write_loop (fwPlatform c).toMachine base inp BUFFER_SIZE 0 w).m.stored = w.m.stored ∧
    (smi_write_loop (fwPlatform c).toMachine base inp BUFFER_SIZE 0 w).m.cmos base
      = inp.getD 0 0 % 256 := by
  have hB : BUFFER_SIZE = 31 + 1 := rfl
  rw [hB] at hb ⊢
  rw [smi_write_loop_succ]
  have h := fw_write_loop_frame c base inp 31 (0 + 1)
    (outb (fwPlatform c).toMachine (inp.getD 0 0) (RTC_PORT 3)
      (outb (fwPlatform c).toMachine (0 + base) (RTC_PORT 2) w)) (by omega) (by omega)
  rw [h.1, h.2, fw_write_step]
  have hm : (0 + base) % 256 = base := by
    rw [Nat.zero_add]; exact Nat.mod_eq_of_lt (by omega)
  rw [hm]
  simp

/-- The read-back loop on the mock changes neither the register file nor the
firmware byte. -/
theorem fw_read_loop_frame (c : FwConfig) (base : Nat) :
    ∀ (n count : Nat) (w : World FwState),
      (smi_read_loop (fwPlatform c).toMachine base n count w).2.m.stored = w.m.stored ∧
      (smi_read_loop (fwPlatform c).toMachine base n count w).2.m.cmos = w.m.cmos := by
  intro n
  induction n with
  | zero =>
    intro count w
    exact ⟨rfl, rfl⟩
  | succ n ih =>
    intro count w
    rw [smi_read_loop_succ]
    have h := ih (count + 1) (inb (fwPlatform c).toMachine (RTC_PORT 3)
      (outb (fwPlatform c).toMachine (count + base) (RTC_PORT 2) w)).2
    rw [h.1, h.2, (fw_inb_data c _).2, fw_outb_index]
    exact ⟨rfl, rfl⟩

/-- Byte 0 stored by the read-back loop on the mock is register `base`. -/
theorem fw_read_loop_head (c : FwConfig) (base : Nat) (w : World FwState) (hb : base < 256) :
    (smi_read_loop (fwPlatform c).toMachine base BUFFER_SIZE 0 w).1.getD 0 0
      = w.m.cmos base % 256 := by
  have hB : BUFFER_SIZE = 31 + 1 := rfl
  rw [hB, smi_read_loop_succ]
  simp only [List.getD_cons_zero]
  rw [(fw_inb_data c _).1, fw_outb_index]
  have hm : (0 + base) % 256 = base := by
    rw [Nat.zero_add]; exact Nat.mod_eq_of_lt hb
  rw [hm]

/-- The word written to the SMI port carries the low byte of the function code
in its high byte and the tag 0xe4 in its low byte. -/
theorem smi_function_word_eq (f : Nat) : smi_function_word f = (f % 256) * 256 + 0xe4 := by
  have key : ∀ a, a < 256 → ((a <<< 8) % 65536) ||| 0xe4 = a * 256 + 0xe4 := by
    intro a ha
    have h2 := Nat.mul_add_lt_is_or (show 0xe4 < 2 ^ 8 by decide) a
    rw [Nat.shiftLeft_eq, Nat.mod_eq_of_lt (by omega), Nat.mul_comm a, ← h2]
  have h1 : (f % 65536) &&& 0xff = f % 256 := by
    have := Nat.and_pow_two_sub_one_eq_mod (f % 65536) 8
    simp only [Nat.reducePow, Nat.add_one_sub_one] at this
    rw [this]
    exact Nat.mod_mod_of_dvd f (by decide)
  unfold smi_function_word
  rw [h1]
  exact key (f % 256) (Nat.mod_lt _ (by decide))

theorem smi_function_word_facts (f : Nat) :
    smi_function_word f % 65536 = smi_function_word f ∧
    smi_function_word f / 256 = f % 256 ∧
    smi_function_word f % 4294967296 % 65536 ≠ 0 := by
  rw [smi_function_word_eq]
  have := Nat.mod_lt f (show 0 < 256 by decide)
  refine ⟨Nat.mod_eq_of_lt (by omega), by omega, by omega⟩

theorem fw_smi_trap (c : FwConfig) (word port : Nat) (m : FwState) :
    (fwPlatform c).smi_trap word port m = fw_trap c word m := rfl

theorem fw_inw (c : FwConfig) (port : Nat) (m : FwState) :
    (fwPlatform c).inw port m
      = if port = EC_DATA_PORT then (c.mailbox, m) else (if c.fail then 1 else 0, m) := rfl

theorem fw_inl (c : FwConfig) (port : Nat) (m : FwState) : (fwPlatform c).inl port m = (0, m) := rfl

theorem fw_outl (c : FwConfig) (v port : Nat) (m : FwState) :
    (fwPlatform c).outl v port m = m := rfl

theorem fw_pci_read_config_dword (c : FwConfig) (d : PciDev) (o : Nat) (m : FwState) :
    (fwPlatform c).pci_read_config_dword d o m = (0, m) := rfl

/-- The vendor dispatch of `nbsmi_smi_command` on the mock firmware platform:
the call returns 0 when the firmware works and `(u32) - EIO` when it fails, and
the machine state afterwards is the one left by the SMI handler. -/
theorem fw_do_smi_call (c : FwConfig) (f : Nat) (s : Backend FwState) (dev : PciDev)
    (hbr : s.lpc_bridge = some dev) (hdv : dev.vendor = c.vendor)
    (hv : c.vendor = PCI_VENDOR_ID_INTEL ∨ c.vendor = PCI_VENDOR_ID_ATI) :
    ∃ r : Nat × Backend FwState,
      (if dev.vendor = PCI_VENDOR_ID_INTEL then
          intel_do_smi_call (fwPlatform c) (smi_function_word f) s
        else if dev.vendor = PCI_VENDOR_ID_ATI then
          some (ati_do_smi_call (fwPlatform c) (smi_function_word f) s)
        else none) = some r ∧
      r.1 = (if c.fail then int_to_u32 (- EIO) else 0) ∧
      r.2.w.m = (fw_trap c (smi_function_word f) s.w.m).2 ∧
      r.2.lpc_bridge = s.lpc_bridge ∧ r.2.start_offset = s.start_offset := by
  obtain ⟨hw1, hw2, hw3⟩ := smi_function_word_facts f
  have hax : ∀ m, (fw_trap c (smi_function_word f) m).1
      = if c.fail then smi_function_word f else 0 := by
    intro m
    unfold fw_trap
    split_ifs <;> rfl
  rcases hv with hv | hv
  · have hd : dev.vendor = PCI_VENDOR_ID_INTEL := by rw [hdv, hv]
    refine ⟨?r, ?e, ?g⟩
    case e =>
      simp only [hd, if_true, intel_do_smi_call, hbr]
      exact Eq.refl _
    case g =>
      simp only [smi_trap, hw1, fw_smi_trap, hax]
      cases hf : c.fail
      · simp [inl, outl, fw_inl, fw_outl, fw_pci_read_config_dword, Backend.ev, World.log]
      · simp [inl, outl, fw_inl, fw_outl, fw_pci_read_config_dword, Backend.ev, World.log, hw3]
  · have hd : dev.vendor = PCI_VENDOR_ID_ATI := by rw [hdv, hv]
    have hne : ¬ (PCI_VENDOR_ID_ATI = PCI_VENDOR_ID_INTEL) := by decide
    have hport : ¬ (ATI_SMI_PORT + 1 = EC_DATA_PORT) := by decide
    refine ⟨?r2, ?e2, ?g2⟩
    case e2 =>
      simp only [hd, if_neg hne, if_true]
      exact Eq.refl _
    case g2 =>
      simp only [ati_do_smi_call, smi_trap, hw1, fw_smi_trap, hax]
      cases hf : c.fail
      · simp [Backend.ev, World.log]
      · simp [inw, fw_inw, hport, Backend.ev, World.log, hf, hw3]

theorem fw_base_bound (c : FwConfig) : fw_base c + BUFFER_SIZE ≤ 256 := by
  unfold fw_base
  split_ifs <;> decide

theorem u32_neg_eio_roundtrip : u32_to_int (int_to_u32 (- EIO)) = - EIO := by decide

/-- `nbsmi_smi_command` on the mock firmware platform with a working firmware
returns 0; on the write function the firmware byte becomes byte 0 of the
input buffer; on the read function byte 0 of the output buffer is the
firmware byte.  With a failing firmware it returns `- EIO`. -/
theorem fw_smi_command (c : FwConfig) (f : Nat) (inp : List Nat) (s : Backend FwState)
    (dev : PciDev) (hbr : s.lpc_bridge = some dev) (hdv : dev.vendor = c.vendor)
    (hv : c.vendor = PCI_VENDOR_ID_INTEL ∨ c.vendor = PCI_VENDOR_ID_ATI)
    (hso : s.start_offset = fw_base c) :
    ∃ r, nbsmi_smi_command (fwPlatform c) f inp s = some r ∧
      r.2.lpc_bridge = s.lpc_bridge ∧ r.2.start_offset = s.start_offset ∧
      r.1.1 = (if c.fail then - EIO else 0) ∧
      (c.fail = false → f % 256 = c.wr % 256 → r.2.w.m.stored = inp.getD 0 0 % 256) ∧
      (c.fail = false → f % 256 ≠ c.wr % 256 → f % 256 = c.rd % 256 →
        r.2.w.m.stored = s.w.m.stored ∧ r.1.2.getD 0 0 = s.w.m.stored % 256) := by
  obtain ⟨_, hw2, _⟩ := smi_function_word_facts f
  rcases s with ⟨w, rc, br, so, af, rg, bf⟩
  simp only at hbr hso
  subst hbr hso
  have hW := fw_write_loop c (fw_base c) inp w (fw_base_bound c)
  obtain ⟨t, ht, t1, t2, t3, t4⟩ := fw_do_smi_call c f
    { w := smi_write_loop (fwPlatform c).toMachine (fw_base c) inp BUFFER_SIZE 0 w,
      refcount := rc, lpc_bridge := some dev, start_offset := fw_base c, already_failed := af,
      regions := rg, bridge_refs := bf }
    dev rfl hdv hv
  have hbb := fw_base_bound c
  have hB : 0 < BUFFER_SIZE := by decide
  refine ⟨?r, ?e, ?g⟩
  case e =>
    simp only [nbsmi_smi_command, ht]
    exact Eq.refl _
  case g =>
    have hfr : ∀ w : World FwState,
        (smi_read_loop (fwPlatform c).toMachine (fw_base c) BUFFER_SIZE 0 w).2.m.stored
          = w.m.stored := fun w => (fw_read_loop_frame c _ _ _ w).1
    have hhd : ∀ w : World FwState,
        (smi_read_loop (fwPlatform c).toMachine (fw_base c) BUFFER_SIZE 0 w).1.getD 0 0
          = w.m.cmos (fw_base c) % 256 := by
      intro w
      exact fw_read_loop_head c _ w (by omega)
    have hmm : ∀ x : Backend FwState, (if t.1 ≠ 0 then x.ev Event.printk else x).w.m = x.w.m := by
      intro x
      split_ifs <;> rfl
    have hll : ∀ x : Backend FwState,
        (if t.1 ≠ 0 then x.ev Event.printk else x).lpc_bridge = x.lpc_bridge ∧
        (if t.1 ≠ 0 then x.ev Event.printk else x).start_offset = x.start_offset := by
      intro x
      split_ifs <;> exact ⟨rfl, rfl⟩
    simp only at t2 t3 t4
    refine ⟨?_, ?_, ?_, ?_, ?_⟩
    · simp only [(hll _).1, t3]
    · simp only [(hll _).2, t4]
    · simp only [t1]
      cases c.fail
      · rfl
      · exact u32_neg_eio_roundtrip
    · intro hf hwr
      simp only [hfr, hmm, t2]
      simp only [fw_trap, hf, Bool.false_eq_true, if_false, hw2, hwr, if_true, hW.1, hW.2]
    · intro hf hwr hrd
      simp only [hfr, hhd, hmm, t2]
      have hwr2 : ¬ (c.rd % 256 = c.wr % 256) := by rw [← hrd]; exact hwr
      simp only [fw_trap, hf, Bool.false_eq_true, if_false, hw2, hrd, if_neg hwr2, if_true, hW.1]
      simp

/-! ## SMI backend: byte read -/

/-- Every byte stored by the read-back loop is a `u8`. -/
theorem smi_read_loop_bytes (M : Machine σ) (base : Nat) :
    ∀ (n count : Nat) (w : World σ), ∀ x ∈ (smi_read_loop M base n count w).1, x < 256 := by
  intro n
  induction n with
  | zero =>
    intro count w x hx
    simp [smi_read_loop] at hx
  | succ n ih =>
    intro count w x hx
    rw [smi_read_loop_succ] at hx
    simp only [List.mem_cons] at hx
    rcases hx with hx | hx
    · rw [hx]
      exact Nat.mod_lt _ (by decide)
    · exact ih _ _ x hx

/-- `nbsmi_smi_command` returns 0 or `- EIO`, and byte 0 of the output buffer
is a `u8`. -/
theorem smi_command_ret (P : Platform σ) (f : Nat) (inp : List Nat) (s : Backend σ)
    (c : (Int × List Nat) × Backend σ) (h : nbsmi_smi_command P f inp s = some c) :
    (c.1.1 = 0 ∨ c.1.1 = - EIO) ∧ c.1.2.getD 0 0 < 256 := by
  rcases s with ⟨w, rc, br, so, af, rg, bf⟩
  cases br with
  | none => simp [nbsmi_smi_command] at h
  | some dev =>
    simp only [nbsmi_smi_command] at h
    have hret : ∀ t : Nat × Backend σ,
        (if dev.vendor = PCI_VENDOR_ID_INTEL then
            intel_do_smi_call P (smi_function_word f)
              { w := smi_write_loop P.toMachine so inp BUFFER_SIZE 0 w, refcount := rc,
                lpc_bridge := some dev, start_offset := so, already_failed := af,
                regions := rg, bridge_refs := bf }
          else if dev.vendor = PCI_VENDOR_ID_ATI then
            some (ati_do_smi_call P (smi_function_word f)
              { w := smi_write_loop P.toMachine so inp BUFFER_SIZE 0 w, refcount := rc,
                lpc_bridge := some dev, start_offset := so, already_failed := af,
                regions := rg, bridge_refs := bf })
          else none) = some t → t.1 = 0 ∨ t.1 = int_to_u32 (- EIO) := by
      intro t ht
      split_ifs at ht with h1 h2
      · simp only [intel_do_smi_call, Option.some.injEq] at ht
        rw [← ht]
        simp only
        split_ifs
        · exact Or.inl rfl
        · exact Or.inr rfl
      · simp only [Option.some.injEq] at ht
        rw [← ht]
        unfold ati_do_smi_call
        simp only
        split_ifs
        · exact Or.inl rfl
        · exact Or.inl rfl
        · exact Or.inr rfl
    split at h
    · cases h
    · rename_i t ht
      have h1 := hret t ht
      simp only [Option.some.injEq] at h
      rw [← h]
      constructor
      · rcases h1 with h1 | h1
        · left; simp only [h1]; rfl
        · right; simp only [h1]; exact u32_neg_eio_roundtrip
      · simp only
        cases hl : (smi_read_loop P.toMachine so BUFFER_SIZE 0
            (if t.1 ≠ 0 then t.2.ev Event.printk else t.2).w).1 with
        | nil => simp
        | cons a l =>
          simp only [List.getD_cons_zero]
          exact smi_read_loop_bytes P.toMachine so BUFFER_SIZE 0 _ a
            (by rw [hl]; exact List.mem_cons_self a l)

/-- `nbsmi_smi_read_command` once the lock is held and both buffers are
allocated, in terms of the result `c` of the SMI call. -/
theorem smi_read_command_result_aux (P : Platform σ) (io_op : omnibook_operation) (data : Nat)
    (s : Backend σ) (hbr : s.lpc_bridge.isNone = false)
    (hl : (smi_mutex_lock_interruptible P s).1 = false)
    (ha : (smi_kmalloc P (smi_mutex_lock_interruptible P s).2).1 = true)
    (hb : (smi_kmalloc P (smi_kmalloc P (smi_mutex_lock_interruptible P s).2).2).1 = true)
    (c : (Int × List Nat) × Backend σ)
    (hc : nbsmi_smi_command P (io_op.read_addr % 65536) (List.replicate BUFFER_SIZE 0)
      (smi_kmalloc P (smi_kmalloc P (smi_mutex_lock_interruptible P s).2).2).2 = some c) :
    nbsmi_smi_read_command P io_op data s =
      (if c.1.1 ≠ 0 then some ((c.1.1, data), smi_cleanup c.2)
       else if io_op.read_mask ≠ 0 then
         some ((c.1.1, ((c.1.2.getD 0 0) &&& io_op.read_mask) % 256), smi_cleanup c.2)
       else some ((c.1.1, c.1.2.getD 0 0), smi_cleanup c.2)) := by
  simp only [nbsmi_smi_read_command, hbr, Bool.false_eq_true, if_false, hl, ha, hb, hc,
    Bool.true_eq_false, smi_cleanup]

/-- C6: for every descriptor, caller byte and platform, when the backend is
initialised (`lpc_bridge` not null), the mutex is acquired, both buffers are
allocated and the SMI call `nbsmi_smi_command` returns `c`: the return value
of the call is 0 or `- EIO`; if it is 0, `nbsmi_smi_read_command` returns 0 and
stores output-buffer byte 0 ANDed with `read_mask` when `read_mask` is nonzero
and output-buffer byte 0 unmodified when `read_mask` is 0; if it is not 0,
`nbsmi_smi_read_command` returns that error and leaves the caller's byte as
it was.  Either way both buffers are freed and the mutex is released. -/
theorem smi_read_command_result (P : Platform σ) (io_op : omnibook_operation) (data : Nat)
    (s : Backend σ) (hbr : s.lpc_bridge.isNone = false)
    (hl : (smi_mutex_lock_interruptible P s).1 = false)
    (ha : (smi_kmalloc P (smi_mutex_lock_interruptible P s).2).1 = true)
    (hb : (smi_kmalloc P (smi_kmalloc P (smi_mutex_lock_interruptible P s).2).2).1 = true)
    (c : (Int × List Nat) × Backend σ)
    (hc : nbsmi_smi_command P (io_op.read_addr % 65536) (List.replicate BUFFER_SIZE 0)
      (smi_kmalloc P (smi_kmalloc P (smi_mutex_lock_interruptible P s).2).2).2 = some c) :
    (c.1.1 = 0 ∨ c.1.1 = - EIO) ∧
    (c.1.1 = 0 → io_op.read_mask ≠ 0 →
      nbsmi_smi_read_command P io_op data s
        = some ((0, c.1.2.getD 0 0 &&& io_op.read_mask), smi_cleanup c.2)) ∧
    (c.1.1 = 0 → io_op.read_mask = 0 →
      nbsmi_smi_read_command P io_op data s = some ((0, c.1.2.getD 0 0), smi_cleanup c.2)) ∧
    (c.1.1 ≠ 0 →
      nbsmi_smi_read_command P io_op data s = some ((c.1.1, data), smi_cleanup c.2)) := by
  have hret := smi_command_ret P _ _ _ c hc
  have hunf := smi_read_command_result_aux P io_op data s hbr hl ha hb c hc
  refine ⟨hret.1, ?_, ?_, ?_⟩
  · intro h0 hm
    rw [hunf]
    simp only [h0, ne_eq, not_true_eq_false, if_false, hm, not_false_eq_true, if_true]
    have hle : c.1.2.getD 0 0 &&& io_op.read_mask ≤ c.1.2.getD 0 0 := Nat.and_le_left
    rw [Nat.mod_eq_of_lt (lt_of_le_of_lt hle hret.2)]
  · intro h0 hm
    rw [hunf]
    simp only [h0, ne_eq, not_true_eq_false, if_false, hm]
  · intro h0
    rw [hunf]
    simp only [ne_eq, h0, not_false_eq_true, if_true]

/-- Witness for C6 on the mock firmware platform: a masked read and an
unmasked read with a working firmware, and a read with a failing firmware. -/
theorem smi_read_command_result_witness :
    (∃ c : (Int × List Nat) × Backend FwState, c.1.1 = 0 ∧
      nbsmi_smi_read_command (fwPlatform ⟨PCI_VENDOR_ID_INTEL, 1, 2, false, 0⟩) ⟨1, 2, 0x0f⟩ 7
          (fwReady ⟨PCI_VENDOR_ID_INTEL, 1, 2, false, 0⟩)
        = some ((0, c.1.2.getD 0 0 &&& 0x0f), smi_cleanup c.2)) ∧
    (∃ c : (Int × List Nat) × Backend FwState, c.1.1 = 0 ∧
      nbsmi_smi_read_command (fwPlatform ⟨PCI_VENDOR_ID_INTEL, 1, 2, false, 0⟩) ⟨1, 2, 0⟩ 7
          (fwReady ⟨PCI_VENDOR_ID_INTEL, 1, 2, false, 0⟩)
        = some ((0, c.1.2.getD 0 0), smi_cleanup c.2)) ∧
    (∃ c : (Int × List Nat) × Backend FwState, c.1.1 = - EIO ∧
      nbsmi_smi_read_command (fwPlatform ⟨PCI_VENDOR_ID_ATI, 1, 2, true, 0⟩) ⟨1, 2, 0⟩ 7
          (fwReady ⟨PCI_VENDOR_ID_ATI, 1, 2, true, 0⟩)
        = some ((c.1.1, 7), smi_cleanup c.2)) := by
  refine ⟨?_, ?_, ?_⟩
  · obtain ⟨c, hc, _, _, h0, _, _⟩ := fw_smi_command ⟨PCI_VENDOR_ID_INTEL, 1, 2, false, 0⟩
      ((⟨1, 2, 0x0f⟩ : omnibook_operation).read_addr % 65536) (List.replicate BUFFER_SIZE 0)
      (smi_kmalloc _ (smi_kmalloc _ (smi_mutex_lock_interruptible _
        (fwReady ⟨PCI_VENDOR_ID_INTEL, 1, 2, false, 0⟩)).2).2).2
      ⟨PCI_VENDOR_ID_INTEL, 0⟩ rfl rfl (Or.inl rfl) rfl
    exact ⟨c, h0, (smi_read_command_result (fwPlatform ⟨PCI_VENDOR_ID_INTEL, 1, 2, false, 0⟩) ⟨1, 2, 0x0f⟩ 7
      (fwReady ⟨PCI_VENDOR_ID_INTEL, 1, 2, false, 0⟩) rfl rfl rfl rfl c hc).2.1 h0
      (by decide)⟩
  · obtain ⟨c, hc, _, _, h0, _, _⟩ := fw_smi_command ⟨PCI_VENDOR_ID_INTEL, 1, 2, false, 0⟩
      ((⟨1, 2, 0⟩ : omnibook_operation).read_addr % 65536) (List.replicate BUFFER_SIZE 0)
      (smi_kmalloc _ (smi_kmalloc _ (smi_mutex_lock_interruptible _
        (fwReady ⟨PCI_VENDOR_ID_INTEL, 1, 2, false, 0⟩)).2).2).2
      ⟨PCI_VENDOR_ID_INTEL, 0⟩ rfl rfl (Or.inl rfl) rfl
    exact ⟨c, h0, (smi_read_command_result (fwPlatform ⟨PCI_VENDOR_ID_INTEL, 1, 2, false, 0⟩) ⟨1, 2, 0⟩ 7
      (fwReady ⟨PCI_VENDOR_ID_INTEL, 1, 2, false, 0⟩) rfl rfl rfl rfl c hc).2.2.1 h0 rfl⟩
  · obtain ⟨c, hc, _, _, h0, _, _⟩ := fw_smi_command ⟨PCI_VENDOR_ID_ATI, 1, 2, true, 0⟩
      ((⟨1, 2, 0⟩ : omnibook_operation).read_addr % 65536) (List.replicate BUFFER_SIZE 0)
      (smi_kmalloc _ (smi_kmalloc _ (smi_mutex_lock_interruptible _
        (fwReady ⟨PCI_VENDOR_ID_ATI, 1, 2, true, 0⟩)).2).2).2
      ⟨PCI_VENDOR_ID_ATI, 0⟩ rfl rfl (Or.inr rfl) rfl
    have hne : c.1.1 ≠ 0 := by
      rw [h0]; decide
    exact ⟨c, h0, (smi_read_command_result (fwPlatform ⟨PCI_VENDOR_ID_ATI, 1, 2, true, 0⟩) ⟨1, 2, 0⟩ 7
      (fwReady ⟨PCI_VENDOR_ID_ATI, 1, 2, true, 0⟩) rfl rfl rfl rfl c hc).2.2.2 hne⟩

/-! ## SMI backend: display mode -/

/-- A state that is not in the table leaves `matched` at 255. -/
theorem display_set_scan_not_mem (state : Nat) :
    ∀ (l : List Nat) (i : Nat), state ∉ l → display_set_scan state l i = 255 := by
  intro l
  induction l with
  | nil =>
    intro i _
    rfl
  | cons m rest ih =>
    intro i h
    simp only [List.mem_cons, not_or] at h
    have hne : ¬ (m = state) := fun e => h.1 e.symm
    simp only [display_set_scan, if_neg hne]
    exact ih (i + 1) h.2

/-- C8: for every display state value that is not one of the five table
entries, `omnibook_nbmsi_display_set` returns `-EINVAL`; the machine state and
the backend data are unchanged and the only action recorded is the `printk`:
no lock is taken, no SMI call is issued and no port is written. -/
theorem display_set_rejects_unlisted (P : Platform σ) (io_op : omnibook_operation)
    (state : Nat) (s : Backend σ) (h : state ∉ nbsmi_display_mode_list) :
    omnibook_nbmsi_display_set P io_op state s = some (-EINVAL, s.ev Event.printk) ∧
    (s.ev Event.printk).w.m = s.w.m ∧
    (s.ev Event.printk).w.trace = s.w.trace ++ [Event.printk] := by
  have hs := display_set_scan_not_mem state nbsmi_display_mode_list 0 h
  refine ⟨?_, rfl, rfl⟩
  simp only [omnibook_nbmsi_display_set, hs, if_true]

/-- Witness for C8: LCD|CRT|TVO (7) on the mock firmware platform. -/
theorem display_set_rejects_unlisted_witness :
    omnibook_nbmsi_display_set (fwPlatform ⟨PCI_VENDOR_ID_INTEL, 1, 2, false, 0⟩) ⟨1, 2, 0⟩
        (DISPLAY_LCD_ON ||| DISPLAY_CRT_ON ||| DISPLAY_TVO_ON)
        (fwReady ⟨PCI_VENDOR_ID_INTEL, 1, 2, false, 0⟩)
      = some (-EINVAL, (fwReady ⟨PCI_VENDOR_ID_INTEL, 1, 2, false, 0⟩).ev Event.printk) ∧
    ((fwReady ⟨PCI_VENDOR_ID_INTEL, 1, 2, false, 0⟩).ev Event.printk).w.m
      = (fwReady ⟨PCI_VENDOR_ID_INTEL, 1, 2, false, 0⟩).w.m ∧
    ((fwReady ⟨PCI_VENDOR_ID_INTEL, 1, 2, false, 0⟩).ev Event.printk).w.trace
      = (fwReady ⟨PCI_VENDOR_ID_INTEL, 1, 2, false, 0⟩).w.trace ++ [Event.printk] :=
  display_set_rejects_unlisted (fwPlatform ⟨PCI_VENDOR_ID_INTEL, 1, 2, false, 0⟩) ⟨1, 2, 0⟩
    (DISPLAY_LCD_ON ||| DISPLAY_CRT_ON ||| DISPLAY_TVO_ON)
    (fwReady ⟨PCI_VENDOR_ID_INTEL, 1, 2, false, 0⟩) (by decide)

/-! ## SMI backend: wireless state -/

/-- The state word assembled by `omnibook_nbsmi_get_wireless` from the
killswitch byte `k` and the aerial byte `a`. -/
theorem wireless_word_facts (k a : Nat) :
    ∀ st, st = ((((if k ≠ 0 then KILLSWITCH else 0) |||
        (if a &&& WLEX_MASK ≠ 0 then WIFI_EX else 0)) |||
        (if a &&& WLAT_MASK ≠ 0 then WIFI_STA else 0)) |||
        (if a &&& BTEX_MASK ≠ 0 then BT_EX else 0)) |||
        (if a &&& BTAT_MASK ≠ 0 then BT_STA else 0) →
      st ||| (WIFI_EX ||| WIFI_STA ||| KILLSWITCH ||| BT_EX ||| BT_STA)
        = WIFI_EX ||| WIFI_STA ||| KILLSWITCH ||| BT_EX ||| BT_STA ∧
      (st &&& KILLSWITCH ≠ 0 ↔ k ≠ 0) ∧
      (st &&& WIFI_EX ≠ 0 ↔ a &&& 0x4 ≠ 0) ∧
      (st &&& WIFI_STA ≠ 0 ↔ a &&& 0x8 ≠ 0) ∧
      (st &&& BT_EX ≠ 0 ↔ a &&& 0x1 ≠ 0) ∧
      (st &&& BT_STA ≠ 0 ↔ a &&& 0x2 ≠ 0) := by
  intro st hst
  subst hst
  simp only [WLEX_MASK, WLAT_MASK, BTEX_MASK, BTAT_MASK]
  by_cases hk : k = 0 <;> by_cases h4 : a &&& 0x4 = 0 <;> by_cases h8 : a &&& 0x8 = 0 <;>
    by_cases h1 : a &&& 0x1 = 0 <;> by_cases h2 : a &&& 0x2 = 0 <;>
    simp only [hk, h4, h8, h1, h2, ne_eq, not_true_eq_false, not_false_eq_true, if_true,
      if_false, iff_true, iff_false, not_not] <;> decide

/-- C9: for every killswitch byte `k` and raw aerial byte `a`, if the two SMI
reads of `omnibook_nbsmi_get_wireless` succeed yielding `k` and `a`, it
returns 0 with a state that contains only bits of WIFI_EX, WIFI_STA,
KILLSWITCH, BT_EX, BT_STA, has KILLSWITCH set iff `k` is not 0, WIFI_EX iff
bit 0x4 of `a`, WIFI_STA iff bit 0x8, BT_EX iff bit 0x1 and BT_STA iff bit
0x2; `a` = 0 with `k` = 1 yields exactly KILLSWITCH, and `a` = 0xF yields all
of WIFI_EX, WIFI_STA, BT_EX, BT_STA. -/
theorem get_wireless_decode (P : Platform σ) (old k a : Nat) (s s1 s2 : Backend σ)
    (h1 : nbsmi_smi_read_command P
      { read_addr := P.SMI_GET_KILL_SWITCH, write_addr := 0, read_mask := 0 } 0 s
        = some ((0, k), s1))
    (h2 : nbsmi_smi_read_command P
      { read_addr := P.SMI_GET_AERIAL, write_addr := 0, read_mask := 0 } k s1
        = some ((0, a), s2)) :
    ∃ st, omnibook_nbsmi_get_wireless P old s = some ((0, st), s2) ∧
      st ||| (WIFI_EX ||| WIFI_STA ||| KILLSWITCH ||| BT_EX ||| BT_STA)
        = WIFI_EX ||| WIFI_STA ||| KILLSWITCH ||| BT_EX ||| BT_STA ∧
      (st &&& KILLSWITCH ≠ 0 ↔ k ≠ 0) ∧
      (st &&& WIFI_EX ≠ 0 ↔ a &&& 0x4 ≠ 0) ∧
      (st &&& WIFI_STA ≠ 0 ↔ a &&& 0x8 ≠ 0) ∧
      (st &&& BT_EX ≠ 0 ↔ a &&& 0x1 ≠ 0) ∧
      (st &&& BT_STA ≠ 0 ↔ a &&& 0x2 ≠ 0) ∧
      (a = 0x0 → k = 0x1 → st = KILLSWITCH) ∧
      (a = 0xF → st &&& (WIFI_EX ||| WIFI_STA ||| BT_EX ||| BT_STA)
        = WIFI_EX ||| WIFI_STA ||| BT_EX ||| BT_STA) := by
  have hf := wireless_word_facts k a _ rfl
  refine ⟨_, ?_, hf.1, hf.2.1, hf.2.2.1, hf.2.2.2.1, hf.2.2.2.2.1, hf.2.2.2.2.2, ?_, ?_⟩
  · simp only [omnibook_nbsmi_get_wireless, h1, h2, ne_eq, not_true_eq_false, if_false]
  · intro ha hk
    subst ha hk
    decide
  · intro ha
    subst ha
    by_cases hk : k = 0
    · subst hk; decide
    · simp only [ne_eq, hk, not_false_eq_true, if_true]
      decide

theorem some_get_pair {α β : Type} (o : Option (α × β)) (h : o.isSome = true) (a : α)
    (ha : (o.get h).1 = a) : o = some (a, (o.get h).2) := by
  rw [← ha]
  exact (Option.some_get h).symm

/-- Witness for C9: on the mock firmware platform whose firmware answers the
killswitch function with the byte 1 and the aerial function with 0, the state
is exactly KILLSWITCH. -/
theorem get_wireless_decode_witness :
    ∃ s2 st,
      omnibook_nbsmi_get_wireless (fwPlatform ⟨PCI_VENDOR_ID_INTEL, 0x3e, 2, false, 0⟩) 0
          (fwReadyStored ⟨PCI_VENDOR_ID_INTEL, 0x3e, 2, false, 0⟩ 1)
        = some ((0, st), s2) ∧
      st ||| (WIFI_EX ||| WIFI_STA ||| KILLSWITCH ||| BT_EX ||| BT_STA)
        = WIFI_EX ||| WIFI_STA ||| KILLSWITCH ||| BT_EX ||| BT_STA ∧
      (st &&& KILLSWITCH ≠ 0 ↔ 1 ≠ 0) ∧
      (st &&& WIFI_EX ≠ 0 ↔ 0 &&& 0x4 ≠ 0) ∧
      (st &&& WIFI_STA ≠ 0 ↔ 0 &&& 0x8 ≠ 0) ∧
      (st &&& BT_EX ≠ 0 ↔ 0 &&& 0x1 ≠ 0) ∧
      (st &&& BT_STA ≠ 0 ↔ 0 &&& 0x2 ≠ 0) ∧
      (0 = 0x0 → 1 = 0x1 → st = KILLSWITCH) ∧
      (0 = 0xF → st &&& (WIFI_EX ||| WIFI_STA ||| BT_EX ||| BT_STA)
        = WIFI_EX ||| WIFI_STA ||| BT_EX ||| BT_STA) := by
  have i1 : (nbsmi_smi_read_command (fwPlatform ⟨PCI_VENDOR_ID_INTEL, 0x3e, 2, false, 0⟩)
      { read_addr := (fwPlatform ⟨PCI_VENDOR_ID_INTEL, 0x3e, 2, false, 0⟩).SMI_GET_KILL_SWITCH,
        write_addr := 0, read_mask := 0 } 0
      (fwReadyStored ⟨PCI_VENDOR_ID_INTEL, 0x3e, 2, false, 0⟩ 1)).isSome = true := rfl
  have h1 := some_get_pair _ i1 (0, 1) rfl
  have i2 : (nbsmi_smi_read_command (fwPlatform ⟨PCI_VENDOR_ID_INTEL, 0x3e, 2, false, 0⟩)
      { read_addr := (fwPlatform ⟨PCI_VENDOR_ID_INTEL, 0x3e, 2, false, 0⟩).SMI_GET_AERIAL,
        write_addr := 0, read_mask := 0 } 1
      ((nbsmi_smi_read_command (fwPlatform ⟨PCI_VENDOR_ID_INTEL, 0x3e, 2, false, 0⟩)
        { read_addr := (fwPlatform ⟨PCI_VENDOR_ID_INTEL, 0x3e, 2, false, 0⟩).SMI_GET_KILL_SWITCH,
          write_addr := 0, read_mask := 0 } 0
        (fwReadyStored ⟨PCI_VENDOR_ID_INTEL, 0x3e, 2, false, 0⟩ 1)).get i1).2).isSome = true := rfl
  have h2 := some_get_pair _ i2 (0, 0) rfl
  exact ⟨_, get_wireless_decode (fwPlatform ⟨PCI_VENDOR_ID_INTEL, 0x3e, 2, false, 0⟩) 0 1 0
    (fwReadyStored ⟨PCI_VENDOR_ID_INTEL, 0x3e, 2, false, 0⟩ 1) _ _ h1 h2⟩

/-! ## Register dump parser -/

theorem isxdigit_not_isspace (c : Char) (h : isxdigit c = true) : isspace c = false := by
  simp only [isxdigit, decide_eq_true_eq] at h
  simp only [isspace, decide_eq_false_iff_not]
  omega

theorem isxdigit_value_lt (c : Char) (h : isxdigit c = true) : digit_value c < 16 := by
  simp only [isxdigit, decide_eq_true_eq] at h
  simp only [digit_value, isdigit, toupper, decide_eq_true_eq]
  split_ifs <;> omega

theorem isdigit_isxdigit (c : Char) (h : isdigit c = true) :
    isxdigit c = true ∧ digit_value c < 10 := by
  simp only [isdigit, decide_eq_true_eq] at h
  simp only [isxdigit, digit_value, isdigit, decide_eq_true_eq]
  constructor
  · omega
  · rw [if_pos h]; omega

theorem isxdigit_toupper (c : Char) (h : isxdigit c = true) : toupper c ≠ 88 := by
  simp only [isxdigit, decide_eq_true_eq] at h
  simp only [toupper]
  split_ifs <;> omega

/-- The digit loop consumes a run of digits of the base and stops at the next
character. -/
theorem strtoul_digits_append (base : Nat) (rest : List Char) (hr : stops_at base rest) :
    ∀ (ds : List Char) (acc : Nat),
      (∀ c ∈ ds, isxdigit c = true ∧ digit_value c < base) →
      strtoul_digits base (ds ++ rest) acc
        = (ds.foldl (fun a c => a * base + digit_value c) acc, rest) := by
  intro ds
  induction ds with
  | nil =>
    intro acc _
    cases rest with
    | nil => rfl
    | cons c r =>
      have := (hr c r rfl).1
      simp only [List.nil_append, strtoul_digits, if_neg this, List.foldl_nil]
  | cons d ds ih =>
    intro acc h
    have hd := h d (List.mem_cons_self d ds)
    simp only [List.cons_append, strtoul_digits, if_pos hd, List.foldl_cons]
    exact ih _ (fun c hc => h c (List.mem_cons_of_mem d hc))

/-- `simple_strtoul` on a nonempty run of digits followed by a stopping
character yields the number the digits denote and the rest of the string. -/
theorem simple_strtoul_digits (base : Nat) (d : Char) (ds rest : List Char)
    (hr : stops_at base rest)
    (h : ∀ c ∈ d :: ds, isxdigit c = true ∧ digit_value c < base) :
    simple_strtoul (d :: ds ++ rest) base = (digits_value base (d :: ds), rest) := by
  have key := strtoul_digits_append base rest hr (d :: ds) 0 h
  cases ds with
  | nil =>
    cases rest with
    | nil => exact key
    | cons r rs =>
      have hx := (hr r rs rfl).2
      have hc : ¬ (base = 16 ∧ d.toNat = 48 ∧ toupper r = 88) := fun hh => hx hh.2.2
      simp only [List.cons_append, List.nil_append, simple_strtoul, if_neg hc]
      exact key
  | cons d2 ds2 =>
    have h2 := (h d2 (by simp)).1
    have hx := isxdigit_toupper d2 h2
    have hc : ¬ (base = 16 ∧ d.toNat = 48 ∧ toupper d2 = 88) := fun hh => hx hh.2.2
    simp only [List.cons_append, simple_strtoul, if_neg hc]
    exact key

/-- A `%x` conversion on a nonempty run of hexadecimal digits. -/
theorem vsscanf_conv_hex (fmt : List Fmt) (d : Char) (ds rest : List Char) (acc : List Nat)
    (hr : stops_at 16 rest) (h : ∀ c ∈ d :: ds, isxdigit c = true) :
    vsscanf (Fmt.conv 16 :: fmt) (d :: ds ++ rest) acc
      = vsscanf fmt rest (acc ++ [digits_value 16 (d :: ds) % 4294967296]) := by
  have hd := h d (List.mem_cons_self d ds)
  have hsp := isxdigit_not_isspace d hd
  have hs := simple_strtoul_digits 16 d ds rest hr
    (fun c hc => ⟨h c hc, isxdigit_value_lt c (h c hc)⟩)
  have hdrop : List.dropWhile isspace (d :: (ds ++ rest)) = d :: (ds ++ rest) := by
    simp [List.dropWhile, hsp]
  have hcond : ¬ ((16 = 16 ∧ isxdigit d = false) ∨ (16 = 10 ∧ isdigit d = false)) := by
    simp [hd]
  simp only [List.cons_append] at hs ⊢
  simp only [vsscanf, hdrop, hs]
  rw [if_neg]
  simpa using hcond

/-- A `%u` conversion on a nonempty run of decimal digits. -/
theorem vsscanf_conv_dec (fmt : List Fmt) (d : Char) (ds rest : List Char) (acc : List Nat)
    (hr : stops_at 10 rest) (h : ∀ c ∈ d :: ds, isdigit c = true) :
    vsscanf (Fmt.conv 10 :: fmt) (d :: ds ++ rest) acc
      = vsscanf fmt rest (acc ++ [digits_value 10 (d :: ds) % 4294967296]) := by
  have hd := h d (List.mem_cons_self d ds)
  have hsp := isxdigit_not_isspace d (isdigit_isxdigit d hd).1
  have hs := simple_strtoul_digits 10 d ds rest hr (fun c hc => isdigit_isxdigit c (h c hc))
  have hdrop : List.dropWhile isspace (d :: (ds ++ rest)) = d :: (ds ++ rest) := by
    simp [List.dropWhile, hsp]
  have hcond : ¬ ((10 = 16 ∧ isxdigit d = false) ∨ (10 = 10 ∧ isdigit d = false)) := by
    simp [hd]
  simp only [List.cons_append] at hs ⊢
  simp only [vsscanf, hdrop, hs]
  rw [if_neg]
  simpa using hcond

theorem stops_at_nil (base : Nat) : stops_at base [] := by
  intro c r h
  cases h

theorem stops_at_blank (base : Nat) (r : List Char) : stops_at base (' ' :: r) := by
  intro c r2 h
  simp only [List.cons.injEq] at h
  rw [← h.1]
  exact ⟨fun hh => by simp [isxdigit] at hh, by decide⟩

theorem vsscanf_lit (c : Char) (fmt : List Fmt) (str : List Char) (acc : List Nat) :
    vsscanf (Fmt.lit c :: fmt) (c :: str) acc = vsscanf fmt str acc := by
  simp [vsscanf]

theorem vsscanf_lit_ne (l c : Char) (fmt : List Fmt) (str : List Char) (acc : List Nat)
    (h : l ≠ c) : vsscanf (Fmt.lit l :: fmt) (c :: str) acc = acc := by
  simp [vsscanf, h]

theorem vsscanf_fmt_nil_str (f : Fmt) (fmt : List Fmt) (acc : List Nat) :
    vsscanf (f :: fmt) [] acc = acc := by
  simp [vsscanf]

/-- One blank in front of a character that is not white space is skipped by
the white-space directive. -/
theorem vsscanf_space_blank (fmt : List Fmt) (c : Char) (str : List Char) (acc : List Nat)
    (h : isspace c = false) :
    vsscanf (Fmt.space :: fmt) (' ' :: c :: str) acc = vsscanf fmt (c :: str) acc := by
  have hb : isspace ' ' = true := by decide
  simp [vsscanf, List.dropWhile, hb, h]

/-- `sscanf(buffer, "0x%x 0x%x", &i, &v)` on `0x<hex> 0x<hex>` assigns both numbers. -/
theorem vsscanf_hex_hex (d e : Char) (ds es tail : List Char)
    (hd : ∀ c ∈ d :: ds, isxdigit c = true) (he : ∀ c ∈ e :: es, isxdigit c = true)
    (ht : stops_at 16 tail) :
    vsscanf fmt_hex_hex ('0' :: 'x' :: (d :: ds ++ ' ' :: '0' :: 'x' :: (e :: es ++ tail))) []
      = [digits_value 16 (d :: ds) % 4294967296, digits_value 16 (e :: es) % 4294967296] := by
  have h0 : isspace '0' = false := by decide
  unfold fmt_hex_hex
  rw [vsscanf_lit, vsscanf_lit, vsscanf_conv_hex _ d ds _ _ (stops_at_blank 16 _) hd,
    vsscanf_space_blank _ _ _ _ h0, vsscanf_lit, vsscanf_lit, vsscanf_conv_hex _ e es _ _ ht he]
  simp [vsscanf]

/-- `sscanf(buffer, "0x%x 0x%x", &i, &v)` on `0x<hex> <decimal>` assigns only
the first number. -/
theorem vsscanf_hex_hex_on_dec (d q : Char) (ds qs tail : List Char)
    (hd : ∀ c ∈ d :: ds, isxdigit c = true) (hq : ∀ c ∈ q :: qs, isdigit c = true)
    (ht : stops_at 10 tail) :
    vsscanf fmt_hex_hex ('0' :: 'x' :: (d :: ds ++ ' ' :: (q :: qs ++ tail))) []
      = [digits_value 16 (d :: ds) % 4294967296] := by
  have hqs : isspace q = false :=
    isxdigit_not_isspace q (isdigit_isxdigit q (hq q (List.mem_cons_self q qs))).1
  unfold fmt_hex_hex
  rw [vsscanf_lit, vsscanf_lit, vsscanf_conv_hex _ d ds _ _ (stops_at_blank 16 _) hd]
  simp only [List.cons_append]
  rw [vsscanf_space_blank _ _ _ _ hqs]
  by_cases h0 : '0' = q
  · subst h0
    rw [vsscanf_lit]
    cases hqt : qs ++ tail with
    | nil => rw [vsscanf_fmt_nil_str]; rfl
    | cons c r =>
      have hx : 'x' ≠ c := by
        intro hxc
        cases qs with
        | nil =>
          simp only [List.nil_append] at hqt
          have := (ht c r hqt).2
          rw [← hxc] at this
          exact this (by decide)
        | cons q2 qs2 =>
          simp only [List.cons_append, List.cons.injEq] at hqt
          have := hq q2 (by simp)
          rw [hqt.1, ← hxc] at this
          exact absurd this (by decide)
      rw [vsscanf_lit_ne _ _ _ _ _ hx]
      rfl
  · rw [vsscanf_lit_ne _ _ _ _ _ h0]
    rfl

/-- `sscanf(buffer, "0x%x %u", &i, &v)` on `0x<hex> <decimal>` assigns both numbers. -/
theorem vsscanf_hex_dec (d q : Char) (ds qs tail : List Char)
    (hd : ∀ c ∈ d :: ds, isxdigit c = true) (hq : ∀ c ∈ q :: qs, isdigit c = true)
    (ht : stops_at 10 tail) :
    vsscanf fmt_hex_dec ('0' :: 'x' :: (d :: ds ++ ' ' :: (q :: qs ++ tail))) []
      = [digits_value 16 (d :: ds) % 4294967296, digits_value 10 (q :: qs) % 4294967296] := by
  have hqs : isspace q = false :=
    isxdigit_not_isspace q (isdigit_isxdigit q (hq q (List.mem_cons_self q qs))).1
  unfold fmt_hex_dec
  rw [vsscanf_lit, vsscanf_lit, vsscanf_conv_hex _ d ds _ _ (stops_at_blank 16 _) hd]
  simp only [List.cons_append]
  rw [vsscanf_space_blank _ _ _ _ hqs]
  have := vsscanf_conv_dec [] q qs tail
    ([] ++ [digits_value 16 (d :: ds) % 4294967296]) ht hq
  simp only [List.cons_append] at this
  rw [this]
  simp [vsscanf]

/-- Without the `0x` prefix neither `sscanf` assigns anything. -/
theorem vsscanf_no_prefix (fmt : List Fmt) (buffer : List Char)
    (h : ¬ (['0', 'x'] <+: buffer)) :
    vsscanf (Fmt.lit '0' :: Fmt.lit 'x' :: fmt) buffer [] = [] := by
  cases buffer with
  | nil => rfl
  | cons a r =>
    by_cases ha : '0' = a
    · subst ha
      rw [vsscanf_lit]
      cases r with
      | nil => rfl
      | cons b r2 =>
        by_cases hb : 'x' = b
        · subst hb
          exact absurd (by simp) h
        · exact vsscanf_lit_ne _ _ _ _ _ hb
    · exact vsscanf_lit_ne _ _ _ _ _ ha

theorem u32_to_int_mod (x : Nat) : u32_to_int (x % 4294967296) = u32_to_int x := by
  simp [u32_to_int]

theorem u32_to_int_small (x : Nat) (h : x < 256) : u32_to_int x = (x : Int) := by
  have hm : x % 4294967296 = x := Nat.mod_eq_of_lt (by omega)
  have hlt : x < 2147483648 := by omega
  simp [u32_to_int, hm, hlt]

/-- `ecdump_write` on `0x<hex> 0x<hex>` stores the two parsed numbers. -/
theorem ecdump_write_hex_hex (M : Machine σ) (w : World σ) (d e : Char)
    (ds es tail : List Char)
    (hd : ∀ c ∈ d :: ds, isxdigit c = true) (he : ∀ c ∈ e :: es, isxdigit c = true)
    (ht : stops_at 16 tail) :
    ecdump_write M ('0' :: 'x' :: (d :: ds ++ ' ' :: '0' :: 'x' :: (e :: es ++ tail))) w
      = ecdump_store M (u32_to_int (digits_value 16 (d :: ds)))
          (u32_to_int (digits_value 16 (e :: es))) w := by
  simp only [ecdump_write, vsscanf_hex_hex d e ds es tail hd he ht, u32_to_int_mod]

/-- `ecdump_write` on `0x<hex> <decimal>` stores the two parsed numbers. -/
theorem ecdump_write_hex_dec (M : Machine σ) (w : World σ) (d q : Char)
    (ds qs tail : List Char)
    (hd : ∀ c ∈ d :: ds, isxdigit c = true) (hq : ∀ c ∈ q :: qs, isdigit c = true)
    (ht : stops_at 10 tail) :
    ecdump_write M ('0' :: 'x' :: (d :: ds ++ ' ' :: (q :: qs ++ tail))) w
      = ecdump_store M (u32_to_int (digits_value 16 (d :: ds)))
          (u32_to_int (digits_value 10 (q :: qs))) w := by
  simp only [ecdump_write, vsscanf_hex_hex_on_dec d q ds qs tail hd hq ht,
    vsscanf_hex_dec d q ds qs tail hd hq ht, u32_to_int_mod]

/-- Bytes in range are handed to exactly one `omnibook_ec_write`. -/
theorem ecdump_store_in_range (M : Machine σ) (w : World σ) (o v : Nat) (ho : o < 256)
    (hv : v < 256) :
    ecdump_store M (u32_to_int o) (u32_to_int v) w
      = (if (omnibook_ec_write M o v w).1 ≠ 0 then - EIO else 0,
         (omnibook_ec_write M o v w).2) := by
  rw [u32_to_int_small o ho, u32_to_int_small v hv]
  have hr : (0 : Int) ≤ (o : Int) ∧ (o : Int) < 256 ∧ (0 : Int) ≤ (v : Int) ∧ (v : Int) < 256 := by
    omega
  simp only [ecdump_store, if_pos hr, Int.toNat_ofNat]
  split_ifs <;> rfl

/-- What `ecdump_write` does on its two input forms, for every machine and
state, with `<hex>` any nonempty run
of hexadecimal digits and `<decimal>` any nonempty run of decimal digits
(followed by the end of the string or by a character that is no digit of the
base and no `x`): on `0x<hex o> 0x<hex v>` and on `0x<hex o> <decimal v>` with
`o` and `v` in 0..255, `ecdump_write` performs exactly the one
`omnibook_ec_write(o, v)` and returns 0 when it succeeds (`- EIO` when it
fails); a buffer that does not start with `0x` returns `-EINVAL` and leaves the
world untouched; and an input of either form whose offset or value, read as
the 32-bit `int` that `sscanf` stores (the numeral modulo 2^32 in two's
complement), lies outside 0..255 returns `-EINVAL` and leaves the world
untouched. -/
theorem ecdump_write_parse (M : Machine σ) (w : World σ) :
    (∀ (d e : Char) (ds es tail : List Char) (o v : Nat),
      (∀ c ∈ d :: ds, isxdigit c = true) → (∀ c ∈ e :: es, isxdigit c = true) →
      stops_at 16 tail → digits_value 16 (d :: ds) = o → digits_value 16 (e :: es) = v →
      o < 256 → v < 256 →
      ecdump_write M ('0' :: 'x' :: (d :: ds ++ ' ' :: '0' :: 'x' :: (e :: es ++ tail))) w
        = (if (omnibook_ec_write M o v w).1 ≠ 0 then - EIO else 0,
           (omnibook_ec_write M o v w).2)) ∧
    (∀ (d q : Char) (ds qs tail : List Char) (o v : Nat),
      (∀ c ∈ d :: ds, isxdigit c = true) → (∀ c ∈ q :: qs, isdigit c = true) →
      stops_at 10 tail → digits_value 16 (d :: ds) = o → digits_value 10 (q :: qs) = v →
      o < 256 → v < 256 →
      ecdump_write M ('0' :: 'x' :: (d :: ds ++ ' ' :: (q :: qs ++ tail))) w
        = (if (omnibook_ec_write M o v w).1 ≠ 0 then - EIO else 0,
           (omnibook_ec_write M o v w).2)) ∧
    (∀ buffer : List Char, ¬ (['0', 'x'] <+: buffer) →
      ecdump_write M buffer w = (-EINVAL, w)) ∧
    (∀ (d e : Char) (ds es tail : List Char),
      (∀ c ∈ d :: ds, isxdigit c = true) → (∀ c ∈ e :: es, isxdigit c = true) →
      stops_at 16 tail →
      ¬ (0 ≤ u32_to_int (digits_value 16 (d :: ds)) ∧
          u32_to_int (digits_value 16 (d :: ds)) < 256 ∧
          0 ≤ u32_to_int (digits_value 16 (e :: es)) ∧
          u32_to_int (digits_value 16 (e :: es)) < 256) →
      ecdump_write M ('0' :: 'x' :: (d :: ds ++ ' ' :: '0' :: 'x' :: (e :: es ++ tail))) w
        = (-EINVAL, w)) ∧
    (∀ (d q : Char) (ds qs tail : List Char),
      (∀ c ∈ d :: ds, isxdigit c = true) → (∀ c ∈ q :: qs, isdigit c = true) →
      stops_at 10 tail →
      ¬ (0 ≤ u32_to_int (digits_value 16 (d :: ds)) ∧
          u32_to_int (digits_value 16 (d :: ds)) < 256 ∧
          0 ≤ u32_to_int (digits_value 10 (q :: qs)) ∧
          u32_to_int (digits_value 10 (q :: qs)) < 256) →
      ecdump_write M ('0' :: 'x' :: (d :: ds ++ ' ' :: (q :: qs ++ tail))) w
        = (-EINVAL, w)) := by
  refine ⟨?_, ?_, ?_, ?_, ?_⟩
  · intro d e ds es tail o v hd he ht ho hv hlo hlv
    rw [ecdump_write_hex_hex M w d e ds es tail hd he ht, ho, hv]
    exact ecdump_store_in_range M w o v hlo hlv
  · intro d q ds qs tail o v hd hq ht ho hv hlo hlv
    rw [ecdump_write_hex_dec M w d q ds qs tail hd hq ht, ho, hv]
    exact ecdump_store_in_range M w o v hlo hlv
  · intro buffer h
    have h1 : vsscanf fmt_hex_hex buffer [] = [] := vsscanf_no_prefix _ buffer h
    have h2 : vsscanf fmt_hex_dec buffer [] = [] := vsscanf_no_prefix _ buffer h
    simp only [ecdump_write, h1, h2]
  · intro d e ds es tail hd he ht hr
    rw [ecdump_write_hex_hex M w d e ds es tail hd he ht]
    simp only [ecdump_store, if_neg hr]
  · intro d q ds qs tail hd hq ht hr
    rw [ecdump_write_hex_dec M w d q ds qs tail hd hq ht]
    simp only [ecdump_store, if_neg hr]

/-- Instances of `ecdump_write_parse` on the mock EC: `0x1a 0x05`, `0x1a 5`,
`300 5`, `0x100 0x05` and `0x1a 256`. -/
theorem ecdump_write_parse_witness :
    ecdump_write mockMachine ('0' :: 'x' :: ('1' :: ['a'] ++ ' ' :: '0' :: 'x' :: ('0' :: ['5'] ++ [])))
        mockZero
      = (if (omnibook_ec_write mockMachine 0x1a 5 mockZero).1 ≠ 0 then - EIO else 0,
         (omnibook_ec_write mockMachine 0x1a 5 mockZero).2) ∧
    ecdump_write mockMachine ('0' :: 'x' :: ('1' :: ['a'] ++ ' ' :: ('5' :: [] ++ []))) mockZero
      = (if (omnibook_ec_write mockMachine 0x1a 5 mockZero).1 ≠ 0 then - EIO else 0,
         (omnibook_ec_write mockMachine 0x1a 5 mockZero).2) ∧
    ecdump_write mockMachine ['3', '0', '0', ' ', '5'] mockZero = (-EINVAL, mockZero) ∧
    ecdump_write mockMachine
        ('0' :: 'x' :: ('1' :: ['0', '0'] ++ ' ' :: '0' :: 'x' :: ('0' :: ['5'] ++ []))) mockZero
      = (-EINVAL, mockZero) ∧
    ecdump_write mockMachine ('0' :: 'x' :: ('1' :: ['a'] ++ ' ' :: ('2' :: ['5', '6'] ++ [])))
        mockZero
      = (-EINVAL, mockZero) :=
  ⟨(ecdump_write_parse mockMachine mockZero).1 '1' '0' ['a'] ['5'] [] 0x1a 5 (by decide)
      (by decide) (stops_at_nil 16) (by decide) (by decide) (by decide) (by decide),
   (ecdump_write_parse mockMachine mockZero).2.1 '1' '5' ['a'] [] [] 0x1a 5 (by decide)
      (by decide) (stops_at_nil 10) (by decide) (by decide) (by decide) (by decide),
   (ecdump_write_parse mockMachine mockZero).2.2.1 ['3', '0', '0', ' ', '5'] (by decide),
   (ecdump_write_parse mockMachine mockZero).2.2.2.1 '1' '0' ['0', '0'] ['5'] [] (by decide)
      (by decide) (stops_at_nil 16) (by decide),
   (ecdump_write_parse mockMachine mockZero).2.2.2.2 '1' '2' ['a'] ['5', '6'] [] (by decide)
      (by decide) (stops_at_nil 10) (by decide)⟩

/-- C10 (defect in the code): `ecdump_write` is to reject an offset outside
0..255 with `-EINVAL` and no EC write, which is what its check
`i >= 0 && i < 256` attempts.  The check is made on the `int` that `sscanf`
stored, and `sscanf` stores the numeral modulo 2^32: the offset of
`0x100000000 5` is 4294967296, outside 0..255, yet the number stored in `i`
is 0, the check passes, register 0 of the mock EC is written with 5 (three
port writes) and the function returns 0. -/
theorem ecdump_write_wraps_large_offset :
    ¬ (digits_value 16 "100000000".toList < 256) ∧
    (ecdump_write mockMachine "0x100000000 5".toList mockZero).1 = 0 ∧
    (ecdump_write mockMachine "0x100000000 5".toList mockZero).2.m.regs ⟨0, by decide⟩ = 5 ∧
    portWrites (ecdump_write mockMachine "0x100000000 5".toList mockZero).2.trace = 3 := by
  refine ⟨by decide, ?_, ?_, ?_⟩ <;> rfl

/-! ## EC handshake: the wait loops -/

theorem wait_ibf_loop_gen (M : Machine σ) (sc event : Nat) :
    ∀ (t : Nat) (w : World σ),
      wait_ibf_loop M sc event t w
        = wait_loop_gen M sc (fun v => decide (v &&& event ≠ 0)) t w := by
  intro t
  induction t with
  | zero =>
    intro w
    simp [wait_ibf_loop, wait_loop_gen]
  | succ t ih =>
    intro w
    simp [wait_ibf_loop, wait_loop_gen, ih]

theorem wait_obf_loop_gen (M : Machine σ) (sc event : Nat) :
    ∀ (t : Nat) (w : World σ),
      wait_obf_loop M sc event t w
        = wait_loop_gen M sc (fun v => decide (v &&& event = 0)) t w := by
  intro t
  induction t with
  | zero =>
    intro w
    simp [wait_obf_loop, wait_loop_gen]
  | succ t ih =>
    intro w
    simp [wait_obf_loop, wait_loop_gen, ih]

theorem poll_value_succ (M : Machine σ) (sc k : Nat) (w : World σ) :
    poll_value M sc (k + 1) w = poll_value M sc k (mdelay M 1 (inb M sc w).2) := rfl

theorem poll_world_succ (M : Machine σ) (sc k : Nat) (w : World σ) :
    poll_world M sc (k + 1) w = poll_world M sc k (mdelay M 1 (inb M sc w).2) := rfl

/-- If read number `j` is the first that is not busy and `j` is at most the
initial counter, the loop ends right after that read with the counter at its
initial value minus `j`. -/
theorem wait_loop_gen_first (M : Machine σ) (sc : Nat) (busy : Nat → Bool) :
    ∀ (t j : Nat) (w : World σ), j ≤ t →
      (∀ i, i < j → busy (poll_value M sc i w) = true) →
      busy (poll_value M sc j w) = false →
      wait_loop_gen M sc busy t w
        = (((t - j : Nat) : Int), (inb M sc (poll_world M sc j w)).2) := by
  intro t
  induction t with
  | zero =>
    intro j w hj _ hnb
    have hj0 : j = 0 := by omega
    subst hj0
    have : busy (inb M sc w).1 = false := hnb
    simp [wait_loop_gen, this, poll_world]
  | succ t ih =>
    intro j w hj hb hnb
    cases j with
    | zero =>
      have : busy (inb M sc w).1 = false := hnb
      simp [wait_loop_gen, this, poll_world]
    | succ j =>
      have h0 : busy (inb M sc w).1 = true := hb 0 (by omega)
      have := ih j (mdelay M 1 (inb M sc w).2) (by omega)
        (fun i hi => by
          have := hb (i + 1) (by omega)
          rwa [poll_value_succ] at this)
        (by rwa [poll_value_succ] at hnb)
      simp only [wait_loop_gen, h0, if_true, this, poll_world_succ]
      congr 2
      omega

/-- If every read up to the initial counter is busy, the loop ends after read
number `t` with the counter at `-1`. -/
theorem wait_loop_gen_never (M : Machine σ) (sc : Nat) (busy : Nat → Bool) :
    ∀ (t : Nat) (w : World σ),
      (∀ i, i ≤ t → busy (poll_value M sc i w) = true) →
      wait_loop_gen M sc busy t w = (-1, (inb M sc (poll_world M sc t w)).2) := by
  intro t
  induction t with
  | zero =>
    intro w hb
    have : busy (inb M sc w).1 = true := hb 0 (le_refl 0)
    simp [wait_loop_gen, this, poll_world]
  | succ t ih =>
    intro w hb
    have h0 : busy (inb M sc w).1 = true := hb 0 (by omega)
    have := ih (mdelay M 1 (inb M sc w).2)
      (fun i hi => by
        have := hb (i + 1) (by omega)
        rwa [poll_value_succ] at this)
    simp only [wait_loop_gen, h0, if_true, this, poll_world_succ]

theorem delays_append (a b : List Event) : delays (a ++ b) = delays a + delays b := by
  simp [delays, List.countP_append]

theorem outbEvents_append (a b : List Event) :
    outbEvents (a ++ b) = outbEvents a ++ outbEvents b := by
  simp [outbEvents, List.filter_append]

/-- In front of read number `k` the loop has read the status port `k` times,
delayed `k` times and written no port. -/
theorem poll_world_counts (M : Machine σ) (sc : Nat) :
    ∀ (k : Nat) (w : World σ),
      statusPolls sc (poll_world M sc k w).trace = statusPolls sc w.trace + k ∧
      delays (poll_world M sc k w).trace = delays w.trace + k ∧
      outbEvents (poll_world M sc k w).trace = outbEvents w.trace := by
  intro k
  induction k with
  | zero =>
    intro w
    exact ⟨rfl, rfl, rfl⟩
  | succ k ih =>
    intro w
    obtain ⟨h1, h2, h3⟩ := ih (mdelay M 1 (inb M sc w).2)
    rw [poll_world_succ, h1, h2, h3]
    simp only [mdelay, inb, statusPolls_append, delays_append, outbEvents_append]
    simp [statusPolls, delays, outbEvents]
    omega

/-- After read number `k` that ends the loop: `k + 1` status reads, `k` delays,
no port write. -/
theorem poll_end_counts (M : Machine σ) (sc k : Nat) (w : World σ) :
    statusPolls sc (inb M sc (poll_world M sc k w)).2.trace = statusPolls sc w.trace + (k + 1) ∧
    delays (inb M sc (poll_world M sc k w)).2.trace = delays w.trace + k ∧
    outbEvents (inb M sc (poll_world M sc k w)).2.trace = outbEvents w.trace := by
  obtain ⟨h1, h2, h3⟩ := poll_world_counts M sc k w
  simp only [inb, statusPolls_append, delays_append, outbEvents_append, h1, h2, h3]
  simp [statusPolls, delays, outbEvents]
  omega

/-- Outcome of a wait loop started with counter `t`: it ends after some read
number `j ≤ t`; the counter is positive at the end exactly when one of the
reads number `0 .. t - 1` was not busy. -/
theorem wait_loop_gen_outcome (M : Machine σ) (sc : Nat) (busy : Nat → Bool) (t : Nat)
    (w : World σ) :
    ∃ j, j ≤ t ∧
      (wait_loop_gen M sc busy t w).2 = (inb M sc (poll_world M sc j w)).2 ∧
      ((0 < (wait_loop_gen M sc busy t w).1) ↔
        ∃ i, i < t ∧ busy (poll_value M sc i w) = false) ∧
      ((∀ i, i < t → busy (poll_value M sc i w) = true) → j = t) := by
  by_cases h : ∃ i, i ≤ t ∧ busy (poll_value M sc i w) = false
  · have hs := Nat.find_spec h
    have hm := fun i (hi : i < Nat.find h) => Nat.find_min h hi
    have hb : ∀ i, i < Nat.find h → busy (poll_value M sc i w) = true := by
      intro i hi
      have := hm i hi
      simp only [not_and, Bool.not_eq_false] at this
      exact this (by omega)
    have hr := wait_loop_gen_first M sc busy t (Nat.find h) w hs.1 hb hs.2
    refine ⟨Nat.find h, hs.1, by rw [hr], ?_, ?_⟩
    · rw [hr]
      simp only [Nat.cast_pos]
      constructor
      · intro hpos
        exact ⟨Nat.find h, by omega, hs.2⟩
      · rintro ⟨i, hi, hib⟩
        have : Nat.find h ≤ i := Nat.find_min' h ⟨by omega, hib⟩
        omega
    · intro hall
      by_contra hne
      have hlt : Nat.find h < t := by omega
      have := hall _ hlt
      rw [hs.2] at this
      cases this
  · have hall : ∀ i, i ≤ t → busy (poll_value M sc i w) = true := by
      intro i hi
      by_contra hc
      exact h ⟨i, hi, by simpa using hc⟩
    have hr := wait_loop_gen_never M sc busy t w hall
    refine ⟨t, le_refl t, by rw [hr], ?_, fun _ => rfl⟩
    rw [hr]
    constructor
    · intro hpos
      simp at hpos
    · rintro ⟨i, hi, hib⟩
      have := hall i (by omega)
      rw [hib] at this
      cases this

/-- Boundary behaviour of a wait loop started with the counter at
`OMNIBOOK_TIMEOUT`, followed by the test `timeout > 0`. -/
theorem wait_loop_gen_boundary (M : Machine σ) (sc : Nat) (busy : Nat → Bool) (w : World σ) :
    statusPolls sc (wait_loop_gen M sc busy OMNIBOOK_TIMEOUT w).2.trace
      ≤ statusPolls sc w.trace + 251 ∧
    delays (wait_loop_gen M sc busy OMNIBOOK_TIMEOUT w).2.trace ≤ delays w.trace + 250 ∧
    outbEvents (wait_loop_gen M sc busy OMNIBOOK_TIMEOUT w).2.trace = outbEvents w.trace ∧
    ((0 < (wait_loop_gen M sc busy OMNIBOOK_TIMEOUT w).1) ↔
      ∃ i, i < 250 ∧ busy (poll_value M sc i w) = false) ∧
    ((∀ i, i < 250 → busy (poll_value M sc i w) = true) →
      statusPolls sc (wait_loop_gen M sc busy OMNIBOOK_TIMEOUT w).2.trace
        = statusPolls sc w.trace + 251 ∧
      delays (wait_loop_gen M sc busy OMNIBOOK_TIMEOUT w).2.trace = delays w.trace + 250) := by
  obtain ⟨j, hj, hw, hpos, hall⟩ := wait_loop_gen_outcome M sc busy OMNIBOOK_TIMEOUT w
  have hT : OMNIBOOK_TIMEOUT = 250 := rfl
  rw [hT] at hj hpos hall
  obtain ⟨c1, c2, c3⟩ := poll_end_counts M sc j w
  rw [hw, c1, c2, c3]
  refine ⟨by omega, by omega, rfl, hpos, ?_⟩
  intro hb
  have := hall hb
  subst this
  exact ⟨rfl, rfl⟩

/-- C19: exact timeout boundary of the wait loops.  For `event` equal to OBF or
IBF, `omnibook_ec_wait` (status port 0x66) and `omnibook_kbc_wait` (status port
0x64) read the status port at most 251 times and call `mdelay(1)` at most 250
times; they return 0 or `-ETIME`; they return 0 exactly when one of the first
250 status reads (numbers 0 to 249) shows the awaited condition; they return
`-ETIME` when no read ever shows it, and also when the 251st read (number 250)
is the first to show it, in which case exactly 251 reads were made. -/
theorem wait_timeout_boundary (M : Machine σ) (event : Nat) (w : World σ)
    (hev : event = OMNIBOOK_EC_STAT_OBF ∨ event = OMNIBOOK_EC_STAT_IBF) :
    (statusPolls OMNIBOOK_EC_SC (omnibook_ec_wait M event w).2.trace
        ≤ statusPolls OMNIBOOK_EC_SC w.trace + 251 ∧
      delays (omnibook_ec_wait M event w).2.trace ≤ delays w.trace + 250 ∧
      ((omnibook_ec_wait M event w).1 = 0 ∨ (omnibook_ec_wait M event w).1 = -ETIME) ∧
      ((omnibook_ec_wait M event w).1 = 0 ↔
        ∃ j, j < 250 ∧ awaited M OMNIBOOK_EC_SC event j w = true) ∧
      ((∀ j, awaited M OMNIBOOK_EC_SC event j w = false) →
        (omnibook_ec_wait M event w).1 = -ETIME) ∧
      ((∀ j, j < 250 → awaited M OMNIBOOK_EC_SC event j w = false) →
        awaited M OMNIBOOK_EC_SC event 250 w = true →
        (omnibook_ec_wait M event w).1 = -ETIME ∧
        statusPolls OMNIBOOK_EC_SC (omnibook_ec_wait M event w).2.trace
          = statusPolls OMNIBOOK_EC_SC w.trace + 251)) ∧
    (statusPolls OMNIBOOK_KBC_SC (omnibook_kbc_wait M event w).2.trace
        ≤ statusPolls OMNIBOOK_KBC_SC w.trace + 251 ∧
      delays (omnibook_kbc_wait M event w).2.trace ≤ delays w.trace + 250 ∧
      ((omnibook_kbc_wait M event w).1 = 0 ∨ (omnibook_kbc_wait M event w).1 = -ETIME) ∧
      ((omnibook_kbc_wait M event w).1 = 0 ↔
        ∃ j, j < 250 ∧ awaited M OMNIBOOK_KBC_SC event j w = true) ∧
      ((∀ j, awaited M OMNIBOOK_KBC_SC event j w = false) →
        (omnibook_kbc_wait M event w).1 = -ETIME) ∧
      ((∀ j, j < 250 → awaited M OMNIBOOK_KBC_SC event j w = false) →
        awaited M OMNIBOOK_KBC_SC event 250 w = true →
        (omnibook_kbc_wait M event w).1 = -ETIME ∧
        statusPolls OMNIBOOK_KBC_SC (omnibook_kbc_wait M event w).2.trace
          = statusPolls OMNIBOOK_KBC_SC w.trace + 251)) := by
  have hE : (-ETIME : Int) ≠ 0 := by decide
  have key : ∀ (sc : Nat) (busy : Nat → Bool) (r : Int × World σ),
      (∀ j, awaited M sc event j w = !busy (poll_value M sc j w)) →
      r = (if (wait_loop_gen M sc busy OMNIBOOK_TIMEOUT w).1 > 0
            then ((0 : Int), (wait_loop_gen M sc busy OMNIBOOK_TIMEOUT w).2)
            else (-ETIME, (wait_loop_gen M sc busy OMNIBOOK_TIMEOUT w).2)) →
      statusPolls sc r.2.trace ≤ statusPolls sc w.trace + 251 ∧
      delays r.2.trace ≤ delays w.trace + 250 ∧
      (r.1 = 0 ∨ r.1 = -ETIME) ∧
      (r.1 = 0 ↔ ∃ j, j < 250 ∧ awaited M sc event j w = true) ∧
      ((∀ j, awaited M sc event j w = false) → r.1 = -ETIME) ∧
      ((∀ j, j < 250 → awaited M sc event j w = false) →
        awaited M sc event 250 w = true →
        r.1 = -ETIME ∧ statusPolls sc r.2.trace = statusPolls sc w.trace + 251) := by
    intro sc busy r haw hr
    obtain ⟨b1, b2, _, b4, b5⟩ := wait_loop_gen_boundary M sc busy w
    have hr2 : r.2 = (wait_loop_gen M sc busy OMNIBOOK_TIMEOUT w).2 := by
      rw [hr]; split <;> rfl
    have hiff : (∃ j, j < 250 ∧ awaited M sc event j w = true) ↔
        ∃ i, i < 250 ∧ busy (poll_value M sc i w) = false := by
      constructor
      · rintro ⟨i, hi, h⟩
        refine ⟨i, hi, ?_⟩
        rw [haw] at h
        simpa using h
      · rintro ⟨i, hi, h⟩
        refine ⟨i, hi, ?_⟩
        rw [haw, h]
        rfl
    have hr1 : r.1 = 0 ↔ 0 < (wait_loop_gen M sc busy OMNIBOOK_TIMEOUT w).1 := by
      rw [hr]
      by_cases hp : (wait_loop_gen M sc busy OMNIBOOK_TIMEOUT w).1 > 0
      · rw [if_pos hp]
        exact ⟨fun _ => hp, fun _ => rfl⟩
      · rw [if_neg hp]
        exact ⟨fun h => absurd h hE, fun h => absurd h hp⟩
    have hnot : (¬ ∃ j, j < 250 ∧ awaited M sc event j w = true) → r.1 = -ETIME := by
      intro hn
      rw [hiff, ← b4] at hn
      rw [hr, if_neg hn]
    refine ⟨by rw [hr2]; exact b1, by rw [hr2]; exact b2, ?_, ?_, ?_, ?_⟩
    · rw [hr]
      split
      · exact Or.inl rfl
      · exact Or.inr rfl
    · rw [hr1, b4, hiff]
    · intro hall
      apply hnot
      rintro ⟨j, _, hj⟩
      rw [hall j] at hj
      cases hj
    · intro hall _
      refine ⟨?_, ?_⟩
      · apply hnot
        rintro ⟨j, hj, hjt⟩
        rw [hall j hj] at hjt
        cases hjt
      · rw [hr2]
        refine (b5 ?_).1
        intro i hi
        have := hall i hi
        rw [haw] at this
        simpa using this
  rcases hev with h | h
  · subst h
    refine ⟨key OMNIBOOK_EC_SC (fun v => decide (v &&& OMNIBOOK_EC_STAT_OBF = 0)) _ ?_ ?_,
      key OMNIBOOK_KBC_SC (fun v => decide (v &&& OMNIBOOK_EC_STAT_OBF = 0)) _ ?_ ?_⟩
    · intro j
      simp [awaited]
    · simp only [omnibook_ec_wait, if_true, wait_obf_loop_gen]
    · intro j
      simp [awaited]
    · have : OMNIBOOK_EC_STAT_OBF = OMNIBOOK_KBC_STAT_OBF := rfl
      simp only [omnibook_kbc_wait, this, if_true, wait_obf_loop_gen]
  · subst h
    have hne : ¬ (OMNIBOOK_EC_STAT_IBF = OMNIBOOK_EC_STAT_OBF) := by decide
    refine ⟨key OMNIBOOK_EC_SC (fun v => decide (v &&& OMNIBOOK_EC_STAT_IBF ≠ 0)) _ ?_ ?_,
      key OMNIBOOK_KBC_SC (fun v => decide (v &&& OMNIBOOK_EC_STAT_IBF ≠ 0)) _ ?_ ?_⟩
    · intro j
      simp [awaited, hne]
    · simp only [omnibook_ec_wait, if_neg hne, if_true, wait_ibf_loop_gen]
    · intro j
      simp [awaited, hne]
    · have hne2 : ¬ (OMNIBOOK_EC_STAT_IBF = OMNIBOOK_KBC_STAT_OBF) := by decide
      have : OMNIBOOK_EC_STAT_IBF = OMNIBOOK_KBC_STAT_IBF := rfl
      simp only [omnibook_kbc_wait, if_neg hne2, ← this, if_true, wait_ibf_loop_gen]

/-- On `countdownMachine` the state in front of status read number `j` is the
initial state minus `j`. -/
theorem countdown_poll_world (sc : Nat) :
    ∀ (j n : Nat) (tr : List Event),
      (poll_world countdownMachine sc j ⟨n, tr⟩).m = n - j := by
  intro j
  induction j with
  | zero =>
    intro n tr
    rfl
  | succ j ih =>
    intro n tr
    rw [poll_world_succ]
    have h := ih (n - 1) ((inb countdownMachine sc ⟨n, tr⟩).2.trace ++ [Event.mdelay 1])
    have e : mdelay countdownMachine 1 (inb countdownMachine sc ⟨n, tr⟩).2
        = ⟨n - 1, (inb countdownMachine sc ⟨n, tr⟩).2.trace ++ [Event.mdelay 1]⟩ := rfl
    rw [e, h]
    omega

/-- On `countdownMachine` started in state `n`, a wait for IBF sees its
condition on status read number `j` exactly when `n ≤ j`. -/
theorem countdown_awaited (sc j n : Nat) (tr : List Event) :
    awaited countdownMachine sc OMNIBOOK_EC_STAT_IBF j ⟨n, tr⟩ = decide (n ≤ j) := by
  have hne : ¬ (OMNIBOOK_EC_STAT_IBF = OMNIBOOK_EC_STAT_OBF) := by decide
  have hv : poll_value countdownMachine sc j ⟨n, tr⟩
      = (if (poll_world countdownMachine sc j ⟨n, tr⟩).m = 0 then 0x00 else 0x02) % 256 := rfl
  unfold awaited
  rw [if_neg hne, hv, countdown_poll_world]
  by_cases h : n ≤ j
  · have h0 : n - j = 0 := by omega
    rw [if_pos h0]
    simp [h]
  · have h0 : ¬ (n - j = 0) := by omega
    rw [if_neg h0]
    simp only [h, decide_False]
    decide

/-- On `stuckMachine` a wait for IBF never sees its condition. -/
theorem stuck_awaited (sc j : Nat) (w : World Unit) :
    awaited stuckMachine sc OMNIBOOK_EC_STAT_IBF j w = false := by
  have hne : ¬ (OMNIBOOK_EC_STAT_IBF = OMNIBOOK_EC_STAT_OBF) := by decide
  have hv : poll_value stuckMachine sc j w = 0x02 % 256 := rfl
  unfold awaited
  rw [if_neg hne, hv]
  decide

/-- Witness for C19: a wait for IBF on the machine whose status ports always
read 0x02 (the condition is never seen); on `countdownMachine` started at 250
the condition is first seen on the 251st read and the wait times out after
251 reads; started at 249 it is seen on the 250th read and the wait
succeeds. -/
theorem wait_timeout_boundary_witness :
    (OMNIBOOK_EC_STAT_IBF = OMNIBOOK_EC_STAT_OBF ∨
      OMNIBOOK_EC_STAT_IBF = OMNIBOOK_EC_STAT_IBF) ∧
    ((statusPolls OMNIBOOK_EC_SC (omnibook_ec_wait stuckMachine OMNIBOOK_EC_STAT_IBF ⟨(), []⟩).2.trace
        ≤ statusPolls OMNIBOOK_EC_SC [] + 251 ∧
      delays (omnibook_ec_wait stuckMachine OMNIBOOK_EC_STAT_IBF ⟨(), []⟩).2.trace ≤ delays [] + 250 ∧
      ((omnibook_ec_wait stuckMachine OMNIBOOK_EC_STAT_IBF ⟨(), []⟩).1 = 0 ∨
        (omnibook_ec_wait stuckMachine OMNIBOOK_EC_STAT_IBF ⟨(), []⟩).1 = -ETIME) ∧
      ((omnibook_ec_wait stuckMachine OMNIBOOK_EC_STAT_IBF ⟨(), []⟩).1 = 0 ↔
        ∃ j, j < 250 ∧ awaited stuckMachine OMNIBOOK_EC_SC OMNIBOOK_EC_STAT_IBF j ⟨(), []⟩ = true) ∧
      ((∀ j, awaited stuckMachine OMNIBOOK_EC_SC OMNIBOOK_EC_STAT_IBF j ⟨(), []⟩ = false) →
        (omnibook_ec_wait stuckMachine OMNIBOOK_EC_STAT_IBF ⟨(), []⟩).1 = -ETIME) ∧
      ((∀ j, j < 250 → awaited stuckMachine OMNIBOOK_EC_SC OMNIBOOK_EC_STAT_IBF j ⟨(), []⟩ = false) →
        awaited stuckMachine OMNIBOOK_EC_SC OMNIBOOK_EC_STAT_IBF 250 ⟨(), []⟩ = true →
        (omnibook_ec_wait stuckMachine OMNIBOOK_EC_STAT_IBF ⟨(), []⟩).1 = -ETIME ∧
        statusPolls OMNIBOOK_EC_SC (omnibook_ec_wait stuckMachine OMNIBOOK_EC_STAT_IBF ⟨(), []⟩).2.trace
          = statusPolls OMNIBOOK_EC_SC [] + 251)) ∧
    (statusPolls OMNIBOOK_KBC_SC (omnibook_kbc_wait stuckMachine OMNIBOOK_EC_STAT_IBF ⟨(), []⟩).2.trace
        ≤ statusPolls OMNIBOOK_KBC_SC [] + 251 ∧
      delays (omnibook_kbc_wait stuckMachine OMNIBOOK_EC_STAT_IBF ⟨(), []⟩).2.trace ≤ delays [] + 250 ∧
      ((omnibook_kbc_wait stuckMachine OMNIBOOK_EC_STAT_IBF ⟨(), []⟩).1 = 0 ∨
        (omnibook_kbc_wait stuckMachine OMNIBOOK_EC_STAT_IBF ⟨(), []⟩).1 = -ETIME) ∧
      ((omnibook_kbc_wait stuckMachine OMNIBOOK_EC_STAT_IBF ⟨(), []⟩).1 = 0 ↔
        ∃ j, j < 250 ∧ awaited stuckMachine OMNIBOOK_KBC_SC OMNIBOOK_EC_STAT_IBF j ⟨(), []⟩ = true) ∧
      ((∀ j, awaited stuckMachine OMNIBOOK_KBC_SC OMNIBOOK_EC_STAT_IBF j ⟨(), []⟩ = false) →
        (omnibook_kbc_wait stuckMachine OMNIBOOK_EC_STAT_IBF ⟨(), []⟩).1 = -ETIME) ∧
      ((∀ j, j < 250 → awaited stuckMachine OMNIBOOK_KBC_SC OMNIBOOK_EC_STAT_IBF j ⟨(), []⟩ = false) →
        awaited stuckMachine OMNIBOOK_KBC_SC OMNIBOOK_EC_STAT_IBF 250 ⟨(), []⟩ = true →
        (omnibook_kbc_wait stuckMachine OMNIBOOK_EC_STAT_IBF ⟨(), []⟩).1 = -ETIME ∧
        statusPolls OMNIBOOK_KBC_SC (omnibook_kbc_wait stuckMachine OMNIBOOK_EC_STAT_IBF ⟨(), []⟩).2.trace
          = statusPolls OMNIBOOK_KBC_SC [] + 251))) ∧
    ((omnibook_ec_wait countdownMachine OMNIBOOK_EC_STAT_IBF ⟨250, []⟩).1 = -ETIME ∧
      statusPolls OMNIBOOK_EC_SC
        (omnibook_ec_wait countdownMachine OMNIBOOK_EC_STAT_IBF ⟨250, []⟩).2.trace
        = statusPolls OMNIBOOK_EC_SC [] + 251) ∧
    (omnibook_ec_wait countdownMachine OMNIBOOK_EC_STAT_IBF ⟨249, []⟩).1 = 0 ∧
    (omnibook_ec_wait stuckMachine OMNIBOOK_EC_STAT_IBF ⟨(), []⟩).1 = -ETIME :=
  ⟨Or.inr rfl, wait_timeout_boundary stuckMachine OMNIBOOK_EC_STAT_IBF ⟨(), []⟩ (Or.inr rfl),
    (wait_timeout_boundary countdownMachine OMNIBOOK_EC_STAT_IBF ⟨250, []⟩ (Or.inr rfl)).1.2.2.2.2.2
      (fun j hj => by rw [countdown_awaited]; exact decide_eq_false (by omega))
      (by rw [countdown_awaited]; rfl),
    (wait_timeout_boundary countdownMachine OMNIBOOK_EC_STAT_IBF ⟨249, []⟩ (Or.inr rfl)).1.2.2.2.1.mpr
      ⟨249, by decide, by rw [countdown_awaited]; rfl⟩,
    (wait_timeout_boundary stuckMachine OMNIBOOK_EC_STAT_IBF ⟨(), []⟩ (Or.inr rfl)).1.2.2.2.2.1
      (fun j => stuck_awaited _ j _)⟩

/-! ## EC handshake: order of the port writes -/

/-- A wait writes no port. -/
theorem ec_wait_outbEvents (M : Machine σ) (event : Nat) (w : World σ) :
    outbEvents (omnibook_ec_wait M event w).2.trace = outbEvents w.trace := by
  unfold omnibook_ec_wait
  by_cases h1 : event = OMNIBOOK_EC_STAT_OBF
  · rw [if_pos h1, wait_obf_loop_gen]
    have := (wait_loop_gen_boundary M OMNIBOOK_EC_SC (fun v => decide (v &&& event = 0)) w).2.2.1
    dsimp only
    split <;> exact this
  · rw [if_neg h1]
    by_cases h2 : event = OMNIBOOK_EC_STAT_IBF
    · rw [if_pos h2, wait_ibf_loop_gen]
      have := (wait_loop_gen_boundary M OMNIBOOK_EC_SC (fun v => decide (v &&& event ≠ 0)) w).2.2.1
      dsimp only
      split <;> exact this
    · rw [if_neg h2]

/-- A wait for OBF or IBF returns 0 or `-ETIME`. -/
theorem ec_wait_ret (M : Machine σ) (event : Nat) (w : World σ)
    (hev : event = OMNIBOOK_EC_STAT_OBF ∨ event = OMNIBOOK_EC_STAT_IBF) :
    (omnibook_ec_wait M event w).1 = 0 ∨ (omnibook_ec_wait M event w).1 = -ETIME := by
  unfold omnibook_ec_wait
  rcases hev with h | h
  · rw [if_pos h]
    dsimp only
    split
    · exact Or.inl rfl
    · exact Or.inr rfl
  · have hne : ¬ (event = OMNIBOOK_EC_STAT_OBF) := by rw [h]; decide
    rw [if_neg hne, if_pos h]
    dsimp only
    split
    · exact Or.inl rfl
    · exact Or.inr rfl

/-- The write handshake as a cascade over its three waits. -/
theorem ec_write_manual_stages (M : Machine σ) (addr data : Nat) (w : World σ) :
    ec_write_manual M addr data w
      = if (ec_write_wait1 M w).1 ≠ 0 then
          ((ec_write_wait1 M w).1, (ec_write_wait1 M w).2.log Event.ec_unlock)
        else if (ec_write_wait2 M w).1 ≠ 0 then
          ((ec_write_wait2 M w).1, (ec_write_wait2 M w).2.log Event.ec_unlock)
        else if (ec_write_wait3 M addr w).1 ≠ 0 then
          ((ec_write_wait3 M addr w).1, (ec_write_wait3 M addr w).2.log Event.ec_unlock)
        else
          ((ec_write_wait3 M addr w).1,
            (outb M data OMNIBOOK_EC_DATA (ec_write_wait3 M addr w).2).log Event.ec_unlock) :=
  rfl

/-- The read handshake as a cascade over its three waits. -/
theorem ec_read_manual_stages (M : Machine σ) (addr data : Nat) (w : World σ) :
    ec_read_manual M addr data w
      = if (ec_read_wait1 M w).1 ≠ 0 then
          (((ec_read_wait1 M w).1, data), (ec_read_wait1 M w).2.log Event.ec_unlock)
        else if (ec_read_wait2 M w).1 ≠ 0 then
          (((ec_read_wait2 M w).1, data), (ec_read_wait2 M w).2.log Event.ec_unlock)
        else if (ec_read_wait3 M addr w).1 ≠ 0 then
          (((ec_read_wait3 M addr w).1, data), (ec_read_wait3 M addr w).2.log Event.ec_unlock)
        else
          (((ec_read_wait3 M addr w).1, (inb M OMNIBOOK_EC_DATA (ec_read_wait3 M addr w).2).1),
            (inb M OMNIBOOK_EC_DATA (ec_read_wait3 M addr w).2).2.log Event.ec_unlock) :=
  rfl

theorem outbEvents_log (w : World σ) (e : Event)
    (he : (match e with | Event.outb _ _ => true | _ => false) = false) :
    outbEvents (w.log e).trace = outbEvents w.trace := by
  simp only [World.log, outbEvents, List.filter_append]
  simp [List.filter, he]

theorem outbEvents_outb (M : Machine σ) (v p : Nat) (w : World σ) :
    outbEvents (outb M v p w).trace = outbEvents w.trace ++ [Event.outb (v % 256) p] := by
  simp [outb, outbEvents, List.filter_append, List.filter]

theorem outbEvents_inb (M : Machine σ) (p : Nat) (w : World σ) :
    outbEvents (inb M p w).2.trace = outbEvents w.trace := by
  simp [inb, outbEvents, List.filter_append, List.filter]

/-- C11: handshake order and abort on the manual path.  The three waits of
`omnibook_ec_write` (all for input buffer empty) each return 0 or `-ETIME`.
If the first wait fails the function returns `-ETIME` having written no port;
if the second fails, `-ETIME` having written only the command 0x81 to port
0x66; if the third fails, `-ETIME` having written the command and then the
address to port 0x62; if all succeed it returns 0 having written command,
address and data, in this order.  In every case the trace ends with the
failed wait (or the data write) followed only by the unlock.
`omnibook_ec_read` behaves the same way with command 0x80, a third wait for
output buffer full, no data write, and on success the byte read from port
0x62 as result; on every time-out the caller's byte is unchanged. -/
theorem ec_handshake_order_and_abort (M : Machine σ)
    (hpath : (M.config_acpi_ec && !M.acpi_disabled) = false)
    (addr data : Nat) (w : World σ) :
    (((ec_write_wait1 M w).1 = 0 ∨ (ec_write_wait1 M w).1 = -ETIME) ∧
      ((ec_write_wait2 M w).1 = 0 ∨ (ec_write_wait2 M w).1 = -ETIME) ∧
      ((ec_write_wait3 M addr w).1 = 0 ∨ (ec_write_wait3 M addr w).1 = -ETIME) ∧
      ((ec_write_wait1 M w).1 ≠ 0 →
        (omnibook_ec_write M addr data w).1 = -ETIME ∧
        outbEvents (omnibook_ec_write M addr data w).2.trace = outbEvents w.trace ∧
        (omnibook_ec_write M addr data w).2.trace
          = (ec_write_wait1 M w).2.trace ++ [Event.ec_unlock]) ∧
      ((ec_write_wait1 M w).1 = 0 → (ec_write_wait2 M w).1 ≠ 0 →
        (omnibook_ec_write M addr data w).1 = -ETIME ∧
        outbEvents (omnibook_ec_write M addr data w).2.trace
          = outbEvents w.trace ++ [Event.outb 0x81 0x66] ∧
        (omnibook_ec_write M addr data w).2.trace
          = (ec_write_wait2 M w).2.trace ++ [Event.ec_unlock]) ∧
      ((ec_write_wait1 M w).1 = 0 → (ec_write_wait2 M w).1 = 0 →
        (ec_write_wait3 M addr w).1 ≠ 0 →
        (omnibook_ec_write M addr data w).1 = -ETIME ∧
        outbEvents (omnibook_ec_write M addr data w).2.trace
          = outbEvents w.trace ++ [Event.outb 0x81 0x66, Event.outb (addr % 256) 0x62] ∧
        (omnibook_ec_write M addr data w).2.trace
          = (ec_write_wait3 M addr w).2.trace ++ [Event.ec_unlock]) ∧
      ((ec_write_wait1 M w).1 = 0 → (ec_write_wait2 M w).1 = 0 →
        (ec_write_wait3 M addr w).1 = 0 →
        (omnibook_ec_write M addr data w).1 = 0 ∧
        outbEvents (omnibook_ec_write M addr data w).2.trace
          = outbEvents w.trace ++ [Event.outb 0x81 0x66, Event.outb (addr % 256) 0x62,
              Event.outb (data % 256) 0x62] ∧
        (omnibook_ec_write M addr data w).2.trace
          = (ec_write_wait3 M addr w).2.trace
              ++ [Event.outb (data % 256) 0x62, Event.ec_unlock])) ∧
    (((ec_read_wait1 M w).1 = 0 ∨ (ec_read_wait1 M w).1 = -ETIME) ∧
      ((ec_read_wait2 M w).1 = 0 ∨ (ec_read_wait2 M w).1 = -ETIME) ∧
      ((ec_read_wait3 M addr w).1 = 0 ∨ (ec_read_wait3 M addr w).1 = -ETIME) ∧
      ((ec_read_wait1 M w).1 ≠ 0 →
        (omnibook_ec_read M addr data w).1 = (-ETIME, data) ∧
        outbEvents (omnibook_ec_read M addr data w).2.trace = outbEvents w.trace ∧
        (omnibook_ec_read M addr data w).2.trace
          = (ec_read_wait1 M w).2.trace ++ [Event.ec_unlock]) ∧
      ((ec_read_wait1 M w).1 = 0 → (ec_read_wait2 M w).1 ≠ 0 →
        (omnibook_ec_read M addr data w).1 = (-ETIME, data) ∧
        outbEvents (omnibook_ec_read M addr data w).2.trace
          = outbEvents w.trace ++ [Event.outb 0x80 0x66] ∧
        (omnibook_ec_read M addr data w).2.trace
          = (ec_read_wait2 M w).2.trace ++ [Event.ec_unlock]) ∧
      ((ec_read_wait1 M w).1 = 0 → (ec_read_wait2 M w).1 = 0 →
        (ec_read_wait3 M addr w).1 ≠ 0 →
        (omnibook_ec_read M addr data w).1 = (-ETIME, data) ∧
        outbEvents (omnibook_ec_read M addr data w).2.trace
          = outbEvents w.trace ++ [Event.outb 0x80 0x66, Event.outb (addr % 256) 0x62] ∧
        (omnibook_ec_read M addr data w).2.trace
          = (ec_read_wait3 M addr w).2.trace ++ [Event.ec_unlock]) ∧
      ((ec_read_wait1 M w).1 = 0 → (ec_read_wait2 M w).1 = 0 →
        (ec_read_wait3 M addr w).1 = 0 →
        (omnibook_ec_read M addr data w).1
          = (0, (inb M 0x62 (ec_read_wait3 M addr w).2).1) ∧
        outbEvents (omnibook_ec_read M addr data w).2.trace
          = outbEvents w.trace ++ [Event.outb 0x80 0x66, Event.outb (addr % 256) 0x62] ∧
        (omnibook_ec_read M addr data w).2.trace
          = (ec_read_wait3 M addr w).2.trace
              ++ [Event.inb 0x62 (inb M 0x62 (ec_read_wait3 M addr w).2).1,
                  Event.ec_unlock])) := by
  have hibf : OMNIBOOK_EC_STAT_IBF = OMNIBOOK_EC_STAT_OBF ∨
      OMNIBOOK_EC_STAT_IBF = OMNIBOOK_EC_STAT_IBF := Or.inr rfl
  have hobf : OMNIBOOK_EC_STAT_OBF = OMNIBOOK_EC_STAT_OBF ∨
      OMNIBOOK_EC_STAT_OBF = OMNIBOOK_EC_STAT_IBF := Or.inl rfl
  have hlock : outbEvents (w.log Event.ec_lock).trace = outbEvents w.trace :=
    outbEvents_log w _ rfl
  have e1 : outbEvents (ec_write_wait1 M w).2.trace = outbEvents w.trace := by
    unfold ec_write_wait1
    rw [ec_wait_outbEvents, hlock]
  have e2 : outbEvents (ec_write_wait2 M w).2.trace
      = outbEvents w.trace ++ [Event.outb 0x81 0x66] := by
    unfold ec_write_wait2
    rw [ec_wait_outbEvents, outbEvents_outb, e1]
    rfl
  have e3 : outbEvents (ec_write_wait3 M addr w).2.trace
      = outbEvents w.trace ++ [Event.outb 0x81 0x66, Event.outb (addr % 256) 0x62] := by
    unfold ec_write_wait3
    rw [ec_wait_outbEvents, outbEvents_outb, e2, List.append_assoc]
    rfl
  have f1 : outbEvents (ec_read_wait1 M w).2.trace = outbEvents w.trace := by
    unfold ec_read_wait1
    rw [ec_wait_outbEvents, hlock]
  have f2 : outbEvents (ec_read_wait2 M w).2.trace
      = outbEvents w.trace ++ [Event.outb 0x80 0x66] := by
    unfold ec_read_wait2
    rw [ec_wait_outbEvents, outbEvents_outb, f1]
    rfl
  have f3 : outbEvents (ec_read_wait3 M addr w).2.trace
      = outbEvents w.trace ++ [Event.outb 0x80 0x66, Event.outb (addr % 256) 0x62] := by
    unfold ec_read_wait3
    rw [ec_wait_outbEvents, outbEvents_outb, f2, List.append_assoc]
    rfl
  have hw : omnibook_ec_write M addr data w = ec_write_manual M addr data w := by
    simp only [omnibook_ec_write, hpath, Bool.false_eq_true, if_false]
  have hr : omnibook_ec_read M addr data w = ec_read_manual M addr data w := by
    simp only [omnibook_ec_read, hpath, Bool.false_eq_true, if_false]
  have r1 := ec_wait_ret M OMNIBOOK_EC_STAT_IBF (w.log Event.ec_lock) hibf
  have r2w := ec_wait_ret M OMNIBOOK_EC_STAT_IBF
    (outb M OMNIBOOK_EC_CMD_WRITE OMNIBOOK_EC_SC (ec_write_wait1 M w).2) hibf
  have r3w := ec_wait_ret M OMNIBOOK_EC_STAT_IBF
    (outb M addr OMNIBOOK_EC_DATA (ec_write_wait2 M w).2) hibf
  have r2r := ec_wait_ret M OMNIBOOK_EC_STAT_IBF
    (outb M OMNIBOOK_EC_CMD_READ OMNIBOOK_EC_SC (ec_read_wait1 M w).2) hibf
  have r3r := ec_wait_ret M OMNIBOOK_EC_STAT_OBF
    (outb M addr OMNIBOOK_EC_DATA (ec_read_wait2 M w).2) hobf
  have ret_of : ∀ x : Int, (x = 0 ∨ x = -ETIME) → x ≠ 0 → x = -ETIME := by
    intro x hx hn
    rcases hx with h | h
    · exact absurd h hn
    · exact h
  refine ⟨⟨r1, r2w, r3w, ?_, ?_, ?_, ?_⟩, ⟨r1, r2r, r3r, ?_, ?_, ?_, ?_⟩⟩
  · intro h1
    rw [hw, ec_write_manual_stages, if_pos h1]
    exact ⟨ret_of _ r1 h1, by rw [outbEvents_log _ _ rfl, e1], rfl⟩
  · intro h1 h2
    rw [hw, ec_write_manual_stages, if_neg (fun hn => hn h1), if_pos h2]
    exact ⟨ret_of _ r2w h2, by rw [outbEvents_log _ _ rfl, e2], rfl⟩
  · intro h1 h2 h3
    rw [hw, ec_write_manual_stages, if_neg (fun hn => hn h1), if_neg (fun hn => hn h2),
      if_pos h3]
    exact ⟨ret_of _ r3w h3, by rw [outbEvents_log _ _ rfl, e3], rfl⟩
  · intro h1 h2 h3
    rw [hw, ec_write_manual_stages, if_neg (fun hn => hn h1), if_neg (fun hn => hn h2),
      if_neg (fun hn => hn h3)]
    refine ⟨h3, ?_, ?_⟩
    · rw [outbEvents_log _ _ rfl, outbEvents_outb, e3, List.append_assoc]
      rfl
    · simp only [World.log, outb, List.append_assoc]
      rfl
  · intro h1
    rw [hr, ec_read_manual_stages, if_pos h1]
    exact ⟨congrArg (fun x => (x, data)) (ret_of (ec_read_wait1 M w).1 r1 h1),
      by rw [outbEvents_log _ _ rfl, f1], rfl⟩
  · intro h1 h2
    rw [hr, ec_read_manual_stages, if_neg (fun hn => hn h1), if_pos h2]
    exact ⟨congrArg (fun x => (x, data)) (ret_of (ec_read_wait2 M w).1 r2r h2),
      by rw [outbEvents_log _ _ rfl, f2], rfl⟩
  · intro h1 h2 h3
    rw [hr, ec_read_manual_stages, if_neg (fun hn => hn h1), if_neg (fun hn => hn h2),
      if_pos h3]
    exact ⟨congrArg (fun x => (x, data)) (ret_of (ec_read_wait3 M addr w).1 r3r h3),
      by rw [outbEvents_log _ _ rfl, f3], rfl⟩
  · intro h1 h2 h3
    rw [hr, ec_read_manual_stages, if_neg (fun hn => hn h1), if_neg (fun hn => hn h2),
      if_neg (fun hn => hn h3)]
    refine ⟨?_, ?_, ?_⟩
    · rw [h3]
      rfl
    · rw [outbEvents_log _ _ rfl, outbEvents_inb, f3]
    · simp only [World.log, inb, List.append_assoc]
      rfl

/-- Once `latchMachine` has latched, the state in front of every status read
is still latched. -/
theorem latch_poll_world (sc : Nat) :
    ∀ (j : Nat) (tr : List Event), (poll_world latchMachine sc j ⟨true, tr⟩).m = true := by
  intro j
  induction j with
  | zero =>
    intro tr
    rfl
  | succ j ih =>
    intro tr
    rw [poll_world_succ]
    exact ih ((inb latchMachine sc ⟨true, tr⟩).2.trace ++ [Event.mdelay 1])

/-- Once `latchMachine` has latched, a wait for IBF times out. -/
theorem latch_wait_stuck (tr : List Event) :
    (omnibook_ec_wait latchMachine OMNIBOOK_EC_STAT_IBF ⟨true, tr⟩).1 = -ETIME := by
  have hne : ¬ (OMNIBOOK_EC_STAT_IBF = OMNIBOOK_EC_STAT_OBF) := by decide
  have hbusy : ∀ i, i ≤ OMNIBOOK_TIMEOUT →
      (fun v => decide (v &&& OMNIBOOK_EC_STAT_IBF ≠ 0))
        (poll_value latchMachine OMNIBOOK_EC_SC i ⟨true, tr⟩) = true := by
    intro i _
    have hv : poll_value latchMachine OMNIBOOK_EC_SC i ⟨true, tr⟩
        = (if (poll_world latchMachine OMNIBOOK_EC_SC i ⟨true, tr⟩).m then 0x02 else 0x00)
            % 256 := rfl
    rw [hv, latch_poll_world]
    decide
  have hl := wait_loop_gen_never latchMachine OMNIBOOK_EC_SC
    (fun v => decide (v &&& OMNIBOOK_EC_STAT_IBF ≠ 0)) OMNIBOOK_TIMEOUT ⟨true, tr⟩ hbusy
  unfold omnibook_ec_wait
  rw [if_neg hne, if_pos rfl, wait_ibf_loop_gen, hl]
  rfl

/-- Witness for C11.  On the always-ready mock EC (register 0x1a, value 5) all
waits succeed and the three bytes are written in order; on `latchMachine` the
second wait times out and only the command byte has been written; on
`stuckMachine` the first wait times out and nothing is written. -/
theorem ec_handshake_order_and_abort_witness :
    ((mockMachine.config_acpi_ec && !mockMachine.acpi_disabled) = false ∧
    (((ec_write_wait1 mockMachine mockZero).1 = 0 ∨ (ec_write_wait1 mockMachine mockZero).1 = -ETIME) ∧
      ((ec_write_wait2 mockMachine mockZero).1 = 0 ∨ (ec_write_wait2 mockMachine mockZero).1 = -ETIME) ∧
      ((ec_write_wait3 mockMachine 0x1a mockZero).1 = 0 ∨ (ec_write_wait3 mockMachine 0x1a mockZero).1 = -ETIME) ∧
      ((ec_write_wait1 mockMachine mockZero).1 ≠ 0 →
        (omnibook_ec_write mockMachine 0x1a 5 mockZero).1 = -ETIME ∧
        outbEvents (omnibook_ec_write mockMachine 0x1a 5 mockZero).2.trace = outbEvents mockZero.trace ∧
        (omnibook_ec_write mockMachine 0x1a 5 mockZero).2.trace
          = (ec_write_wait1 mockMachine mockZero).2.trace ++ [Event.ec_unlock]) ∧
      ((ec_write_wait1 mockMachine mockZero).1 = 0 → (ec_write_wait2 mockMachine mockZero).1 ≠ 0 →
        (omnibook_ec_write mockMachine 0x1a 5 mockZero).1 = -ETIME ∧
        outbEvents (omnibook_ec_write mockMachine 0x1a 5 mockZero).2.trace
          = outbEvents mockZero.trace ++ [Event.outb 0x81 0x66] ∧
        (omnibook_ec_write mockMachine 0x1a 5 mockZero).2.trace
          = (ec_write_wait2 mockMachine mockZero).2.trace ++ [Event.ec_unlock]) ∧
      ((ec_write_wait1 mockMachine mockZero).1 = 0 → (ec_write_wait2 mockMachine mockZero).1 = 0 →
        (ec_write_wait3 mockMachine 0x1a mockZero).1 ≠ 0 →
        (omnibook_ec_write mockMachine 0x1a 5 mockZero).1 = -ETIME ∧
        outbEvents (omnibook_ec_write mockMachine 0x1a 5 mockZero).2.trace
          = outbEvents mockZero.trace ++ [Event.outb 0x81 0x66, Event.outb (0x1a % 256) 0x62] ∧
        (omnibook_ec_write mockMachine 0x1a 5 mockZero).2.trace
          = (ec_write_wait3 mockMachine 0x1a mockZero).2.trace ++ [Event.ec_unlock]) ∧
      ((ec_write_wait1 mockMachine mockZero).1 = 0 → (ec_write_wait2 mockMachine mockZero).1 = 0 →
        (ec_write_wait3 mockMachine 0x1a mockZero).1 = 0 →
        (omnibook_ec_write mockMachine 0x1a 5 mockZero).1 = 0 ∧
        outbEvents (omnibook_ec_write mockMachine 0x1a 5 mockZero).2.trace
          = outbEvents mockZero.trace ++ [Event.outb 0x81 0x66, Event.outb (0x1a % 256) 0x62,
              Event.outb (5 % 256) 0x62] ∧
        (omnibook_ec_write mockMachine 0x1a 5 mockZero).2.trace
          = (ec_write_wait3 mockMachine 0x1a mockZero).2.trace
              ++ [Event.outb (5 % 256) 0x62, Event.ec_unlock])) ∧
    (((ec_read_wait1 mockMachine mockZero).1 = 0 ∨ (ec_read_wait1 mockMachine mockZero).1 = -ETIME) ∧
      ((ec_read_wait2 mockMachine mockZero).1 = 0 ∨ (ec_read_wait2 mockMachine mockZero).1 = -ETIME) ∧
      ((ec_read_wait3 mockMachine 0x1a mockZero).1 = 0 ∨ (ec_read_wait3 mockMachine 0x1a mockZero).1 = -ETIME) ∧
      ((ec_read_wait1 mockMachine mockZero).1 ≠ 0 →
        (omnibook_ec_read mockMachine 0x1a 5 mockZero).1 = (-ETIME, 5) ∧
        outbEvents (omnibook_ec_read mockMachine 0x1a 5 mockZero).2.trace = outbEvents mockZero.trace ∧
        (omnibook_ec_read mockMachine 0x1a 5 mockZero).2.trace
          = (ec_read_wait1 mockMachine mockZero).2.trace ++ [Event.ec_unlock]) ∧
      ((ec_read_wait1 mockMachine mockZero).1 = 0 → (ec_read_wait2 mockMachine mockZero).1 ≠ 0 →
        (omnibook_ec_read mockMachine 0x1a 5 mockZero).1 = (-ETIME, 5) ∧
        outbEvents (omnibook_ec_read mockMachine 0x1a 5 mockZero).2.trace
          = outbEvents mockZero.trace ++ [Event.outb 0x80 0x66] ∧
        (omnibook_ec_read mockMachine 0x1a 5 mockZero).2.trace
          = (ec_read_wait2 mockMachine mockZero).2.trace ++ [Event.ec_unlock]) ∧
      ((ec_read_wait1 mockMachine mockZero).1 = 0 → (ec_read_wait2 mockMachine mockZero).1 = 0 →
        (ec_read_wait3 mockMachine 0x1a mockZero).1 ≠ 0 →
        (omnibook_ec_read mockMachine 0x1a 5 mockZero).1 = (-ETIME, 5) ∧
        outbEvents (omnibook_ec_read mockMachine 0x1a 5 mockZero).2.trace
          = outbEvents mockZero.trace ++ [Event.outb 0x80 0x66, Event.outb (0x1a % 256) 0x62] ∧
        (omnibook_ec_read mockMachine 0x1a 5 mockZero).2.trace
          = (ec_read_wait3 mockMachine 0x1a mockZero).2.trace ++ [Event.ec_unlock]) ∧
      ((ec_read_wait1 mockMachine mockZero).1 = 0 → (ec_read_wait2 mockMachine mockZero).1 = 0 →
        (ec_read_wait3 mockMachine 0x1a mockZero).1 = 0 →
        (omnibook_ec_read mockMachine 0x1a 5 mockZero).1
          = (0, (inb mockMachine 0x62 (ec_read_wait3 mockMachine 0x1a mockZero).2).1) ∧
        outbEvents (omnibook_ec_read mockMachine 0x1a 5 mockZero).2.trace
          = outbEvents mockZero.trace ++ [Event.outb 0x80 0x66, Event.outb (0x1a % 256) 0x62] ∧
        (omnibook_ec_read mockMachine 0x1a 5 mockZero).2.trace
          = (ec_read_wait3 mockMachine 0x1a mockZero).2.trace
              ++ [Event.inb 0x62 (inb mockMachine 0x62 (ec_read_wait3 mockMachine 0x1a mockZero).2).1,
                  Event.ec_unlock]))) ∧
    ((omnibook_ec_write mockMachine 0x1a 5 mockZero).1 = 0 ∧
      outbEvents (omnibook_ec_write mockMachine 0x1a 5 mockZero).2.trace
        = outbEvents mockZero.trace ++ [Event.outb 0x81 0x66, Event.outb (0x1a % 256) 0x62,
            Event.outb (5 % 256) 0x62]) ∧
    ((omnibook_ec_write latchMachine 0x1a 5 ⟨false, []⟩).1 = -ETIME ∧
      outbEvents (omnibook_ec_write latchMachine 0x1a 5 ⟨false, []⟩).2.trace
        = outbEvents [] ++ [Event.outb 0x81 0x66]) ∧
    ((omnibook_ec_write stuckMachine 0x1a 5 ⟨(), []⟩).1 = -ETIME ∧
      outbEvents (omnibook_ec_write stuckMachine 0x1a 5 ⟨(), []⟩).2.trace = outbEvents []) := by
  have m1 : (ec_write_wait1 mockMachine mockZero).1 = 0 := (mock_wait_ibf _).1
  have m2 : (ec_write_wait2 mockMachine mockZero).1 = 0 := (mock_wait_ibf _).1
  have m3 : (ec_write_wait3 mockMachine 0x1a mockZero).1 = 0 := (mock_wait_ibf _).1
  have l1 : (ec_write_wait1 latchMachine ⟨false, []⟩).1 = 0 := by
    unfold ec_write_wait1
    rw [ec_wait_ibf_ready latchMachine _ (by decide)]
  have l2 : (ec_write_wait2 latchMachine ⟨false, []⟩).1 ≠ 0 := by
    have e : (ec_write_wait2 latchMachine ⟨false, []⟩).1 = -ETIME := by
      unfold ec_write_wait2
      exact latch_wait_stuck _
    rw [e]
    decide
  have s1 : (ec_write_wait1 stuckMachine ⟨(), []⟩).1 ≠ 0 := by
    have e : (ec_write_wait1 stuckMachine ⟨(), []⟩).1 = -ETIME :=
      (ec_wait_ibf_stuck stuckMachine
        (fun _ => (by decide : 0x02 % 256 &&& OMNIBOOK_EC_STAT_IBF ≠ 0)) _).1
    rw [e]
    decide
  have hm := (ec_handshake_order_and_abort mockMachine rfl 0x1a 5 mockZero).1.2.2.2.2.2.2 m1 m2 m3
  have hl := (ec_handshake_order_and_abort latchMachine rfl 0x1a 5 ⟨false, []⟩).1.2.2.2.2.1 l1 l2
  have hs := (ec_handshake_order_and_abort stuckMachine rfl 0x1a 5 ⟨(), []⟩).1.2.2.2.1 s1
  exact ⟨⟨rfl, ec_handshake_order_and_abort mockMachine rfl 0x1a 5 mockZero⟩,
    ⟨hm.1, hm.2.1⟩, ⟨hl.1, hl.2.1⟩, ⟨hs.1, hs.2.1⟩⟩

/-! ## EC access: ACPI first, manual handshake as fallback -/

/-- The manual write handshake returns 0 or `-ETIME`. -/
theorem ec_write_manual_ret (M : Machine σ) (addr data : Nat) (w : World σ) :
    (ec_write_manual M addr data w).1 = 0 ∨ (ec_write_manual M addr data w).1 = -ETIME := by
  have hibf : OMNIBOOK_EC_STAT_IBF = OMNIBOOK_EC_STAT_OBF ∨
      OMNIBOOK_EC_STAT_IBF = OMNIBOOK_EC_STAT_IBF := Or.inr rfl
  have r1 : (ec_write_wait1 M w).1 = 0 ∨ (ec_write_wait1 M w).1 = -ETIME :=
    ec_wait_ret M _ _ hibf
  have r2 : (ec_write_wait2 M w).1 = 0 ∨ (ec_write_wait2 M w).1 = -ETIME :=
    ec_wait_ret M _ _ hibf
  have r3 : (ec_write_wait3 M addr w).1 = 0 ∨ (ec_write_wait3 M addr w).1 = -ETIME :=
    ec_wait_ret M _ _ hibf
  rw [ec_write_manual_stages]
  split
  · exact r1
  · split
    · exact r2
    · split
      · exact r3
      · exact r3

/-- The manual read handshake returns 0 or `-ETIME`. -/
theorem ec_read_manual_ret (M : Machine σ) (addr data : Nat) (w : World σ) :
    (ec_read_manual M addr data w).1.1 = 0 ∨ (ec_read_manual M addr data w).1.1 = -ETIME := by
  have hibf : OMNIBOOK_EC_STAT_IBF = OMNIBOOK_EC_STAT_OBF ∨
      OMNIBOOK_EC_STAT_IBF = OMNIBOOK_EC_STAT_IBF := Or.inr rfl
  have hobf : OMNIBOOK_EC_STAT_OBF = OMNIBOOK_EC_STAT_OBF ∨
      OMNIBOOK_EC_STAT_OBF = OMNIBOOK_EC_STAT_IBF := Or.inl rfl
  have r1 : (ec_read_wait1 M w).1 = 0 ∨ (ec_read_wait1 M w).1 = -ETIME :=
    ec_wait_ret M _ _ hibf
  have r2 : (ec_read_wait2 M w).1 = 0 ∨ (ec_read_wait2 M w).1 = -ETIME :=
    ec_wait_ret M _ _ hibf
  have r3 : (ec_read_wait3 M addr w).1 = 0 ∨ (ec_read_wait3 M addr w).1 = -ETIME :=
    ec_wait_ret M _ _ hobf
  rw [ec_read_manual_stages]
  split
  · exact r1
  · split
    · exact r2
    · split
      · exact r3
      · exact r3

/-- C12: fallback policy.  When the ACPI EC driver is compiled in and not
disabled, `omnibook_ec_read` and `omnibook_ec_write` call it first.  If it
returns 0 they return 0 (and, for a read, the byte it delivered) and the only
action added to the trace is the driver call: no lock, no access to ports 0x62
and 0x66.  If it returns an error, the result and all further actions are
those of the manual handshake started in the state the driver left; the
return value is then 0 or `-ETIME`, never the driver's error code.  When the
driver is absent or disabled the functions are the manual handshake. -/
theorem ec_fallback_policy (M : Machine σ) (addr data : Nat) (w : World σ) :
    (((M.config_acpi_ec && !M.acpi_disabled) = true →
      ((M.ec_read (addr % 256) data w.m).1.1 = 0 →
        omnibook_ec_read M addr data w
          = ((0, (M.ec_read (addr % 256) data w.m).1.2 % 256),
              ⟨(M.ec_read (addr % 256) data w.m).2,
                w.trace ++ [Event.acpi_ec_read (addr % 256)]⟩)) ∧
      ((M.ec_read (addr % 256) data w.m).1.1 ≠ 0 →
        omnibook_ec_read M addr data w
          = ec_read_manual M addr ((M.ec_read (addr % 256) data w.m).1.2 % 256)
              ⟨(M.ec_read (addr % 256) data w.m).2,
                w.trace ++ [Event.acpi_ec_read (addr % 256)]⟩ ∧
        ((omnibook_ec_read M addr data w).1.1 = 0 ∨
          (omnibook_ec_read M addr data w).1.1 = -ETIME)) ∧
      ((M.ec_write (addr % 256) (data % 256) w.m).1 = 0 →
        omnibook_ec_write M addr data w
          = (0, ⟨(M.ec_write (addr % 256) (data % 256) w.m).2,
                w.trace ++ [Event.acpi_ec_write (addr % 256) (data % 256)]⟩)) ∧
      ((M.ec_write (addr % 256) (data % 256) w.m).1 ≠ 0 →
        omnibook_ec_write M addr data w
          = ec_write_manual M addr data
              ⟨(M.ec_write (addr % 256) (data % 256) w.m).2,
                w.trace ++ [Event.acpi_ec_write (addr % 256) (data % 256)]⟩ ∧
        ((omnibook_ec_write M addr data w).1 = 0 ∨
          (omnibook_ec_write M addr data w).1 = -ETIME))) ∧
    ((M.config_acpi_ec && !M.acpi_disabled) = false →
      omnibook_ec_read M addr data w = ec_read_manual M addr data w ∧
      omnibook_ec_write M addr data w = ec_write_manual M addr data w)) := by
  refine ⟨fun hen => ⟨?_, ?_, ?_, ?_⟩, fun hdis => ⟨?_, ?_⟩⟩
  · intro h0
    simp only [omnibook_ec_read, hen, if_true, if_pos h0]
    rw [h0]
  · intro hne
    have e : omnibook_ec_read M addr data w
        = ec_read_manual M addr ((M.ec_read (addr % 256) data w.m).1.2 % 256)
            ⟨(M.ec_read (addr % 256) data w.m).2,
              w.trace ++ [Event.acpi_ec_read (addr % 256)]⟩ := by
      simp only [omnibook_ec_read, hen, if_true, if_neg hne]
    rw [e]
    exact ⟨rfl, ec_read_manual_ret M _ _ _⟩
  · intro h0
    simp only [omnibook_ec_write, hen, if_true, if_pos h0]
    rw [h0]
  · intro hne
    have e : omnibook_ec_write M addr data w
        = ec_write_manual M addr data
            ⟨(M.ec_write (addr % 256) (data % 256) w.m).2,
              w.trace ++ [Event.acpi_ec_write (addr % 256) (data % 256)]⟩ := by
      simp only [omnibook_ec_write, hen, if_true, if_neg hne]
    rw [e]
    exact ⟨rfl, ec_write_manual_ret M _ _ _⟩
  · simp only [omnibook_ec_read, hdis, Bool.false_eq_true, if_false]
  · simp only [omnibook_ec_write, hdis, Bool.false_eq_true, if_false]

/-- Witness for C12: a succeeding and a failing ACPI driver, and a machine
without the driver. -/
theorem ec_fallback_policy_witness :
    ((acpiMachine 0).config_acpi_ec && !(acpiMachine 0).acpi_disabled) = true ∧
    ((acpiMachine 0).ec_read (0x1a % 256) 0 (⟨(), []⟩ : World Unit).m).1.1 = 0 ∧
    omnibook_ec_read (acpiMachine 0) 0x1a 0 ⟨(), []⟩
      = ((0, 0x5a), ⟨(), [Event.acpi_ec_read 0x1a]⟩) ∧
    ((acpiMachine (- EIO)).ec_write (0x1a % 256) (5 % 256) (⟨(), []⟩ : World Unit).m).1 ≠ 0 ∧
    (omnibook_ec_write (acpiMachine (- EIO)) 0x1a 5 ⟨(), []⟩
      = ec_write_manual (acpiMachine (- EIO)) 0x1a 5 ⟨(), [Event.acpi_ec_write 0x1a 5]⟩ ∧
      ((omnibook_ec_write (acpiMachine (- EIO)) 0x1a 5 ⟨(), []⟩).1 = 0 ∨
        (omnibook_ec_write (acpiMachine (- EIO)) 0x1a 5 ⟨(), []⟩).1 = -ETIME)) ∧
    (stuckMachine.config_acpi_ec && !stuckMachine.acpi_disabled) = false ∧
    (omnibook_ec_read stuckMachine 0x1a 0 ⟨(), []⟩ = ec_read_manual stuckMachine 0x1a 0 ⟨(), []⟩ ∧
      omnibook_ec_write stuckMachine 0x1a 5 ⟨(), []⟩
        = ec_write_manual stuckMachine 0x1a 5 ⟨(), []⟩) :=
  ⟨rfl, rfl,
    ((ec_fallback_policy (acpiMachine 0) 0x1a 0 ⟨(), []⟩).1 rfl).1 rfl,
    by decide,
    ((ec_fallback_policy (acpiMachine (- EIO)) 0x1a 5 ⟨(), []⟩).1 rfl).2.2.2 (by decide),
    rfl,
    ⟨((ec_fallback_policy stuckMachine 0x1a 0 ⟨(), []⟩).2 rfl).1,
      ((ec_fallback_policy stuckMachine 0x1a 5 ⟨(), []⟩).2 rfl).2⟩⟩

/-! ## SMI backend: the Intel call sequence -/

/-- C17: for every platform (so for every `PMBASE` dword `pm` and every value
`ax` the trap leaves in `%eax`), `intel_do_smi_call` does exactly this: take
the spinlock, read the `PMBASE` dword, read the enable register at port
`(pm & 0xff80) + 0x2c` obtaining `st`, raise the trap on port 0xb2, write `st`
back to that same port, release the spinlock.  The machine state it leaves is
the one produced by that write-back (`outl`) applied to the state the trap
left, which is the state the register read left; the write-back is the last
port access and is made whether the call returns 0 (`%ax` cleared) or
`(u32) - EIO`.  The private data of the backend is unchanged. -/
theorem intel_smi_call_restores (P : Platform σ) (function : Nat) (s : Backend σ)
    (dev : PciDev) (hbr : s.lpc_bridge = some dev) :
    ∃ (r : Nat × Backend σ) (pm st ax : Nat),
      intel_do_smi_call P function s = some r ∧
      pm = (P.pci_read_config_dword dev INTEL_PMBASE s.w.m).1 % 4294967296 ∧
      st = (P.inl ((pm &&& 0xff80) + 0x2c)
              (P.pci_read_config_dword dev INTEL_PMBASE s.w.m).2).1 % 4294967296 ∧
      ax = (P.smi_trap (function % 65536) 0xb2
              (P.inl ((pm &&& 0xff80) + 0x2c)
                (P.pci_read_config_dword dev INTEL_PMBASE s.w.m).2).2).1 % 4294967296 ∧
      r.2.w.m = P.outl st ((pm &&& 0xff80) + 0x2c)
        (P.smi_trap (function % 65536) 0xb2
          (P.inl ((pm &&& 0xff80) + 0x2c)
            (P.pci_read_config_dword dev INTEL_PMBASE s.w.m).2).2).2 ∧
      r.2.w.trace = s.w.trace ++
        [Event.smi_spin_lock,
         Event.pci_read_config_dword 0x40 pm,
         Event.inl ((pm &&& 0xff80) + 0x2c) st,
         Event.smi_trap (function % 65536) 0xb2 ax,
         Event.outl st ((pm &&& 0xff80) + 0x2c),
         Event.smi_spin_unlock] ∧
      (ax % 65536 = 0 → r.1 = 0) ∧
      (ax % 65536 ≠ 0 → r.1 = int_to_u32 (- EIO)) ∧
      r.2.refcount = s.refcount ∧ r.2.lpc_bridge = s.lpc_bridge ∧
      r.2.start_offset = s.start_offset ∧ r.2.already_failed = s.already_failed ∧
      r.2.regions = s.regions ∧ r.2.bridge_refs = s.bridge_refs := by
  rcases s with ⟨w, rc, br, so, af, rg, bf⟩
  simp only at hbr
  subst hbr
  have hmm : ∀ x : Nat, x % 4294967296 % 4294967296 = x % 4294967296 :=
    fun x => Nat.mod_mod _ _
  refine ⟨?r, _, _, _, ?e, rfl, rfl, rfl, ?m, ?tr, ?ok, ?bad, ?fr⟩
  case e =>
    simp only [intel_do_smi_call]
    exact Eq.refl _
  case m =>
    simp only [Backend.ev, World.log, outl, inl, smi_trap, INTEL_GPE0_EN, INTEL_PMBASE,
      INTEL_SMI_PORT, hmm]
  case tr =>
    simp only [Backend.ev, World.log, outl, inl, smi_trap, INTEL_GPE0_EN, INTEL_PMBASE,
      INTEL_SMI_PORT, List.append_assoc, List.cons_append, List.nil_append, hmm]
  case ok =>
    intro h
    exact if_pos h
  case bad =>
    intro h
    exact if_neg h
  case fr =>
    exact ⟨rfl, rfl, rfl, rfl, rfl, rfl⟩

/-- Witness for C17 on the mock Intel bridge whose SMI handler clears the
enable register (`PMBASE` dword 0x1001, register holding 0x10 on entry), with
a working and with a failing firmware: in both cases the register holds 0x10
again when the call returns. -/
theorem intel_smi_call_restores_witness :
    (gpeReady 0x10).lpc_bridge = some ⟨PCI_VENDOR_ID_INTEL, 0x27b9⟩ ∧
    (∃ (r : Nat × Backend GpeState) (pm st ax : Nat),
      intel_do_smi_call (gpeClobberPlatform 0x1001 false) 0x3ce4 (gpeReady 0x10) = some r ∧
      pm = ((gpeClobberPlatform 0x1001 false).pci_read_config_dword (⟨PCI_VENDOR_ID_INTEL, 0x27b9⟩ : PciDev) INTEL_PMBASE (gpeReady 0x10).w.m).1 % 4294967296 ∧
      st = ((gpeClobberPlatform 0x1001 false).inl ((pm &&& 0xff80) + 0x2c)
              ((gpeClobberPlatform 0x1001 false).pci_read_config_dword (⟨PCI_VENDOR_ID_INTEL, 0x27b9⟩ : PciDev) INTEL_PMBASE (gpeReady 0x10).w.m).2).1 % 4294967296 ∧
      ax = ((gpeClobberPlatform 0x1001 false).smi_trap (0x3ce4 % 65536) 0xb2
              ((gpeClobberPlatform 0x1001 false).inl ((pm &&& 0xff80) + 0x2c)
                ((gpeClobberPlatform 0x1001 false).pci_read_config_dword (⟨PCI_VENDOR_ID_INTEL, 0x27b9⟩ : PciDev) INTEL_PMBASE (gpeReady 0x10).w.m).2).2).1 % 4294967296 ∧
      r.2.w.m = (gpeClobberPlatform 0x1001 false).outl st ((pm &&& 0xff80) + 0x2c)
        ((gpeClobberPlatform 0x1001 false).smi_trap (0x3ce4 % 65536) 0xb2
          ((gpeClobberPlatform 0x1001 false).inl ((pm &&& 0xff80) + 0x2c)
            ((gpeClobberPlatform 0x1001 false).pci_read_config_dword (⟨PCI_VENDOR_ID_INTEL, 0x27b9⟩ : PciDev) INTEL_PMBASE (gpeReady 0x10).w.m).2).2).2 ∧
      r.2.w.trace = (gpeReady 0x10).w.trace ++
        [Event.smi_spin_lock,
         Event.pci_read_config_dword 0x40 pm,
         Event.inl ((pm &&& 0xff80) + 0x2c) st,
         Event.smi_trap (0x3ce4 % 65536) 0xb2 ax,
         Event.outl st ((pm &&& 0xff80) + 0x2c),
         Event.smi_spin_unlock] ∧
      (ax % 65536 = 0 → r.1 = 0) ∧
      (ax % 65536 ≠ 0 → r.1 = int_to_u32 (- EIO)) ∧
      r.2.refcount = (gpeReady 0x10).refcount ∧ r.2.lpc_bridge = (gpeReady 0x10).lpc_bridge ∧
      r.2.start_offset = (gpeReady 0x10).start_offset ∧ r.2.already_failed = (gpeReady 0x10).already_failed ∧
      r.2.regions = (gpeReady 0x10).regions ∧ r.2.bridge_refs = (gpeReady 0x10).bridge_refs) ∧
    (∃ (r : Nat × Backend GpeState) (pm st ax : Nat),
      intel_do_smi_call (gpeClobberPlatform 0x1001 true) 0x3ce4 (gpeReady 0x10) = some r ∧
      pm = ((gpeClobberPlatform 0x1001 true).pci_read_config_dword (⟨PCI_VENDOR_ID_INTEL, 0x27b9⟩ : PciDev) INTEL_PMBASE (gpeReady 0x10).w.m).1 % 4294967296 ∧
      st = ((gpeClobberPlatform 0x1001 true).inl ((pm &&& 0xff80) + 0x2c)
              ((gpeClobberPlatform 0x1001 true).pci_read_config_dword (⟨PCI_VENDOR_ID_INTEL, 0x27b9⟩ : PciDev) INTEL_PMBASE (gpeReady 0x10).w.m).2).1 % 4294967296 ∧
      ax = ((gpeClobberPlatform 0x1001 true).smi_trap (0x3ce4 % 65536) 0xb2
              ((gpeClobberPlatform 0x1001 true).inl ((pm &&& 0xff80) + 0x2c)
                ((gpeClobberPlatform 0x1001 true).pci_read_config_dword (⟨PCI_VENDOR_ID_INTEL, 0x27b9⟩ : PciDev) INTEL_PMBASE (gpeReady 0x10).w.m).2).2).1 % 4294967296 ∧
      r.2.w.m = (gpeClobberPlatform 0x1001 true).outl st ((pm &&& 0xff80) + 0x2c)
        ((gpeClobberPlatform 0x1001 true).smi_trap (0x3ce4 % 65536) 0xb2
          ((gpeClobberPlatform 0x1001 true).inl ((pm &&& 0xff80) + 0x2c)
            ((gpeClobberPlatform 0x1001 true).pci_read_config_dword (⟨PCI_VENDOR_ID_INTEL, 0x27b9⟩ : PciDev) INTEL_PMBASE (gpeReady 0x10).w.m).2).2).2 ∧
      r.2.w.trace = (gpeReady 0x10).w.trace ++
        [Event.smi_spin_lock,
         Event.pci_read_config_dword 0x40 pm,
         Event.inl ((pm &&& 0xff80) + 0x2c) st,
         Event.smi_trap (0x3ce4 % 65536) 0xb2 ax,
         Event.outl st ((pm &&& 0xff80) + 0x2c),
         Event.smi_spin_unlock] ∧
      (ax % 65536 = 0 → r.1 = 0) ∧
      (ax % 65536 ≠ 0 → r.1 = int_to_u32 (- EIO)) ∧
      r.2.refcount = (gpeReady 0x10).refcount ∧ r.2.lpc_bridge = (gpeReady 0x10).lpc_bridge ∧
      r.2.start_offset = (gpeReady 0x10).start_offset ∧ r.2.already_failed = (gpeReady 0x10).already_failed ∧
      r.2.regions = (gpeReady 0x10).regions ∧ r.2.bridge_refs = (gpeReady 0x10).bridge_refs) ∧
    (∃ r : Nat × Backend GpeState,
      intel_do_smi_call (gpeClobberPlatform 0x1001 false) 0x3ce4 (gpeReady 0x10) = some r ∧
      r.1 = 0 ∧ r.2.w.m = { gpe0_en := 0x10, seen := [0x10] }) ∧
    (∃ r : Nat × Backend GpeState,
      intel_do_smi_call (gpeClobberPlatform 0x1001 true) 0x3ce4 (gpeReady 0x10) = some r ∧
      r.1 = int_to_u32 (- EIO) ∧ r.2.w.m = { gpe0_en := 0x10, seen := [0x10] }) := by
  refine ⟨rfl,
    intel_smi_call_restores (gpeClobberPlatform 0x1001 false) 0x3ce4 (gpeReady 0x10)
      ⟨PCI_VENDOR_ID_INTEL, 0x27b9⟩ rfl,
    intel_smi_call_restores (gpeClobberPlatform 0x1001 true) 0x3ce4 (gpeReady 0x10)
      ⟨PCI_VENDOR_ID_INTEL, 0x27b9⟩ rfl, ?_, ?_⟩
  · obtain ⟨r, pm, st, ax, hr, hpm, hst, hax, hm, _, hok, _, _⟩ :=
      intel_smi_call_restores (gpeClobberPlatform 0x1001 false) 0x3ce4 (gpeReady 0x10)
        ⟨PCI_VENDOR_ID_INTEL, 0x27b9⟩ rfl
    subst hpm
    subst hst
    subst hax
    exact ⟨r, hr, hok rfl, hm.trans rfl⟩
  · obtain ⟨r, pm, st, ax, hr, hpm, hst, hax, hm, _, _, hbad, _⟩ :=
      intel_smi_call_restores (gpeClobberPlatform 0x1001 true) 0x3ce4 (gpeReady 0x10)
        ⟨PCI_VENDOR_ID_INTEL, 0x27b9⟩ rfl
    subst hpm
    subst hst
    subst hax
    exact ⟨r, hr, hbad (by decide), hm.trans rfl⟩

/-- The Intel call on the mock bridge with a working firmware, evaluated: the
enable register is read at port 0x102c, the trap follows at once, and the
value is written back afterwards. -/
theorem gpe_intel_call_ok :
    intel_do_smi_call (gpePlatform 0x1001 false) 0x3ce4 (gpeReady 0x10)
      = some (0,
          { gpeReady 0x10 with
            w := { m := { gpe0_en := 0x10, seen := [0x10] },
                   trace := [Event.smi_spin_lock,
                     Event.pci_read_config_dword 0x40 0x1001,
                     Event.inl 0x102c 0x10,
                     Event.smi_trap 0x3ce4 0xb2 0,
                     Event.outl 0x10 0x102c,
                     Event.smi_spin_unlock] } }) := by
  rfl

/-- The Intel call on the mock bridge with a failing firmware, evaluated: the
same actions, and the result is `(u32) - EIO`. -/
theorem gpe_intel_call_fail :
    intel_do_smi_call (gpePlatform 0x1001 true) 0x3ce4 (gpeReady 0x10)
      = some (int_to_u32 (- EIO),
          { gpeReady 0x10 with
            w := { m := { gpe0_en := 0x10, seen := [0x10] },
                   trace := [Event.smi_spin_lock,
                     Event.pci_read_config_dword 0x40 0x1001,
                     Event.inl 0x102c 0x10,
                     Event.smi_trap 0x3ce4 0xb2 0x3ce4,
                     Event.outl 0x10 0x102c,
                     Event.smi_spin_unlock] } }) := by
  rfl

/-! ## SMI backend: trace of the buffer transfer -/

theorem flatMap_range_congr {β : Type} (f g : Nat → List β) :
    ∀ (n s : Nat), (∀ k, s ≤ k → f k = g k) →
      (List.range' s n).flatMap f = (List.range' s n).flatMap g := by
  intro n
  induction n with
  | zero =>
    intro s _
    rfl
  | succ n ih =>
    intro s h
    rw [List.range'_succ, List.flatMap_cons, List.flatMap_cons, h s (le_refl s),
      ih (s + 1) (fun k hk => h k (by omega))]

/-- Trace of the marshalling loop. -/
theorem smi_write_loop_trace (M : Machine σ) (so : Nat) (inp : List Nat) :
    ∀ (n count : Nat) (w : World σ),
      (smi_write_loop M so inp n count w).trace
        = w.trace ++ (List.range' count n).flatMap (fun k =>
            [Event.outb ((k + so) % 256) (RTC_PORT 2),
             Event.outb (inp.getD k 0 % 256) (RTC_PORT 3)]) := by
  intro n
  induction n with
  | zero =>
    intro count w
    simp [smi_write_loop]
  | succ n ih =>
    intro count w
    rw [smi_write_loop_succ, ih, List.range'_succ, List.flatMap_cons]
    simp [outb, List.append_assoc]

/-- Trace of the read-back loop, and the number of bytes it stores. -/
theorem smi_read_loop_trace (M : Machine σ) (so : Nat) :
    ∀ (n count : Nat) (w : World σ),
      (smi_read_loop M so n count w).1.length = n ∧
      (smi_read_loop M so n count w).2.trace
        = w.trace ++ (List.range' count n).flatMap (fun k =>
            [Event.outb ((k + so) % 256) (RTC_PORT 2),
             Event.inb (RTC_PORT 3) ((smi_read_loop M so n count w).1.getD (k - count) 0)]) := by
  intro n
  induction n with
  | zero =>
    intro count w
    simp [smi_read_loop]
  | succ n ih =>
    intro count w
    obtain ⟨hl, ht⟩ := ih (count + 1)
      (inb M (RTC_PORT 3) (outb M (count + so) (RTC_PORT 2) w)).2
    rw [smi_read_loop_succ]
    refine ⟨by simp [hl], ?_⟩
    simp only
    rw [ht, List.range'_succ, List.flatMap_cons]
    have hc := flatMap_range_congr
      (fun k => [Event.outb ((k + so) % 256) (RTC_PORT 2),
        Event.inb (RTC_PORT 3)
          ((smi_read_loop M so n (count + 1)
            (inb M (RTC_PORT 3) (outb M (count + so) (RTC_PORT 2) w)).2).1.getD
              (k - (count + 1)) 0)])
      (fun k => [Event.outb ((k + so) % 256) (RTC_PORT 2),
        Event.inb (RTC_PORT 3)
          (((inb M (RTC_PORT 3) (outb M (count + so) (RTC_PORT 2) w)).1 ::
            (smi_read_loop M so n (count + 1)
              (inb M (RTC_PORT 3) (outb M (count + so) (RTC_PORT 2) w)).2).1).getD
              (k - count) 0)])
      n (count + 1)
      (fun k hk => by
        have : k - count = (k - (count + 1)) + 1 := by omega
        simp only [this, List.getD_cons_succ])
    rw [hc]
    simp [inb, outb, List.append_assoc]

/-- The actions of `intel_do_smi_call`: no byte-wide port access, one trap. -/
theorem intel_call_mid (P : Platform σ) (word : Nat) (s : Backend σ) (dev : PciDev)
    (hbr : s.lpc_bridge = some dev) :
    ∃ (r : Nat × Backend σ) (mid : List Event) (ax : Nat),
      intel_do_smi_call P word s = some r ∧
      r.2.w.trace = s.w.trace ++ mid ∧
      (∀ e ∈ mid, isBytePort e = false) ∧
      trapEvents mid = [Event.smi_trap (word % 65536) INTEL_SMI_PORT ax] := by
  rcases s with ⟨w, rc, br, so, af, rg, bf⟩
  simp only at hbr
  subst hbr
  refine ⟨?r, ?mid, ?ax, ?e, ?tr, ?nb, ?tp⟩
  case e =>
    simp only [intel_do_smi_call]
    exact Eq.refl _
  case mid =>
    exact [Event.smi_spin_lock,
      Event.pci_read_config_dword INTEL_PMBASE
        ((P.pci_read_config_dword dev INTEL_PMBASE w.m).1 % 4294967296),
      Event.inl ((((P.pci_read_config_dword dev INTEL_PMBASE w.m).1 % 4294967296) &&& 0xff80)
          + INTEL_GPE0_EN)
        ((P.inl ((((P.pci_read_config_dword dev INTEL_PMBASE w.m).1 % 4294967296) &&& 0xff80)
          + INTEL_GPE0_EN) (P.pci_read_config_dword dev INTEL_PMBASE w.m).2).1 % 4294967296),
      Event.smi_trap (word % 65536) INTEL_SMI_PORT
        ((P.smi_trap (word % 65536) INTEL_SMI_PORT
          (P.inl ((((P.pci_read_config_dword dev INTEL_PMBASE w.m).1 % 4294967296) &&& 0xff80)
            + INTEL_GPE0_EN) (P.pci_read_config_dword dev INTEL_PMBASE w.m).2).2).1
          % 4294967296),
      Event.outl
        ((P.inl ((((P.pci_read_config_dword dev INTEL_PMBASE w.m).1 % 4294967296) &&& 0xff80)
          + INTEL_GPE0_EN) (P.pci_read_config_dword dev INTEL_PMBASE w.m).2).1 % 4294967296)
        ((((P.pci_read_config_dword dev INTEL_PMBASE w.m).1 % 4294967296) &&& 0xff80)
          + INTEL_GPE0_EN),
      Event.smi_spin_unlock]
  case ax =>
    exact (P.smi_trap (word % 65536) INTEL_SMI_PORT
          (P.inl ((((P.pci_read_config_dword dev INTEL_PMBASE w.m).1 % 4294967296) &&& 0xff80)
            + INTEL_GPE0_EN) (P.pci_read_config_dword dev INTEL_PMBASE w.m).2).2).1
          % 4294967296
  case tr =>
    have hmm : ∀ x : Nat, x % 4294967296 % 4294967296 = x % 4294967296 :=
      fun x => Nat.mod_mod _ _
    simp only [Backend.ev, World.log, outl, inl, smi_trap, List.append_assoc, List.cons_append,
      List.nil_append, hmm]
  case nb =>
    intro e he
    simp only [List.mem_cons, List.mem_singleton, List.not_mem_nil, or_false] at he
    rcases he with h | h | h | h | h | h <;> rw [h] <;> rfl
  case tp =>
    simp [trapEvents, List.filter]

/-- The actions of `ati_do_smi_call`: no byte-wide port access, one trap. -/
theorem ati_call_mid (P : Platform σ) (word : Nat) (s : Backend σ) :
    ∃ (mid : List Event) (ax : Nat),
      (ati_do_smi_call P word s).2.w.trace = s.w.trace ++ mid ∧
      (∀ e ∈ mid, isBytePort e = false) ∧
      trapEvents mid = [Event.smi_trap (word % 65536) ATI_SMI_PORT ax] := by
  rcases s with ⟨w, rc, br, so, af, rg, bf⟩
  by_cases h : (smi_trap P word ATI_SMI_PORT (w.log Event.smi_spin_lock)).1 % 65536 = 0
  · refine ⟨[Event.smi_spin_lock,
        Event.smi_trap (word % 65536) ATI_SMI_PORT
          ((P.smi_trap (word % 65536) ATI_SMI_PORT w.m).1 % 4294967296),
        Event.smi_spin_unlock],
        (P.smi_trap (word % 65536) ATI_SMI_PORT w.m).1 % 4294967296, ?_, ?_, ?_⟩
    · simp only [ati_do_smi_call, Backend.ev, if_pos h]
      simp only [World.log, smi_trap, List.append_assoc, List.cons_append, List.nil_append]
    · intro e he
      simp only [List.mem_cons, List.mem_singleton, List.not_mem_nil, or_false] at he
      rcases he with h | h | h <;> rw [h] <;> rfl
    · simp [trapEvents, List.filter]
  · refine ⟨[Event.smi_spin_lock,
        Event.smi_trap (word % 65536) ATI_SMI_PORT
          ((P.smi_trap (word % 65536) ATI_SMI_PORT w.m).1 % 4294967296),
        Event.inw (ATI_SMI_PORT + 1)
          ((P.inw (ATI_SMI_PORT + 1) (P.smi_trap (word % 65536) ATI_SMI_PORT w.m).2).1 % 65536),
        Event.smi_spin_unlock],
        (P.smi_trap (word % 65536) ATI_SMI_PORT w.m).1 % 4294967296, ?_, ?_, ?_⟩
    · simp only [ati_do_smi_call, Backend.ev, if_neg h]
      split <;>
        simp only [World.log, smi_trap, inw, List.append_assoc, List.cons_append,
          List.nil_append]
    · intro e he
      simp only [List.mem_cons, List.mem_singleton, List.not_mem_nil, or_false] at he
      rcases he with h | h | h | h <;> rw [h] <;> rfl
    · simp [trapEvents, List.filter]

/-- The marshalling loop of `nbsmi_smi_command` adds exactly `marshal_events`. -/
theorem marshal_trace (M : Machine σ) (so : Nat) (inp : List Nat) (w : World σ) :
    (smi_write_loop M so inp BUFFER_SIZE 0 w).trace = w.trace ++ marshal_events so inp := by
  rw [smi_write_loop_trace, marshal_events, List.range_eq_range']

/-- The read-back loop of `nbsmi_smi_command` stores 32 bytes and adds exactly
`readback_events` of those bytes. -/
theorem readback_trace (M : Machine σ) (so : Nat) (w : World σ) :
    (smi_read_loop M so BUFFER_SIZE 0 w).1.length = BUFFER_SIZE ∧
    (smi_read_loop M so BUFFER_SIZE 0 w).2.trace
      = w.trace ++ readback_events so (smi_read_loop M so BUFFER_SIZE 0 w).1 := by
  obtain ⟨hl, ht⟩ := smi_read_loop_trace M so BUFFER_SIZE 0 w
  refine ⟨hl, ?_⟩
  rw [ht, readback_events, List.range_eq_range']
  simp only [Nat.sub_zero]

theorem printk_trace (c : Prop) [Decidable c] (x : Backend σ) :
    (if c then x.ev Event.printk else x).w.trace
      = x.w.trace ++ (if c then [Event.printk] else []) := by
  split
  · rfl
  · simp

theorem printk_fields (c : Prop) [Decidable c] (x : Backend σ) :
    (if c then x.ev Event.printk else x).w.m = x.w.m := by
  split <;> rfl

/-- Trace of `nbsmi_smi_command` on a supported bridge: the marshalling phase,
then actions without byte-wide port access among which there is exactly one
trap, carrying the encoded function word, then the read-back phase of the 32
bytes stored in the output buffer. -/
theorem smi_command_trace (P : Platform σ) (f : Nat) (inp : List Nat) (s : Backend σ)
    (dev : PciDev) (hbr : s.lpc_bridge = some dev)
    (hv : dev.vendor = PCI_VENDOR_ID_INTEL ∨ dev.vendor = PCI_VENDOR_ID_ATI) :
    ∃ (c : (Int × List Nat) × Backend σ) (mid : List Event) (ax : Nat),
      nbsmi_smi_command P f inp s = some c ∧
      c.1.2.length = BUFFER_SIZE ∧
      c.2.w.trace = s.w.trace ++ marshal_events s.start_offset inp ++ mid
        ++ readback_events s.start_offset c.1.2 ∧
      (∀ e ∈ mid, isBytePort e = false) ∧
      trapEvents mid = [Event.smi_trap (smi_function_word f)
        (if dev.vendor = PCI_VENDOR_ID_INTEL then INTEL_SMI_PORT else ATI_SMI_PORT) ax] := by
  obtain ⟨hw1, _, _⟩ := smi_function_word_facts f
  rcases s with ⟨w, rc, br, so, af, rg, bf⟩
  simp only at hbr
  subst hbr
  have hpk : ∀ e ∈ [Event.printk], isBytePort e = false := by
    intro e he
    simp only [List.mem_singleton] at he
    rw [he]
    rfl
  rcases hv with hd | hd
  · obtain ⟨r, mid, ax, hr, htr, hnb, htp⟩ := intel_call_mid P (smi_function_word f)
      { w := smi_write_loop P.toMachine so inp BUFFER_SIZE 0 w, refcount := rc,
        lpc_bridge := some dev, start_offset := so, already_failed := af, regions := rg,
        bridge_refs := bf } dev rfl
    obtain ⟨hl, hrb⟩ := readback_trace P.toMachine so
      (if r.1 ≠ 0 then r.2.ev Event.printk else r.2).w
    refine ⟨?c, mid ++ (if r.1 ≠ 0 then [Event.printk] else []), ax, ?e, ?len, ?tr, ?nb, ?tp⟩
    case e =>
      simp only [nbsmi_smi_command, if_pos hd, hr]
      exact Eq.refl _
    case len => exact hl
    case tr =>
      simp only
      rw [hrb, printk_trace, htr]
      simp only [marshal_trace, List.append_assoc]
    case nb =>
      intro e he
      rw [List.mem_append] at he
      rcases he with he | he
      · exact hnb e he
      · split at he
        · exact hpk e he
        · cases he
    case tp =>
      rw [hw1] at htp
      simp only [trapEvents, List.filter_append] at htp ⊢
      rw [htp, if_pos hd]
      split <;> simp [List.filter]
  · have hne : ¬ (dev.vendor = PCI_VENDOR_ID_INTEL) := by rw [hd]; decide
    obtain ⟨mid, ax, htr, hnb, htp⟩ := ati_call_mid P (smi_function_word f)
      { w := smi_write_loop P.toMachine so inp BUFFER_SIZE 0 w, refcount := rc,
        lpc_bridge := some dev, start_offset := so, already_failed := af, regions := rg,
        bridge_refs := bf }
    obtain ⟨hl, hrb⟩ := readback_trace P.toMachine so
      (if (ati_do_smi_call P (smi_function_word f)
          { w := smi_write_loop P.toMachine so inp BUFFER_SIZE 0 w, refcount := rc,
            lpc_bridge := some dev, start_offset := so, already_failed := af, regions := rg,
            bridge_refs := bf }).1 ≠ 0
        then (ati_do_smi_call P (smi_function_word f)
          { w := smi_write_loop P.toMachine so inp BUFFER_SIZE 0 w, refcount := rc,
            lpc_bridge := some dev, start_offset := so, already_failed := af, regions := rg,
            bridge_refs := bf }).2.ev Event.printk
        else (ati_do_smi_call P (smi_function_word f)
          { w := smi_write_loop P.toMachine so inp BUFFER_SIZE 0 w, refcount := rc,
            lpc_bridge := some dev, start_offset := so, already_failed := af, regions := rg,
            bridge_refs := bf }).2).w
    refine ⟨?c2, mid ++ (if (ati_do_smi_call P (smi_function_word f)
          { w := smi_write_loop P.toMachine so inp BUFFER_SIZE 0 w, refcount := rc,
            lpc_bridge := some dev, start_offset := so, already_failed := af, regions := rg,
            bridge_refs := bf }).1 ≠ 0 then [Event.printk] else []), ax,
      ?e2, ?len2, ?tr2, ?nb2, ?tp2⟩
    case e2 =>
      simp only [nbsmi_smi_command, if_neg hne, if_pos hd]
      exact Eq.refl _
    case len2 => exact hl
    case tr2 =>
      simp only
      rw [hrb, printk_trace, htr]
      simp only [marshal_trace, List.append_assoc]
    case nb2 =>
      intro e he
      rw [List.mem_append] at he
      rcases he with he | he
      · exact hnb e he
      · split at he
        · exact hpk e he
        · cases he
    case tp2 =>
      rw [hw1] at htp
      simp only [trapEvents, List.filter_append] at htp ⊢
      rw [htp, if_neg hne]
      split <;> simp [List.filter]

/-! ## SMI backend: marshalling, function word, input buffer -/

/-- C15: SMI buffer marshalling.  On an Intel or ATI bridge with `start_offset`
at the vendor base (0x60 for Intel, 0xe0 for ATI), `nbsmi_smi_command` returns
(0 or `- EIO`) and has performed, in this order: for `k = 0 .. 31` the index
`start_offset + k` to `RTC_PORT(2)` and `inputbuffer[k]` to `RTC_PORT(3)`;
then the trap with no byte-wide port access around it; then, whatever the
trap's outcome, for `k = 0 .. 31` the same index to `RTC_PORT(2)` and a read of
`RTC_PORT(3)` whose value is stored in `outputbuffer[k]`.  `start_offset + 31`
is at most 0xff, so no index byte wraps and the 32 index bytes are pairwise
distinct. -/
theorem smi_buffer_marshalling (P : Platform σ) (f : Nat) (inp : List Nat) (s : Backend σ)
    (dev : PciDev) (hbr : s.lpc_bridge = some dev)
    (hv : dev.vendor = PCI_VENDOR_ID_INTEL ∨ dev.vendor = PCI_VENDOR_ID_ATI)
    (hso : s.start_offset
      = if dev.vendor = PCI_VENDOR_ID_INTEL then INTEL_OFFSET else ATI_OFFSET) :
    ((∃ (c : (Int × List Nat) × Backend σ) (mid : List Event),
        nbsmi_smi_command P f inp s = some c ∧
        (c.1.1 = 0 ∨ c.1.1 = - EIO) ∧
        c.1.2.length = BUFFER_SIZE ∧
        c.2.w.trace = s.w.trace ++ marshal_events s.start_offset inp ++ mid
          ++ readback_events s.start_offset c.1.2 ∧
        (∀ e ∈ mid, isBytePort e = false) ∧
        (trapEvents mid).length = 1) ∧
      s.start_offset + 31 ≤ 0xff ∧
      (∀ k, k < BUFFER_SIZE → (k + s.start_offset) % 256 = s.start_offset + k) ∧
      (index_bytes s.start_offset).Nodup ∧
      INTEL_OFFSET = 0x60 ∧ ATI_OFFSET = 0xe0) := by
  obtain ⟨c, mid, ax, hc, hl, htr, hnb, htp⟩ := smi_command_trace P f inp s dev hbr hv
  have hret := (smi_command_ret P f inp s c hc).1
  have hcases : s.start_offset = 0x60 ∨ s.start_offset = 0xe0 := by
    rcases hv with hd | hd
    · left
      rw [hso, if_pos hd]
      rfl
    · right
      have hne : ¬ (dev.vendor = PCI_VENDOR_ID_INTEL) := by rw [hd]; decide
      rw [hso, if_neg hne]
      rfl
  refine ⟨⟨c, mid, hc, hret, hl, htr, hnb, by rw [htp]; rfl⟩, ?_, ?_, ?_, rfl, rfl⟩
  · rcases hcases with h | h <;> omega
  · intro k hk
    have hk2 : k < 32 := hk
    rcases hcases with h | h <;> (rw [h]; omega)
  · rcases hcases with h | h <;> (rw [h]; decide)

/-- Witness for C15 on the mock firmware platform: an Intel bridge with a
working firmware and an ATI bridge with a failing firmware. -/
theorem smi_buffer_marshalling_witness :
    ((fwReady ⟨PCI_VENDOR_ID_INTEL, 1, 2, false, 0⟩).lpc_bridge = some ⟨PCI_VENDOR_ID_INTEL, 0⟩ ∧
      (fwReady ⟨PCI_VENDOR_ID_INTEL, 1, 2, false, 0⟩).start_offset = INTEL_OFFSET ∧
      ((∃ (c : (Int × List Nat) × Backend FwState) (mid : List Event),
        nbsmi_smi_command (fwPlatform ⟨PCI_VENDOR_ID_INTEL, 1, 2, false, 0⟩) 0x3c (List.replicate BUFFER_SIZE 7) (fwReady ⟨PCI_VENDOR_ID_INTEL, 1, 2, false, 0⟩) = some c ∧
        (c.1.1 = 0 ∨ c.1.1 = - EIO) ∧
        c.1.2.length = BUFFER_SIZE ∧
        c.2.w.trace = (fwReady ⟨PCI_VENDOR_ID_INTEL, 1, 2, false, 0⟩).w.trace ++ marshal_events (fwReady ⟨PCI_VENDOR_ID_INTEL, 1, 2, false, 0⟩).start_offset (List.replicate BUFFER_SIZE 7) ++ mid
          ++ readback_events (fwReady ⟨PCI_VENDOR_ID_INTEL, 1, 2, false, 0⟩).start_offset c.1.2 ∧
        (∀ e ∈ mid, isBytePort e = false) ∧
        (trapEvents mid).length = 1) ∧
      (fwReady ⟨PCI_VENDOR_ID_INTEL, 1, 2, false, 0⟩).start_offset + 31 ≤ 0xff ∧
      (∀ k, k < BUFFER_SIZE → (k + (fwReady ⟨PCI_VENDOR_ID_INTEL, 1, 2, false, 0⟩).start_offset) % 256 = (fwReady ⟨PCI_VENDOR_ID_INTEL, 1, 2, false, 0⟩).start_offset + k) ∧
      (index_bytes (fwReady ⟨PCI_VENDOR_ID_INTEL, 1, 2, false, 0⟩).start_offset).Nodup ∧
      INTEL_OFFSET = 0x60 ∧ ATI_OFFSET = 0xe0)) ∧
    ((fwReady ⟨PCI_VENDOR_ID_ATI, 1, 2, true, 0⟩).lpc_bridge = some ⟨PCI_VENDOR_ID_ATI, 0⟩ ∧
      (fwReady ⟨PCI_VENDOR_ID_ATI, 1, 2, true, 0⟩).start_offset = ATI_OFFSET ∧
      ((∃ (c : (Int × List Nat) × Backend FwState) (mid : List Event),
        nbsmi_smi_command (fwPlatform ⟨PCI_VENDOR_ID_ATI, 1, 2, true, 0⟩) 0x3c (List.replicate BUFFER_SIZE 7) (fwReady ⟨PCI_VENDOR_ID_ATI, 1, 2, true, 0⟩) = some c ∧
        (c.1.1 = 0 ∨ c.1.1 = - EIO) ∧
        c.1.2.length = BUFFER_SIZE ∧
        c.2.w.trace = (fwReady ⟨PCI_VENDOR_ID_ATI, 1, 2, true, 0⟩).w.trace ++ marshal_events (fwReady ⟨PCI_VENDOR_ID_ATI, 1, 2, true, 0⟩).start_offset (List.replicate BUFFER_SIZE 7) ++ mid
          ++ readback_events (fwReady ⟨PCI_VENDOR_ID_ATI, 1, 2, true, 0⟩).start_offset c.1.2 ∧
        (∀ e ∈ mid, isBytePort e = false) ∧
        (trapEvents mid).length = 1) ∧
      (fwReady ⟨PCI_VENDOR_ID_ATI, 1, 2, true, 0⟩).start_offset + 31 ≤ 0xff ∧
      (∀ k, k < BUFFER_SIZE → (k + (fwReady ⟨PCI_VENDOR_ID_ATI, 1, 2, true, 0⟩).start_offset) % 256 = (fwReady ⟨PCI_VENDOR_ID_ATI, 1, 2, true, 0⟩).start_offset + k) ∧
      (index_bytes (fwReady ⟨PCI_VENDOR_ID_ATI, 1, 2, true, 0⟩).start_offset).Nodup ∧
      INTEL_OFFSET = 0x60 ∧ ATI_OFFSET = 0xe0)) :=
  ⟨⟨rfl, rfl,
      smi_buffer_marshalling (fwPlatform ⟨PCI_VENDOR_ID_INTEL, 1, 2, false, 0⟩) 0x3c
        (List.replicate BUFFER_SIZE 7) (fwReady ⟨PCI_VENDOR_ID_INTEL, 1, 2, false, 0⟩)
        ⟨PCI_VENDOR_ID_INTEL, 0⟩ rfl (Or.inl rfl) rfl⟩,
    ⟨rfl, rfl,
      smi_buffer_marshalling (fwPlatform ⟨PCI_VENDOR_ID_ATI, 1, 2, true, 0⟩) 0x3c
        (List.replicate BUFFER_SIZE 7) (fwReady ⟨PCI_VENDOR_ID_ATI, 1, 2, true, 0⟩)
        ⟨PCI_VENDOR_ID_ATI, 0⟩ rfl (Or.inr rfl) rfl⟩⟩

theorem trapEvents_append (a b : List Event) :
    trapEvents (a ++ b) = trapEvents a ++ trapEvents b := by
  simp [trapEvents, List.filter_append]

theorem trapEvents_marshal (so : Nat) (inp : List Nat) :
    trapEvents (marshal_events so inp) = [] := by
  simp only [trapEvents, List.filter_eq_nil_iff, marshal_events, List.mem_flatMap]
  rintro e ⟨k, _, hk⟩
  simp only [List.mem_cons, List.mem_singleton, List.not_mem_nil, or_false] at hk
  rcases hk with h | h <;> rw [h] <;> simp

theorem trapEvents_readback (so : Nat) (out : List Nat) :
    trapEvents (readback_events so out) = [] := by
  simp only [trapEvents, List.filter_eq_nil_iff, readback_events, List.mem_flatMap]
  rintro e ⟨k, _, hk⟩
  simp only [List.mem_cons, List.mem_singleton, List.not_mem_nil, or_false] at hk
  rcases hk with h | h <;> rw [h] <;> simp

/-- C16: function-code encoding.  On an Intel or ATI bridge `nbsmi_smi_command`
takes exactly one trap, and the word it hands to the trap is
`smi_function_word f`, that is `((f & 0xff) << 8) | 0xe4` on 16 bits.  That
word equals `(f mod 256) * 256 + 0xe4`: it fits 16 bits, its low byte is 0xe4,
its high byte is the low byte of `f`, and two function values with the same
low byte give the same word (the upper bits of `f` have no influence). -/
theorem smi_function_word_encoding (P : Platform σ) (f : Nat) (inp : List Nat)
    (s : Backend σ) (dev : PciDev) (hbr : s.lpc_bridge = some dev)
    (hv : dev.vendor = PCI_VENDOR_ID_INTEL ∨ dev.vendor = PCI_VENDOR_ID_ATI) :
    ((∃ (c : (Int × List Nat) × Backend σ) (ax : Nat),
        nbsmi_smi_command P f inp s = some c ∧
        trapEvents c.2.w.trace = trapEvents s.w.trace ++
          [Event.smi_trap (smi_function_word f)
            (if dev.vendor = PCI_VENDOR_ID_INTEL then INTEL_SMI_PORT else ATI_SMI_PORT) ax]) ∧
      smi_function_word f = (f % 256) * 256 + 0xe4 ∧
      smi_function_word f < 65536 ∧
      smi_function_word f % 256 = 0xe4 ∧
      smi_function_word f / 256 = f % 256 ∧
      (∀ g, g % 256 = f % 256 → smi_function_word g = smi_function_word f)) := by
  obtain ⟨c, mid, ax, hc, _, htr, _, htp⟩ := smi_command_trace P f inp s dev hbr hv
  have hlt := Nat.mod_lt f (show 0 < 256 by decide)
  refine ⟨⟨c, ax, hc, ?_⟩, smi_function_word_eq f, ?_, ?_, ?_, ?_⟩
  · rw [htr, trapEvents_append, trapEvents_append, trapEvents_append, trapEvents_marshal,
      trapEvents_readback, htp, List.append_nil, List.append_nil]
  · rw [smi_function_word_eq]
    omega
  · rw [smi_function_word_eq]
    omega
  · rw [smi_function_word_eq]
    omega
  · intro g hg
    rw [smi_function_word_eq, smi_function_word_eq, hg]

/-- Witness for C16 on the mock firmware platform with an Intel bridge:
function value 0x123c gives the word 0x3ce4. -/
theorem smi_function_word_encoding_witness :
    (fwReady ⟨PCI_VENDOR_ID_INTEL, 1, 2, false, 0⟩).lpc_bridge = some ⟨PCI_VENDOR_ID_INTEL, 0⟩ ∧
    smi_function_word 0x123c = 0x3ce4 ∧
    ((∃ (c : (Int × List Nat) × Backend FwState) (ax : Nat),
        nbsmi_smi_command (fwPlatform ⟨PCI_VENDOR_ID_INTEL, 1, 2, false, 0⟩) 0x123c (List.replicate BUFFER_SIZE 0) (fwReady ⟨PCI_VENDOR_ID_INTEL, 1, 2, false, 0⟩) = some c ∧
        trapEvents c.2.w.trace = trapEvents (fwReady ⟨PCI_VENDOR_ID_INTEL, 1, 2, false, 0⟩).w.trace ++
          [Event.smi_trap (smi_function_word 0x123c)
            (if (⟨PCI_VENDOR_ID_INTEL, 0⟩ : PciDev).vendor = PCI_VENDOR_ID_INTEL then INTEL_SMI_PORT else ATI_SMI_PORT) ax]) ∧
      smi_function_word 0x123c = (0x123c % 256) * 256 + 0xe4 ∧
      smi_function_word 0x123c < 65536 ∧
      smi_function_word 0x123c % 256 = 0xe4 ∧
      smi_function_word 0x123c / 256 = 0x123c % 256 ∧
      (∀ g, g % 256 = 0x123c % 256 → smi_function_word g = smi_function_word 0x123c)) :=
  ⟨rfl, by decide,
    smi_function_word_encoding (fwPlatform ⟨PCI_VENDOR_ID_INTEL, 1, 2, false, 0⟩) 0x123c
      (List.replicate BUFFER_SIZE 0) (fwReady ⟨PCI_VENDOR_ID_INTEL, 1, 2, false, 0⟩)
      ⟨PCI_VENDOR_ID_INTEL, 0⟩ rfl (Or.inl rfl)⟩

theorem dataPortWrites_append (a b : List Event) :
    dataPortWrites (a ++ b) = dataPortWrites a ++ dataPortWrites b := by
  simp [dataPortWrites, List.filterMap_append]

theorem dataPortWrites_of_no_byte_io (mid : List Event)
    (h : ∀ e ∈ mid, isBytePort e = false) : dataPortWrites mid = [] := by
  induction mid with
  | nil => rfl
  | cons e l ih =>
    have he := h e (List.mem_cons_self e l)
    have hl := ih (fun x hx => h x (List.mem_cons_of_mem e hx))
    cases e <;> first
      | (simp [isBytePort] at he; done)
      | (simp only [dataPortWrites, List.filterMap_cons] at hl ⊢; exact hl)

theorem replicate_getD_zero (n k : Nat) : (List.replicate n 0).getD k 0 = 0 := by
  induction n generalizing k with
  | zero => rfl
  | succ n ih =>
    cases k with
    | zero => rfl
    | succ k => exact ih k

/-- The marshalling phase of an all-zero buffer writes 32 zero bytes to the
data port. -/
theorem dataPortWrites_marshal_zero (so : Nat) :
    dataPortWrites (marshal_events so (List.replicate BUFFER_SIZE 0))
      = List.replicate BUFFER_SIZE 0 := by
  have key : ∀ (n s : Nat),
      dataPortWrites ((List.range' s n).flatMap (fun k =>
        [Event.outb ((k + so) % 256) (RTC_PORT 2),
         Event.outb ((List.replicate BUFFER_SIZE 0).getD k 0 % 256) (RTC_PORT 3)]))
        = List.replicate n 0 := by
    intro n
    induction n with
    | zero =>
      intro s
      rfl
    | succ n ih =>
      intro s
      rw [List.range'_succ, List.flatMap_cons, dataPortWrites_append, ih, replicate_getD_zero]
      rfl
  rw [marshal_events, List.range_eq_range']
  exact key BUFFER_SIZE 0

/-- The read-back phase writes nothing to the data port. -/
theorem dataPortWrites_readback (so : Nat) (out : List Nat) :
    dataPortWrites (readback_events so out) = [] := by
  have key : ∀ (n s : Nat),
      dataPortWrites ((List.range' s n).flatMap (fun k =>
        [Event.outb ((k + so) % 256) (RTC_PORT 2),
         Event.inb (RTC_PORT 3) (out.getD k 0)])) = [] := by
    intro n
    induction n with
    | zero =>
      intro s
      rfl
    | succ n ih =>
      intro s
      rw [List.range'_succ, List.flatMap_cons, dataPortWrites_append, ih]
      rfl
  rw [readback_events, List.range_eq_range']
  exact key BUFFER_SIZE 0

/-- A function value and its 16-bit truncation give the same word. -/
theorem smi_function_word_u16 (f : Nat) :
    smi_function_word (f % 65536) = smi_function_word f := by
  rw [smi_function_word_eq, smi_function_word_eq, Nat.mod_mod_of_dvd f (by decide)]

/-- Trace of `nbsmi_smi_read_command` once the mutex is taken and both buffers
are allocated, on a supported bridge. -/
theorem read_command_trace (P : Platform σ) (io_op : omnibook_operation) (data : Nat)
    (s : Backend σ) (dev : PciDev) (hbr : s.lpc_bridge = some dev)
    (hv : dev.vendor = PCI_VENDOR_ID_INTEL ∨ dev.vendor = PCI_VENDOR_ID_ATI)
    (hl : (smi_mutex_lock_interruptible P s).1 = false)
    (ha : (smi_kmalloc P (smi_mutex_lock_interruptible P s).2).1 = true)
    (hb : (smi_kmalloc P (smi_kmalloc P (smi_mutex_lock_interruptible P s).2).2).1 = true) :
    ∃ (r : (Int × Nat) × Backend σ) (out mid : List Event) (ax : Nat),
      nbsmi_smi_read_command P io_op data s = some r ∧
      r.2.w.trace = s.w.trace ++ [Event.smi_mutex_lock, Event.kmalloc true, Event.kmalloc true]
        ++ marshal_events s.start_offset (List.replicate BUFFER_SIZE 0) ++ mid ++ out
        ++ [Event.kfree, Event.kfree, Event.smi_mutex_unlock] ∧
      (∀ e ∈ mid, isBytePort e = false) ∧
      trapEvents mid = [Event.smi_trap (smi_function_word io_op.read_addr)
        (if dev.vendor = PCI_VENDOR_ID_INTEL then INTEL_SMI_PORT else ATI_SMI_PORT) ax] ∧
      dataPortWrites out = [] ∧ trapEvents out = [] := by
  have hbr2 : (smi_kmalloc P (smi_kmalloc P (smi_mutex_lock_interruptible P s).2).2).2.lpc_bridge
      = some dev := hbr
  have htr0 : (smi_kmalloc P (smi_kmalloc P (smi_mutex_lock_interruptible P s).2).2).2.w.trace
      = s.w.trace ++ [Event.smi_mutex_lock, Event.kmalloc true, Event.kmalloc true] := by
    have e3 : (smi_kmalloc P (smi_kmalloc P (smi_mutex_lock_interruptible P s).2).2).2.w.trace
        = (smi_kmalloc P (smi_mutex_lock_interruptible P s).2).2.w.trace
          ++ [Event.kmalloc
              (smi_kmalloc P (smi_kmalloc P (smi_mutex_lock_interruptible P s).2).2).1] := rfl
    have e2 : (smi_kmalloc P (smi_mutex_lock_interruptible P s).2).2.w.trace
        = (smi_mutex_lock_interruptible P s).2.w.trace
          ++ [Event.kmalloc (smi_kmalloc P (smi_mutex_lock_interruptible P s).2).1] := rfl
    have e1 : (smi_mutex_lock_interruptible P s).2.w.trace
        = if (smi_mutex_lock_interruptible P s).1 then s.w.trace
          else s.w.trace ++ [Event.smi_mutex_lock] := rfl
    rw [e3, e2, e1, hl, ha, hb]
    simp
  obtain ⟨c, mid, ax, hc, _, htr, hnb, htp⟩ := smi_command_trace P (io_op.read_addr % 65536)
    (List.replicate BUFFER_SIZE 0)
    (smi_kmalloc P (smi_kmalloc P (smi_mutex_lock_interruptible P s).2).2).2 dev hbr2 hv
  have hbn : s.lpc_bridge.isNone = false := by rw [hbr]; rfl
  have hunf := smi_read_command_result_aux P io_op data s hbn hl ha hb c hc
  have hso : (smi_kmalloc P (smi_kmalloc P (smi_mutex_lock_interruptible P s).2).2).2.start_offset
      = s.start_offset := rfl
  rw [htr0, hso] at htr
  rw [smi_function_word_u16] at htp
  have hex : ∃ r : (Int × Nat) × Backend σ,
      nbsmi_smi_read_command P io_op data s = some r ∧ r.2 = smi_cleanup c.2 := by
    rw [hunf]
    split
    · exact ⟨_, rfl, rfl⟩
    · split
      · exact ⟨_, rfl, rfl⟩
      · exact ⟨_, rfl, rfl⟩
  obtain ⟨r, hr, hr2⟩ := hex
  refine ⟨r, readback_events s.start_offset c.1.2, mid, ax, hr, ?_, hnb, htp,
    dataPortWrites_readback _ _, trapEvents_readback _ _⟩
  rw [hr2]
  simp only [smi_cleanup, Backend.ev, World.log, htr, List.append_assoc, List.cons_append,
    List.nil_append]

/-- What `nbsmi_smi_read_command` sends to the firmware: 32 zero bytes on the
data port and one trap whose word encodes `read_addr`. -/
theorem read_command_io (P : Platform σ) (io_op : omnibook_operation) (data : Nat)
    (s : Backend σ) (dev : PciDev) (hbr : s.lpc_bridge = some dev)
    (hv : dev.vendor = PCI_VENDOR_ID_INTEL ∨ dev.vendor = PCI_VENDOR_ID_ATI)
    (hl : (smi_mutex_lock_interruptible P s).1 = false)
    (ha : (smi_kmalloc P (smi_mutex_lock_interruptible P s).2).1 = true)
    (hb : (smi_kmalloc P (smi_kmalloc P (smi_mutex_lock_interruptible P s).2).2).1 = true) :
    ∃ (r : (Int × Nat) × Backend σ) (ax : Nat),
      nbsmi_smi_read_command P io_op data s = some r ∧
      dataPortWrites r.2.w.trace
        = dataPortWrites s.w.trace ++ List.replicate BUFFER_SIZE 0 ∧
      trapEvents r.2.w.trace = trapEvents s.w.trace ++
        [Event.smi_trap (smi_function_word io_op.read_addr)
          (if dev.vendor = PCI_VENDOR_ID_INTEL then INTEL_SMI_PORT else ATI_SMI_PORT) ax] := by
  obtain ⟨r, out, mid, ax, hr, htr, hnb, htp, hdo, hto⟩ :=
    read_command_trace P io_op data s dev hbr hv hl ha hb
  refine ⟨r, ax, hr, ?_, ?_⟩
  · rw [htr]
    simp only [dataPortWrites_append, dataPortWrites_marshal_zero,
      dataPortWrites_of_no_byte_io mid hnb, hdo, List.append_nil]
    have h1 : dataPortWrites [Event.smi_mutex_lock, Event.kmalloc true, Event.kmalloc true]
        = [] := rfl
    have h2 : dataPortWrites [Event.kfree, Event.kfree, Event.smi_mutex_unlock] = [] := rfl
    rw [h1, h2, List.append_nil, List.append_nil]
  · rw [htr]
    simp only [trapEvents_append, trapEvents_marshal, htp, hto, List.append_nil]
    have h1 : trapEvents [Event.smi_mutex_lock, Event.kmalloc true, Event.kmalloc true]
        = [] := rfl
    have h2 : trapEvents [Event.kfree, Event.kfree, Event.smi_mutex_unlock] = [] := rfl
    rw [h1, h2, List.append_nil, List.append_nil]

/-- C14 as amended: for every descriptor, on a supported bridge with the mutex
taken and both buffers allocated, `nbsmi_smi_read_command` marshals an all-zero
32-byte input buffer (the 32 bytes it writes to the data port are all 0) and
hands the descriptor's read address to the firmware as the function code: the
one trap it takes carries the word `((read_addr & 0xff) << 8) | 0xe4`, whose
high byte is the low byte of `read_addr`. -/
theorem smi_read_command_zero_buffer (P : Platform σ) (io_op : omnibook_operation)
    (data : Nat) (s : Backend σ) (dev : PciDev) (hbr : s.lpc_bridge = some dev)
    (hv : dev.vendor = PCI_VENDOR_ID_INTEL ∨ dev.vendor = PCI_VENDOR_ID_ATI)
    (hl : (smi_mutex_lock_interruptible P s).1 = false)
    (ha : (smi_kmalloc P (smi_mutex_lock_interruptible P s).2).1 = true)
    (hb : (smi_kmalloc P (smi_kmalloc P (smi_mutex_lock_interruptible P s).2).2).1 = true) :
    (∃ (r : (Int × Nat) × Backend σ) (ax : Nat),
      nbsmi_smi_read_command P io_op data s = some r ∧
      dataPortWrites r.2.w.trace
        = dataPortWrites s.w.trace ++ List.replicate BUFFER_SIZE 0 ∧
      trapEvents r.2.w.trace = trapEvents s.w.trace ++
        [Event.smi_trap (smi_function_word io_op.read_addr)
          (if dev.vendor = PCI_VENDOR_ID_INTEL then INTEL_SMI_PORT else ATI_SMI_PORT) ax] ∧
      smi_function_word io_op.read_addr / 256 = io_op.read_addr % 256) := by
  obtain ⟨r, ax, hr, hd, ht⟩ := read_command_io P io_op data s dev hbr hv hl ha hb
  exact ⟨r, ax, hr, hd, ht, (smi_function_word_facts io_op.read_addr).2.1⟩

/-- Witness for C14 as amended, on the mock firmware platform with an Intel
bridge: descriptor with read address 0x3c. -/
theorem smi_read_command_zero_buffer_witness :
    (fwReady ⟨PCI_VENDOR_ID_INTEL, 1, 2, false, 0⟩).lpc_bridge = some ⟨PCI_VENDOR_ID_INTEL, 0⟩ ∧
    (smi_mutex_lock_interruptible (fwPlatform ⟨PCI_VENDOR_ID_INTEL, 1, 2, false, 0⟩)
      (fwReady ⟨PCI_VENDOR_ID_INTEL, 1, 2, false, 0⟩)).1 = false ∧
    (∃ (r : (Int × Nat) × Backend FwState) (ax : Nat),
      nbsmi_smi_read_command (fwPlatform ⟨PCI_VENDOR_ID_INTEL, 1, 2, false, 0⟩) (⟨0x3c, 0x3d, 0⟩ : omnibook_operation) 0 (fwReady ⟨PCI_VENDOR_ID_INTEL, 1, 2, false, 0⟩) = some r ∧
      dataPortWrites r.2.w.trace
        = dataPortWrites (fwReady ⟨PCI_VENDOR_ID_INTEL, 1, 2, false, 0⟩).w.trace ++ List.replicate BUFFER_SIZE 0 ∧
      trapEvents r.2.w.trace = trapEvents (fwReady ⟨PCI_VENDOR_ID_INTEL, 1, 2, false, 0⟩).w.trace ++
        [Event.smi_trap (smi_function_word (⟨0x3c, 0x3d, 0⟩ : omnibook_operation).read_addr)
          (if (⟨PCI_VENDOR_ID_INTEL, 0⟩ : PciDev).vendor = PCI_VENDOR_ID_INTEL then INTEL_SMI_PORT else ATI_SMI_PORT) ax] ∧
      smi_function_word (⟨0x3c, 0x3d, 0⟩ : omnibook_operation).read_addr / 256 = (⟨0x3c, 0x3d, 0⟩ : omnibook_operation).read_addr % 256) :=
  ⟨rfl, rfl,
    smi_read_command_zero_buffer (fwPlatform ⟨PCI_VENDOR_ID_INTEL, 1, 2, false, 0⟩) ⟨0x3c, 0x3d, 0⟩ 0
      (fwReady ⟨PCI_VENDOR_ID_INTEL, 1, 2, false, 0⟩) ⟨PCI_VENDOR_ID_INTEL, 0⟩ rfl (Or.inl rfl) rfl rfl rfl⟩

/-- Counterexample to C14 as stated: for the descriptor with read address 0x3c
on the mock firmware platform, the 32 bytes `nbsmi_smi_read_command` marshals
to the data port are all 0; the read address 0x3c is not among them. -/
theorem smi_read_input_buffer_lacks_read_addr :
    ∃ r : (Int × Nat) × Backend FwState,
      nbsmi_smi_read_command (fwPlatform ⟨PCI_VENDOR_ID_INTEL, 1, 2, false, 0⟩) ⟨0x3c, 0x3d, 0⟩ 0
        (fwReady ⟨PCI_VENDOR_ID_INTEL, 1, 2, false, 0⟩) = some r ∧
      dataPortWrites r.2.w.trace = List.replicate BUFFER_SIZE 0 ∧
      ¬ ((⟨0x3c, 0x3d, 0⟩ : omnibook_operation).read_addr ∈ dataPortWrites r.2.w.trace) := by
  obtain ⟨r, _, hr, hd, _⟩ := read_command_io (fwPlatform ⟨PCI_VENDOR_ID_INTEL, 1, 2, false, 0⟩)
    ⟨0x3c, 0x3d, 0⟩ 0 (fwReady ⟨PCI_VENDOR_ID_INTEL, 1, 2, false, 0⟩) ⟨PCI_VENDOR_ID_INTEL, 0⟩ rfl (Or.inl rfl)
    rfl rfl rfl
  have hd2 : dataPortWrites r.2.w.trace = List.replicate BUFFER_SIZE 0 := by
    rw [hd]
    rfl
  refine ⟨r, hr, hd2, ?_⟩
  rw [hd2]
  decide

/-! ## SMI backend: which aerial bit is which -/

/-- The result of `omnibook_nbsmi_get_wireless` when both reads succeed with
the bytes `k` (killswitch) and `a` (aerial). -/
theorem get_wireless_of_reads (P : Platform σ) (old k a : Nat) (s s1 s2 : Backend σ)
    (h1 : nbsmi_smi_read_command P
      { read_addr := P.SMI_GET_KILL_SWITCH, write_addr := 0, read_mask := 0 } 0 s
        = some ((0, k), s1))
    (h2 : nbsmi_smi_read_command P
      { read_addr := P.SMI_GET_AERIAL, write_addr := 0, read_mask := 0 } k s1
        = some ((0, a), s2)) :
    omnibook_nbsmi_get_wireless P old s
      = some ((0, ((((if k ≠ 0 then KILLSWITCH else 0) |||
          (if a &&& WLEX_MASK ≠ 0 then WIFI_EX else 0)) |||
          (if a &&& WLAT_MASK ≠ 0 then WIFI_STA else 0)) |||
          (if a &&& BTEX_MASK ≠ 0 then BT_EX else 0)) |||
          (if a &&& BTAT_MASK ≠ 0 then BT_STA else 0)), s2) := by
  simp only [omnibook_nbsmi_get_wireless, h1, h2, ne_eq, not_true_eq_false, if_false]

/-- C13 as amended: in the aerial-status read of `omnibook_nbsmi_get_wireless`
(function code `SMI_GET_AERIAL`), bit 2 of the raw aerial byte maps to WIFI_EX
and bit 3 to WIFI_STA: for every raw byte `a`, WIFI_EX is set in the result iff
`(a & 0x4) != 0` and WIFI_STA iff `(a & 0x8) != 0` (bits 0 and 1 are BT_EX and
BT_STA).  The killswitch is decoded from the separate, earlier read with
function code `SMI_GET_KILL_SWITCH`, whose byte `k` alone decides KILLSWITCH. -/
theorem get_wireless_aerial_bits (P : Platform σ) (old k a : Nat) (s s1 s2 : Backend σ)
    (h1 : nbsmi_smi_read_command P
      { read_addr := P.SMI_GET_KILL_SWITCH, write_addr := 0, read_mask := 0 } 0 s
        = some ((0, k), s1))
    (h2 : nbsmi_smi_read_command P
      { read_addr := P.SMI_GET_AERIAL, write_addr := 0, read_mask := 0 } k s1
        = some ((0, a), s2)) :
    ∃ st, omnibook_nbsmi_get_wireless P old s = some ((0, st), s2) ∧
      (st &&& WIFI_EX ≠ 0 ↔ a &&& 0x4 ≠ 0) ∧
      (st &&& WIFI_STA ≠ 0 ↔ a &&& 0x8 ≠ 0) ∧
      (st &&& BT_EX ≠ 0 ↔ a &&& 0x1 ≠ 0) ∧
      (st &&& BT_STA ≠ 0 ↔ a &&& 0x2 ≠ 0) ∧
      (st &&& KILLSWITCH ≠ 0 ↔ k ≠ 0) := by
  have hf := wireless_word_facts k a _ rfl
  exact ⟨_, get_wireless_of_reads P old k a s s1 s2 h1 h2, hf.2.2.1, hf.2.2.2.1,
    hf.2.2.2.2.1, hf.2.2.2.2.2, hf.2.1⟩

/-- Witness for C13 as amended: the firmware answers the aerial function with
the byte 0x4 and the killswitch function with 0; the state has WIFI_EX. -/
theorem get_wireless_aerial_bits_witness :
    ∃ s2 st,
      omnibook_nbsmi_get_wireless (fwPlatform ⟨PCI_VENDOR_ID_INTEL, 0x3c, 2, false, 0⟩) 0
          (fwReadyStored ⟨PCI_VENDOR_ID_INTEL, 0x3c, 2, false, 0⟩ 0x4)
        = some ((0, st), s2) ∧
      (st &&& WIFI_EX ≠ 0 ↔ 0x4 &&& 0x4 ≠ 0) ∧
      (st &&& WIFI_STA ≠ 0 ↔ 0x4 &&& 0x8 ≠ 0) ∧
      (st &&& BT_EX ≠ 0 ↔ 0x4 &&& 0x1 ≠ 0) ∧
      (st &&& BT_STA ≠ 0 ↔ 0x4 &&& 0x2 ≠ 0) ∧
      (st &&& KILLSWITCH ≠ 0 ↔ 0 ≠ 0) := by
  have i1 : (nbsmi_smi_read_command (fwPlatform ⟨PCI_VENDOR_ID_INTEL, 0x3c, 2, false, 0⟩)
      { read_addr := (fwPlatform ⟨PCI_VENDOR_ID_INTEL, 0x3c, 2, false, 0⟩).SMI_GET_KILL_SWITCH,
        write_addr := 0, read_mask := 0 } 0
      (fwReadyStored ⟨PCI_VENDOR_ID_INTEL, 0x3c, 2, false, 0⟩ 0x4)).isSome = true := rfl
  have h1 := some_get_pair _ i1 (0, 0) rfl
  have i2 : (nbsmi_smi_read_command (fwPlatform ⟨PCI_VENDOR_ID_INTEL, 0x3c, 2, false, 0⟩)
      { read_addr := (fwPlatform ⟨PCI_VENDOR_ID_INTEL, 0x3c, 2, false, 0⟩).SMI_GET_AERIAL,
        write_addr := 0, read_mask := 0 } 0
      ((nbsmi_smi_read_command (fwPlatform ⟨PCI_VENDOR_ID_INTEL, 0x3c, 2, false, 0⟩)
        { read_addr := (fwPlatform ⟨PCI_VENDOR_ID_INTEL, 0x3c, 2, false, 0⟩).SMI_GET_KILL_SWITCH,
          write_addr := 0, read_mask := 0 } 0
        (fwReadyStored ⟨PCI_VENDOR_ID_INTEL, 0x3c, 2, false, 0⟩ 0x4)).get i1).2).isSome = true := rfl
  have h2 := some_get_pair _ i2 (0, 0x4) rfl
  exact ⟨_, get_wireless_aerial_bits (fwPlatform ⟨PCI_VENDOR_ID_INTEL, 0x3c, 2, false, 0⟩) 0 0 0x4
    (fwReadyStored ⟨PCI_VENDOR_ID_INTEL, 0x3c, 2, false, 0⟩ 0x4) _ _ h1 h2⟩

/-- Counterexample to C13 as stated: the firmware answers the aerial function
with the raw byte 1 (bit 0 set) and the killswitch function with 0; both reads
succeed, and the result is exactly BT_EX: WIFI_EX is not set although
`(1 & 0x1) != 0`. -/
theorem get_wireless_bit0_is_not_wifi :
    ∃ s1 s2 st,
      nbsmi_smi_read_command (fwPlatform ⟨PCI_VENDOR_ID_INTEL, 0x3c, 2, false, 0⟩)
        { read_addr := (fwPlatform ⟨PCI_VENDOR_ID_INTEL, 0x3c, 2, false, 0⟩).SMI_GET_KILL_SWITCH,
          write_addr := 0, read_mask := 0 } 0
        (fwReadyStored ⟨PCI_VENDOR_ID_INTEL, 0x3c, 2, false, 0⟩ 1) = some ((0, 0), s1) ∧
      nbsmi_smi_read_command (fwPlatform ⟨PCI_VENDOR_ID_INTEL, 0x3c, 2, false, 0⟩)
        { read_addr := (fwPlatform ⟨PCI_VENDOR_ID_INTEL, 0x3c, 2, false, 0⟩).SMI_GET_AERIAL,
          write_addr := 0, read_mask := 0 } 0 s1 = some ((0, 1), s2) ∧
      omnibook_nbsmi_get_wireless (fwPlatform ⟨PCI_VENDOR_ID_INTEL, 0x3c, 2, false, 0⟩) 0
          (fwReadyStored ⟨PCI_VENDOR_ID_INTEL, 0x3c, 2, false, 0⟩ 1)
        = some ((0, st), s2) ∧
      st = BT_EX ∧
      ¬ (st &&& WIFI_EX ≠ 0 ↔ 1 &&& 0x1 ≠ 0) := by
  have i1 : (nbsmi_smi_read_command (fwPlatform ⟨PCI_VENDOR_ID_INTEL, 0x3c, 2, false, 0⟩)
      { read_addr := (fwPlatform ⟨PCI_VENDOR_ID_INTEL, 0x3c, 2, false, 0⟩).SMI_GET_KILL_SWITCH,
        write_addr := 0, read_mask := 0 } 0
      (fwReadyStored ⟨PCI_VENDOR_ID_INTEL, 0x3c, 2, false, 0⟩ 1)).isSome = true := rfl
  have h1 := some_get_pair _ i1 (0, 0) rfl
  have i2 : (nbsmi_smi_read_command (fwPlatform ⟨PCI_VENDOR_ID_INTEL, 0x3c, 2, false, 0⟩)
      { read_addr := (fwPlatform ⟨PCI_VENDOR_ID_INTEL, 0x3c, 2, false, 0⟩).SMI_GET_AERIAL,
        write_addr := 0, read_mask := 0 } 0
      ((nbsmi_smi_read_command (fwPlatform ⟨PCI_VENDOR_ID_INTEL, 0x3c, 2, false, 0⟩)
        { read_addr := (fwPlatform ⟨PCI_VENDOR_ID_INTEL, 0x3c, 2, false, 0⟩).SMI_GET_KILL_SWITCH,
          write_addr := 0, read_mask := 0 } 0
        (fwReadyStored ⟨PCI_VENDOR_ID_INTEL, 0x3c, 2, false, 0⟩ 1)).get i1).2).isSome = true := rfl
  have h2 := some_get_pair _ i2 (0, 1) rfl
  refine ⟨_, _, _, h1, h2, get_wireless_of_reads _ 0 0 1 _ _ _ h1 h2, ?_, ?_⟩
  · decide
  · decide

/-! ## SMI backend: the enable register during the trap -/

/-- C18 (defect in the code): the comment in `intel_do_smi_call` announces
"save the state, disable all SCI and restore the state", but the function
writes nothing between reading the enable register and the trap.  On the mock
Intel bridge whose `GPE0_EN` register (port 0x102c) holds 0x10, the only
`outl` of the call comes after the trap, and the register content the SMI
handler finds at the trap is the saved value 0x10, enable bit still set. -/
theorem intel_smi_call_trap_sees_saved_enable :
    ∃ r : Nat × Backend GpeState,
      intel_do_smi_call (gpePlatform 0x1001 false) 0x3ce4 (gpeReady 0x10) = some r ∧
      r.2.w.m.seen = [0x10] ∧
      r.2.w.trace = [Event.smi_spin_lock,
        Event.pci_read_config_dword 0x40 0x1001,
        Event.inl 0x102c 0x10,
        Event.smi_trap 0x3ce4 0xb2 0,
        Event.outl 0x10 0x102c,
        Event.smi_spin_unlock] :=
  ⟨_, gpe_intel_call_ok, rfl, rfl⟩

end Omnibook
